import Mathlib

/-!
Chameleon 1.9.1: the deterministic profile generator

A shallow embedding of the two profile generators of the extension
(`src/content/chameleon-main.js` and `src/content/modules/profile-generator.js`)
and of the primitives they share, followed by the properties proved of them.

Conventions of the embedding

* The weighted selection (`selectWeighted`, and the sums of weights it works on)
  is computed in IEEE 754 doubles, type `Double`: every operation rounds to the
  nearest double, ties to even, as the engine does; the item returned depends
  on that rounding.  The sign of zero is not kept (no operation of the
  selection tells the two zeros apart).
* Elsewhere JavaScript numbers are exact rationals, `none : JSNum` is `NaN`, and
  the rounding of doubles is not modelled.
* `undefined` is `none`; reading a property of `undefined` raises
  `JSError.typeError`.
* `new Math.seedrandom(seed)` comes from a library outside the repository.  It
  is a field of `Host`: the stream of numbers the seeded generator returns.  A
  generator object is that stream plus the number of draws taken so far; a log
  of the steps that took the draws is kept beside it.
* `Array.prototype.sort` with the comparator `() => rng() - 0.5` is engine
  defined; it is a field of `Host` as well, and so is `toLowerCase`.
* `Date.now()` and the time zone database are the fields of `World`.
* The knowledge base is typed: every field of the schema is present and has
  the type the code expects, except where the code itself allows for its
  absence (`archetype.fonts`, the `languages` of a timezone entry).  Lists may
  be empty and the parallel arrays of weights may be shorter than the arrays
  they weigh.

The file has two parts: the definitions, then the theorems.
-/

namespace Chameleon

/-! ## Numbers -/

/-- A JavaScript number: `some q` is a finite number, `none` is `NaN`. -/
abbrev JSNum := Option ℚ

/-- Addition `a + b` of JavaScript numbers. -/
def JSNum.add (a b : JSNum) : JSNum :=
  match a, b with
  | some x, some y => some (x + y)
  | _, _ => none

/-- Multiplication `a * b` of JavaScript numbers. -/
def JSNum.mul (a b : JSNum) : JSNum :=
  match a, b with
  | some x, some y => some (x * y)
  | _, _ => none

/-! ## Doubles -/

/-- An IEEE 754 double, the two zeros taken as one: a finite value, an infinity, or `NaN`. -/
inductive Double where
  | finite (value : ℚ)
  | posInf
  | negInf
  | nan
  deriving DecidableEq

/-- The power `2^e`. -/
def pow2 (e : ℤ) : ℚ :=
  if 0 ≤ e then ((2 ^ e.toNat : ℕ) : ℚ) else 1 / ((2 ^ (-e).toNat : ℕ) : ℚ)

/-- The integer nearest to `t`, the even one of the two when `t` lies half-way. -/
def roundHalfEven (t : ℚ) : ℤ :=
  if t - ⌊t⌋ < 1 / 2 then ⌊t⌋
  else if 1 / 2 < t - ⌊t⌋ then ⌊t⌋ + 1
  else if ⌊t⌋ % 2 = 0 then ⌊t⌋
  else ⌊t⌋ + 1

/-- The number of halvings that bring `n` below 2 (`fuel` bounds the count). -/
def bitLog : ℕ → ℕ → ℕ
  | 0, _ => 0
  | fuel + 1, n => if n < 2 then 0 else bitLog fuel (n / 2) + 1

/-- The exponent `e` with `2^e ≤ a < 2^(e+1)`, for `a > 0`. -/
def binaryExponent (a : ℚ) : ℤ :=
  let e := (bitLog a.num.natAbs a.num.natAbs : ℤ) - (bitLog a.den a.den : ℤ)
  if pow2 e ≤ a then e else e - 1

/-- The double nearest to the number `x`: 53 significant bits, round to nearest with ties to
even, exponents from `-1022` (below that the spacing stays `2^-1074`), and an infinity when the
rounded value reaches `2^1024`. This is the value a number literal has, and the rounding every
arithmetic operation ends with. -/
def Double.ofRat (x : ℚ) : Double :=
  if x = 0 then Double.finite 0
  else
    let quantum := pow2 (max (binaryExponent |x|) (-1022) - 52)
    let nearest := (roundHalfEven (|x| / quantum) : ℚ) * quantum
    if pow2 1024 ≤ nearest then (if 0 < x then Double.posInf else Double.negInf)
    else Double.finite (if 0 < x then nearest else -nearest)

/-- Addition `a + b` of doubles. -/
def Double.add (a b : Double) : Double :=
  match a, b with
  | .finite x, .finite y => Double.ofRat (x + y)
  | .nan, _ => .nan
  | _, .nan => .nan
  | .posInf, .negInf => .nan
  | .negInf, .posInf => .nan
  | .posInf, _ => .posInf
  | _, .posInf => .posInf
  | .negInf, _ => .negInf
  | _, .negInf => .negInf

/-- Subtraction `a - b` of doubles. -/
def Double.sub (a b : Double) : Double :=
  match a, b with
  | .finite x, .finite y => Double.ofRat (x - y)
  | .nan, _ => .nan
  | _, .nan => .nan
  | .posInf, .posInf => .nan
  | .negInf, .negInf => .nan
  | .posInf, _ => .posInf
  | .negInf, _ => .negInf
  | _, .posInf => .negInf
  | _, .negInf => .posInf

/-- Multiplication `a * b` of doubles. -/
def Double.mul (a b : Double) : Double :=
  match a, b with
  | .finite x, .finite y => Double.ofRat (x * y)
  | .nan, _ => .nan
  | _, .nan => .nan
  | .finite x, .posInf => if x = 0 then .nan else if 0 < x then .posInf else .negInf
  | .finite x, .negInf => if x = 0 then .nan else if 0 < x then .negInf else .posInf
  | .posInf, .finite y => if y = 0 then .nan else if 0 < y then .posInf else .negInf
  | .negInf, .finite y => if y = 0 then .nan else if 0 < y then .negInf else .posInf
  | .posInf, .posInf => .posInf
  | .negInf, .negInf => .posInf
  | .posInf, .negInf => .negInf
  | .negInf, .posInf => .negInf

/-- The test `a <= 0`; every comparison with `NaN` is false. -/
def Double.leZero (a : Double) : Bool :=
  match a with
  | .finite x => decide (x ≤ 0)
  | .negInf => true
  | .posInf => false
  | .nan => false

/-- The double a number of the knowledge base is in the engine: the double nearest to the
number written; `undefined` becomes `NaN` in the arithmetic. -/
def Double.ofJSNum (a : JSNum) : Double :=
  match a with
  | some x => Double.ofRat x
  | none => Double.nan

/-- A double kept as the field of an object: an infinity is written as a number of its sign
beyond the finite doubles, which `Double.ofJSNum` reads back as that infinity. -/
def Double.toJSNum (a : Double) : JSNum :=
  match a with
  | .finite x => some x
  | .posInf => some (pow2 1024)
  | .negInf => some (-pow2 1024)
  | .nan => none

/-! ## Errors, host and generator state -/

/-- Exceptions raised by the generators: property access on `undefined`. -/
inductive JSError where
  | typeError (what : String)
  deriving DecidableEq, Repr

/-- The step of `generate` a call of `rng()` belongs to. -/
inductive Draw where
  | archetype | cpu | memory | gpuVendor | gpuModel | resolution | language
  | tzRegion | tzZone | chromeVersion | deviceModel | pluginCoin
  | webglRemove | webglSort | fontCount | fontPick | jsFonts
  | langList | mediaDevices | canvas | audio | battery
  | network | sensors | clientRects | performance
  deriving DecidableEq, Repr

/-- What the generators take from the JavaScript engine and libraries. -/
structure Host where
  /-- The numbers returned by successive calls of `new Math.seedrandom(seed)`. -/
  seedrandom : String → Nat → ℚ
  /-- The method `Array.prototype.sort(cmp)` on an array of strings: given the array and the
  values the comparator returns on its successive calls, the sorted array and the number of
  comparator calls made. -/
  sort : List String → (Nat → ℚ) → List String × Nat
  /-- The method `String.prototype.toLowerCase`. -/
  toLowerCase : String → String

/-- State of a generator object `rng`: its stream, the number of draws taken, and the log of
the steps that took them (oldest first). -/
structure RngState where
  stream : Nat → ℚ
  pos : Nat
  log : List Draw

/-- Computations that call `rng()` and may throw. -/
abbrev Gen (α : Type) := StateT RngState (Except JSError) α

/-- One call `rng()` made by step `d`. -/
def rng (d : Draw) : Gen ℚ := fun s =>
  .ok (s.stream s.pos, { s with pos := s.pos + 1, log := s.log ++ [d] })

/-- Property access on a value that may be `undefined`. -/
def deref {α : Type} (what : String) (v : Option α) : Gen α :=
  match v with
  | some a => pure a
  | none => throw (JSError.typeError what)

/-- Array indexing `array[i]` for a number `i`: `undefined` outside the array. -/
def jsIndex {α : Type} (array : List α) (i : ℤ) : Option α :=
  if 0 ≤ i then array.get? i.toNat else none

/-! ## Weighted and uniform selection -/

/-- The loop of `selectWeighted`: `for (const item of items) { random -= item.weight;
if (random <= 0) return item; }`, followed by `return items[items.length - 1]`. -/
def selectWeightedLoop {α : Type} (weight : α → JSNum) (last : Option α) :
    Double → List α → Option α
  | _, [] => last
  | random, item :: rest =>
    let random := random.sub (Double.ofJSNum (weight item))
    if random.leZero then some item else selectWeightedLoop weight last random rest

/-- The sum `items.reduce((sum, item) => sum + item.weight, 0)`. -/
def totalWeight {α : Type} (weight : α → JSNum) (items : List α) : Double :=
  items.foldl (fun sum item => sum.add (Double.ofJSNum (weight item))) (Double.finite 0)

/-- `selectWeighted(items)` of both generators, for the draw `r = u * totalWeight`. -/
def selectWeightedAt {α : Type} (weight : α → JSNum) (items : List α) (u : ℚ) : Option α :=
  let random := Double.mul (Double.ofRat u) (totalWeight weight items)
  selectWeightedLoop weight items.getLast? random items

/-- `selectWeighted(items)`: one draw, then the subtraction loop. -/
def selectWeighted {α : Type} (d : Draw) (weight : α → JSNum) (items : List α) :
    Gen (Option α) := do
  let u ← rng d
  pure (selectWeightedAt weight items u)

/-- `selectFromArray(array)`: `array[Math.floor(rng() * array.length)]`. -/
def selectFromArray {α : Type} (d : Draw) (array : List α) : Gen (Option α) := do
  let u ← rng d
  pure (jsIndex array ⌊u * (array.length : ℚ)⌋)

/-! ## Strings, arrays and sets -/

/-- The text `String(v)` of a string that may be `undefined`. -/
def jsToString (v : Option String) : String := v.getD "undefined"

/-- First occurrence of `pat` in `s`: the characters before it and those after it. -/
def findSub (pat : List Char) : List Char → Option (List Char × List Char)
  | [] => if pat.isEmpty then some ([], []) else none
  | c :: cs =>
    if (c :: cs).take pat.length == pat then some ([], (c :: cs).drop pat.length)
    else (findSub pat cs).map (fun r => (c :: r.1, r.2))

/-- The replacement text of `String.prototype.replace` for a string pattern (no capture
groups): `$$`, `$&`, the dollar-backtick and dollar-apostrophe patterns are expanded, every
other character is copied. -/
def getSubstitution (matched before after : List Char) : List Char → List Char
  | [] => []
  | [c] => [c]
  | c :: d :: rest =>
    if c = '$' then
      if d = '$' then '$' :: getSubstitution matched before after rest
      else if d = '&' then matched ++ getSubstitution matched before after rest
      else if d = Char.ofNat 96 then before ++ getSubstitution matched before after rest
      else if d = Char.ofNat 39 then after ++ getSubstitution matched before after rest
      else c :: getSubstitution matched before after (d :: rest)
    else c :: getSubstitution matched before after (d :: rest)

/-- The call `s.replace(pat, repl)` with a string pattern: the first occurrence only. -/
def jsReplace (s pat : String) (repl : Option String) : String :=
  match findSub pat.toList s.toList with
  | none => s
  | some (before, after) =>
    String.mk (before ++ getSubstitution pat.toList before after (jsToString repl).toList ++ after)

/-- The expression `s.split('-')[0]`. -/
def splitDashHead (s : String) : String := String.mk (s.toList.takeWhile (fun c => c != '-'))

/-- The filter `a.filter((v, i, a) => a.indexOf(v) === i)`: first occurrences only. -/
def firstOccurrences {α : Type} [DecidableEq α] : List α → List α
  | [] => []
  | a :: as => a :: (firstOccurrences as).filter (fun b => b != a)

/-- The call `set.add(v)` on a `Set` held in insertion order. -/
def setAdd {α : Type} [DecidableEq α] (set : List α) (v : α) : List α :=
  if v ∈ set then set else set ++ [v]

/-- The call `array.splice(index, 1)`: the array left and the element removed (`undefined`
when `index` is at or past the end; a negative `index` counts from the end). -/
def splice1 {α : Type} (array : List α) (index : ℤ) : List α × Option α :=
  let start : ℕ :=
    if index < 0 then (max ((array.length : ℤ) + index) 0).toNat
    else min index.toNat array.length
  (array.eraseIdx start, array.get? start)

/-- UTF-16 code units of a character. -/
def utf16Units (c : Char) : List ℕ :=
  if c.toNat < 65536 then [c.toNat]
  else [55296 + (c.toNat - 65536) / 1024, 56320 + (c.toNat - 65536) % 1024]

/-- Lexicographic `a <= b` on code-unit sequences. -/
def unitsLe : List ℕ → List ℕ → Bool
  | [], _ => true
  | _ :: _, [] => false
  | a :: as, b :: bs => if a < b then true else if b < a then false else unitsLe as bs

/-- The order of the default `sort()`: strings by UTF-16 code units, `undefined` last. -/
def defaultLe : Option String → Option String → Bool
  | _, none => true
  | none, some _ => false
  | some a, some b => unitsLe (a.toList.flatMap utf16Units) (b.toList.flatMap utf16Units)

/-- Insertion of `x` into a list sorted by `defaultLe`, after the elements equal to it. -/
def insertDefault (x : Option String) : List (Option String) → List (Option String)
  | [] => [x]
  | y :: ys => if defaultLe y x then y :: insertDefault x ys else x :: y :: ys

/-- The call `array.sort()` without comparator (a stable sort). -/
def defaultSort (array : List (Option String)) : List (Option String) :=
  array.foldl (fun acc x => insertDefault x acc) []

/-! ## The knowledge base (`profilesData`) -/

/-- Field `os` of an archetype. -/
structure OsInfo where
  name : String
  version : String
  deriving DecidableEq

/-- Field `hardware.cpu` of an archetype: two parallel arrays. -/
structure CpuInfo where
  cores : List ℚ
  weights : List ℚ
  deriving DecidableEq

/-- An entry of `hardware.gpuVendors`. -/
structure GpuVendor where
  vendor : String
  models : List String
  renderer : String
  deriving DecidableEq

/-- Field `hardware` of an archetype. -/
structure Hardware where
  cpu : CpuInfo
  memory : List ℚ
  gpuVendors : List GpuVendor
  deriving DecidableEq

/-- An entry of `display.resolutions`. -/
structure Resolution where
  width : ℤ
  height : ℤ
  weight : ℚ
  deriving DecidableEq

/-- Field `display` of an archetype. -/
structure Display where
  resolutions : List Resolution
  touchPoints : ℤ
  colorDepth : ℤ
  pixelDepth : ℤ
  deriving DecidableEq

/-- Field `languages` of an archetype: two parallel arrays. -/
structure Languages where
  primary : List String
  weights : List ℚ
  deriving DecidableEq

/-- An entry of `deviceArchetypes`.  The object `fonts` (font lists by OS key) may be absent. -/
structure DeviceArchetype where
  id : String
  name : String
  os : OsInfo
  platform : String
  hardware : Hardware
  display : Display
  fonts : Option (List (String × List String))
  userAgentTemplate : String
  languages : Languages
  weight : ℚ
  deriving DecidableEq

/-- An entry of a timezone region.  The array `languages` may be absent. -/
structure TimezoneEntry where
  timezone : String
  weight : ℚ
  languages : Option (List String)
  deriving DecidableEq

/-- An entry of `chromeVersions`. -/
structure ChromeVersion where
  version : String
  weight : ℚ
  deriving DecidableEq

/-- The knowledge base.  The object `timezoneRegions` is held as the list of its entries, in the
order `Object.entries` enumerates them. -/
structure ProfilesData where
  deviceArchetypes : List DeviceArchetype
  timezoneRegions : List (String × List TimezoneEntry)
  chromeVersions : List ChromeVersion
  androidDeviceModels : List String
  deriving DecidableEq

/-- An object `{ value, weight }` built by `map` from two parallel arrays. -/
structure Item (α : Type) where
  value : α
  weight : JSNum

/-- The map `values.map((v, i) => ({ value: v, weight: weights[i] }))`. -/
def zipWeights {α : Type} (values : List α) (weights : List ℚ) : List (Item α) :=
  values.enum.map (fun p => { value := p.2, weight := weights.get? p.1 })

/-- The sum `zones.reduce((sum, z) => sum + z.weight, 0)`. -/
def zonesWeight (zones : List TimezoneEntry) : JSNum :=
  (totalWeight (fun z => some z.weight) zones).toJSNum

/-- Property lookup `obj[key]` in an object held as its list of entries. -/
def lookupKey {α : Type} (obj : List (String × α)) (key : String) : Option α :=
  (obj.find? (fun e => e.1 == key)).map (fun e => e.2)

/-! ## The profile of `chameleon-main.js` -/

/-- An entry of a plugin's `mimeTypes`. -/
structure MimeType where
  type : String
  suffixes : String
  description : String
  deriving DecidableEq

/-- An entry of `navigator.plugins`. -/
structure Plugin where
  name : String
  description : String
  filename : String
  mimeTypes : List MimeType
  deriving DecidableEq

/-- Field `orientation` of `screen`. -/
structure Orientation where
  angle : ℤ
  type : String
  deriving DecidableEq

/-- Field `screen` of a profile. -/
structure ScreenProfile where
  width : ℤ
  height : ℤ
  availWidth : ℤ
  availHeight : ℤ
  colorDepth : ℤ
  pixelDepth : ℤ
  orientation : Orientation
  deriving DecidableEq

/-- Field `battery` of a profile; `chargingTime = none` is `Infinity`. -/
structure BatteryProfile where
  charging : Bool
  level : ℚ
  chargingTime : Option ℤ
  dischargingTime : ℤ
  deriving DecidableEq

namespace Main

/-- Field `navigator` of the profile. -/
structure NavigatorProfile where
  userAgent : String
  platform : String
  language : String
  languages : List String
  hardwareConcurrency : ℚ
  deviceMemory : Option ℚ
  maxTouchPoints : ℤ
  vendor : String
  vendorSub : String
  productSub : String
  cookieEnabled : Bool
  onLine : Bool
  webdriver : Bool
  pdfViewerEnabled : Bool
  plugins : List Plugin
  doNotTrack : Option String
  deriving DecidableEq

/-- Field `webgl` of the profile. -/
structure WebGLProfile where
  vendor : String
  renderer : String
  version : String
  shadingLanguageVersion : String
  extensions : List String
  deriving DecidableEq

/-- Field `canvas` of the profile. -/
structure CanvasProfile where
  noise : ℚ
  offsetX : ℤ
  offsetY : ℤ
  deriving DecidableEq

/-- Field `audio` of the profile. -/
structure AudioProfile where
  sampleRate : ℤ
  channelCount : ℤ
  noise : ℚ
  deriving DecidableEq

/-- Field `timezone` of the profile. -/
structure TimezoneProfile where
  name : String
  offset : ℤ
  locale : String
  deriving DecidableEq

/-- The object returned by `generate` in `chameleon-main.js`. -/
structure Profile where
  seed : String
  archetype : String
  summary : String
  navigator : NavigatorProfile
  screen : ScreenProfile
  webgl : WebGLProfile
  canvas : CanvasProfile
  audio : AudioProfile
  timezone : TimezoneProfile
  fonts : List (Option String)
  battery : BatteryProfile
  deriving DecidableEq

end Main

/-! ## Generation in `chameleon-main.js` -/

/-- What a generator can read besides its arguments and its own `rng`: the clock and the time
zone database of the engine. -/
structure World where
  /-- The value of `Date.now()`. -/
  dateNow : ℤ
  /-- The value of `(utcDate - tzDate) / 60000` for the current date and the given zone;
  `none` when `toLocaleString` rejects the zone. -/
  zoneOffsetNow : String → Option JSNum

/-- The statement `const rng = new Math.seedrandom(seed)`: a generator that has drawn nothing. -/
def newRng (h : Host) (seed : String) : RngState :=
  { stream := h.seedrandom seed, pos := 0, log := [] }

/-- The call `array.sort(() => rng() - 0.5)`: every comparison takes one draw. -/
def sortRandom (h : Host) (d : Draw) (array : List String) : Gen (List String) := fun s =>
  let r := h.sort array (fun i => s.stream (s.pos + i) - 1 / 2)
  .ok (r.1, { s with pos := s.pos + r.2, log := s.log ++ List.replicate r.2 d })

/-- The loop `for (let i = 0; i < additionalCount && availableFonts.length > 0; i++)` of both
generators, with `n` iterations left. -/
def fontLoop : ℕ → List String → List (Option String) → Gen (List (Option String))
  | 0, _, selectedFonts => pure selectedFonts
  | n + 1, availableFonts, selectedFonts =>
    if availableFonts.length > 0 then do
      let u ← rng Draw.fontPick
      let index := ⌊u * (availableFonts.length : ℚ)⌋
      let r := splice1 availableFonts index
      fontLoop n r.1 (setAdd selectedFonts r.2)
    else pure selectedFonts

/-- The object `battery` of both generators (four or five draws). -/
def generateBattery : Gen BatteryProfile := do
  let u1 ← rng Draw.battery
  let u2 ← rng Draw.battery
  let u3 ← rng Draw.battery
  let chargingTime ← (if u3 > 3 / 10 then do
      let u4 ← rng Draw.battery
      pure (some ⌊u4 * 3600⌋)
    else pure none : Gen (Option ℤ))
  let u5 ← rng Draw.battery
  pure {
    charging := decide (u1 > 3 / 10)
    level := (⌊(2 / 10 + u2 * (8 / 10)) * 100 + 1 / 2⌋ : ℚ) / 100
    chargingTime := chargingTime
    dischargingTime := ⌊u5 * 10800 + 3600⌋ }

/-- The plugin `PDF Viewer`. -/
def pdfViewer : Plugin :=
  { name := "PDF Viewer", description := "Portable Document Format",
    filename := "internal-pdf-viewer",
    mimeTypes := [{ type := "application/pdf", suffixes := "pdf",
                    description := "Portable Document Format" }] }

/-- The plugin `Chrome PDF Viewer`. -/
def chromePdfViewer : Plugin :=
  { name := "Chrome PDF Viewer", description := "Portable Document Format",
    filename := "internal-pdf-viewer",
    mimeTypes := [{ type := "application/pdf", suffixes := "pdf",
                    description := "Portable Document Format" }] }

namespace Main

/-- The table of `getTimezoneOffset` in `chameleon-main.js`: `offsets[timezone] || 0`. -/
def getTimezoneOffset (timezone : String) : ℤ :=
  if timezone = "America/New_York" then 300
  else if timezone = "America/Chicago" then 360
  else if timezone = "America/Los_Angeles" then 480
  else if timezone = "America/Toronto" then 300
  else if timezone = "America/Mexico_City" then 360
  else if timezone = "Europe/London" then 0
  else if timezone = "Europe/Paris" then -60
  else if timezone = "Europe/Berlin" then -60
  else if timezone = "Europe/Madrid" then -60
  else if timezone = "Europe/Rome" then -60
  else 0

/-- The eleven extensions `webglExtensions` starts from. -/
def baseExtensions : List String :=
  ["EXT_blend_minmax", "EXT_color_buffer_half_float", "EXT_float_blend", "EXT_frag_depth",
   "EXT_texture_compression_bptc", "EXT_texture_filter_anisotropic",
   "WEBGL_compressed_texture_s3tc", "WEBGL_compressed_texture_s3tc_srgb",
   "WEBGL_debug_renderer_info", "WEBGL_depth_texture", "WEBGL_lose_context"]

/-- The array `basicFonts`. -/
def basicFonts : List String :=
  ["Arial", "Courier New", "Georgia", "Times New Roman", "Verdana"]

/-- The body of `generate()` in `chameleon-main.js`, statement by statement; the fields of the
returned object are evaluated in the order they are written. -/
def generate (h : Host) (_world : World) (profilesData : ProfilesData) (seed : String) :
    Gen Profile := do
  let archetype ← selectWeighted Draw.archetype
    (fun a : DeviceArchetype => some a.weight) profilesData.deviceArchetypes
  let archetype ← deref "archetype.hardware" archetype
  let cpuItem ← selectWeighted Draw.cpu Item.weight
    (zipWeights archetype.hardware.cpu.cores archetype.hardware.cpu.weights)
  let cpu := (← deref "selectWeighted(...).value" cpuItem).value
  let memory ← selectFromArray Draw.memory archetype.hardware.memory
  let gpu ← selectFromArray Draw.gpuVendor archetype.hardware.gpuVendors
  let gpu ← deref "gpu.models" gpu
  let gpuModel ← selectFromArray Draw.gpuModel gpu.models
  let resolution ← selectWeighted Draw.resolution
    (fun r : Resolution => some r.weight) archetype.display.resolutions
  let languageItem ← selectWeighted Draw.language Item.weight
    (zipWeights archetype.languages.primary archetype.languages.weights)
  let language := (← deref "selectWeighted(...).value" languageItem).value
  let regions := profilesData.timezoneRegions
  let region ← selectWeighted Draw.tzRegion Item.weight
    (regions.map (fun e =>
      ({ value := e, weight := zonesWeight e.2 } : Item (String × List TimezoneEntry))))
  let region ← deref "region.value" region
  let timezoneData ← selectWeighted Draw.tzZone
    (fun z : TimezoneEntry => some z.weight) region.value.2
  let chromeVersion ← selectWeighted Draw.chromeVersion
    (fun c : ChromeVersion => some c.weight) profilesData.chromeVersions
  let chromeVersion ← deref "chromeVersion.version" chromeVersion
  let userAgent := jsReplace archetype.userAgentTemplate "{chromeVersion}"
    (some chromeVersion.version)
  let userAgent ← (if archetype.platform = "Linux armv8l" then do
      let deviceModel ← selectFromArray Draw.deviceModel profilesData.androidDeviceModels
      pure (jsReplace (jsReplace userAgent "{androidVersion}" (some archetype.os.version))
        "{deviceModel}" deviceModel)
    else pure userAgent : Gen String)
  let plugins ← (if archetype.platform ≠ "Linux armv8l" then do
      let u ← rng Draw.pluginCoin
      pure (if u > 1 / 2 then [pdfViewer, chromePdfViewer] else [pdfViewer])
    else pure [] : Gen (List Plugin))
  let webglExtensions :=
    if gpu.vendor = "NVIDIA" then baseExtensions ++ ["NV_shader_noperspective_interpolation"]
    else baseExtensions
  let fontKey := h.toLowerCase archetype.os.name
  let allFonts :=
    ((archetype.fonts.bind (fun f => lookupKey f fontKey)).orElse
      (fun _ => archetype.fonts.bind (fun f => lookupKey f "windows"))).getD []
  let selectedFonts := firstOccurrences (basicFonts.map some)
  let additionalCount := ⌊(← rng Draw.fontCount) * 15⌋ + 20
  let availableFonts := allFonts.filter (fun f => !basicFonts.contains f)
  let selectedFonts ← fontLoop additionalCount.toNat availableFonts selectedFonts
  -- the returned object
  let resolution ← deref "resolution.width" resolution
  let timezoneData ← deref "timezoneData.timezone" timezoneData
  let summary := archetype.name ++ " - " ++ toString resolution.width ++ "x" ++
    toString resolution.height ++ " - " ++ timezoneData.timezone
  let extensions ← sortRandom h Draw.webglSort webglExtensions
  let canvasNoise := (← rng Draw.canvas) * (1 / 10000) + 5 / 100000
  let offsetX := ⌊(← rng Draw.canvas) * 3⌋ - 1
  let offsetY := ⌊(← rng Draw.canvas) * 3⌋ - 1
  let audioNoise := (← rng Draw.audio) * (2 / 100000) + 1 / 100000
  let battery ← generateBattery
  pure {
    seed := seed
    archetype := archetype.id
    summary := summary
    navigator := {
      userAgent := userAgent
      platform := archetype.platform
      language := language
      languages := firstOccurrences [language, splitDashHead language, "en-US", "en"]
      hardwareConcurrency := cpu
      deviceMemory := memory
      maxTouchPoints := archetype.display.touchPoints
      vendor := "Google Inc."
      vendorSub := ""
      productSub := "20030107"
      cookieEnabled := true
      onLine := true
      webdriver := false
      pdfViewerEnabled := true
      plugins := plugins
      doNotTrack := none }
    screen := {
      width := resolution.width
      height := resolution.height
      availWidth := resolution.width
      availHeight := resolution.height - 40
      colorDepth := archetype.display.colorDepth
      pixelDepth := archetype.display.pixelDepth
      orientation := {
        angle := 0
        type := if resolution.width > resolution.height then "landscape-primary"
                else "portrait-primary" } }
    webgl := {
      vendor := gpu.vendor
      renderer := jsReplace gpu.renderer "{model}" gpuModel
      version := "WebGL 2.0"
      shadingLanguageVersion := "WebGL GLSL ES 3.00"
      extensions := extensions }
    canvas := { noise := canvasNoise, offsetX := offsetX, offsetY := offsetY }
    audio := { sampleRate := 48000, channelCount := 2, noise := audioNoise }
    timezone := {
      name := timezoneData.timezone
      offset := getTimezoneOffset timezoneData.timezone
      locale := language }
    fonts := defaultSort selectedFonts
    battery := battery }

/-- The expression `ProfileGenerator(profilesData, seed).generate()`: a fresh `rng` seeded with
`seed`, then `generate()`; the profile returned, or the exception thrown. -/
def invoke (h : Host) (world : World) (profilesData : ProfilesData) (seed : String) :
    Except JSError Profile :=
  (generate h world profilesData seed (newRng h seed)).map Prod.fst

/-- The steps (in order) whose draws `ProfileGenerator(profilesData, seed).generate()` took. -/
def draws (h : Host) (world : World) (profilesData : ProfilesData) (seed : String) :
    Except JSError (List Draw) :=
  (generate h world profilesData seed (newRng h seed)).map (fun r => r.2.log)

end Main

/-! ## The profile of `modules/profile-generator.js` -/

/-- The test `s.includes(sub)`. -/
def jsIncludes (s sub : String) : Bool := (findSub sub.toList s.toList).isSome

/-- The test `s.startsWith('en')`. -/
def startsWithEn (s : String) : Bool := s.toList.take 2 == ['e', 'n']

/-- The expression `s.split('/')[1]`: the text between the first and the second slash,
`undefined` when `s` has no slash. -/
def splitSlashSecond (s : String) : Option String :=
  match s.toList.dropWhile (fun c => c != '/') with
  | [] => none
  | _ :: rest => some (String.mk (rest.takeWhile (fun c => c != '/')))

/-- The call `s.replace(/_/g, ' ')`. -/
def underscoresToSpaces (s : String) : String := s.map (fun c => if c = '_' then ' ' else c)

namespace Module

/-- An entry of `navigator.mimeTypes`: a plugin's mime type plus `enabledPlugin`. -/
structure MimeTypeEntry where
  type : String
  suffixes : String
  description : String
  enabledPlugin : String
  deriving DecidableEq

/-- An entry of `navigator.mediaDevices`. -/
structure MediaDevice where
  deviceId : String
  kind : String
  label : String
  groupId : String
  deriving DecidableEq

/-- Field `navigator` of the profile; `credentials` and `keyboard` are the empty objects. -/
structure NavigatorProfile where
  userAgent : String
  platform : String
  language : String
  languages : List String
  hardwareConcurrency : ℚ
  deviceMemory : Option ℚ
  maxTouchPoints : ℤ
  vendor : String
  vendorSub : String
  productSub : String
  cookieEnabled : Bool
  onLine : Bool
  webdriver : Bool
  pdfViewerEnabled : Bool
  plugins : List Plugin
  mimeTypes : List MimeTypeEntry
  doNotTrack : Option String
  credentials : Unit
  keyboard : Unit
  mediaDevices : List MediaDevice
  deriving DecidableEq

/-- A value of the table `webgl.parameters`: a number or a pair of numbers. -/
inductive ParamValue where
  | num (n : ℤ)
  | pair (a b : ℤ)
  deriving DecidableEq

/-- Field `webgl` of the profile. -/
structure WebGLProfile where
  vendor : String
  renderer : String
  version : String
  shadingLanguageVersion : String
  extensions : List String
  parameters : List (String × ParamValue)
  deriving DecidableEq

/-- Field `canvas` of the profile. -/
structure CanvasProfile where
  noise : ℚ
  offsetX : ℤ
  offsetY : ℤ
  multiplier : ℚ
  deriving DecidableEq

/-- Field `audio` of the profile. -/
structure AudioProfile where
  sampleRate : ℤ
  channelCount : ℤ
  maxChannelCount : ℤ
  numberOfInputs : ℤ
  numberOfOutputs : ℤ
  channelCountMode : String
  channelInterpretation : String
  fftSize : ℤ
  frequencyBinCount : ℤ
  minDecibels : ℤ
  maxDecibels : ℤ
  smoothingTimeConstant : ℚ
  noise : ℚ
  deriving DecidableEq

/-- Field `timezone` of the profile. -/
structure TimezoneProfile where
  name : String
  offset : JSNum
  locale : String
  country : String
  deriving DecidableEq

/-- Field `fonts` of the profile. -/
structure FontsProfile where
  available : List (Option String)
  js : List (Option String)
  deriving DecidableEq

/-- Field `network` of the profile; `downlinkMax` is the constant `Infinity`. -/
structure NetworkProfile where
  type : Option String
  effectiveType : String
  downlink : ℚ
  rtt : ℤ
  saveData : Bool
  deriving DecidableEq

/-- Field `sensors` of the profile. -/
structure SensorsProfile where
  accelerometer : Bool
  gyroscope : Bool
  magnetometer : Bool
  linearAccelerationSensor : Bool
  ambientLightSensor : Bool
  proximitySensor : Bool
  deriving DecidableEq

/-- Field `media` of the profile. -/
structure MediaProfile where
  video : List String
  audio : List String
  deriving DecidableEq

/-- Field `clientRects` of the profile. -/
structure ClientRectsProfile where
  x : ℚ
  y : ℚ
  width : ℚ
  height : ℚ
  deriving DecidableEq

/-- Field `performance` of the profile. -/
structure PerformanceProfile where
  navigationStart : ℤ
  redirectTime : ℤ
  dnsTime : ℤ
  connectTime : ℤ
  requestTime : ℤ
  responseTime : ℤ
  domLoadingTime : ℤ
  domCompleteTime : ℤ
  loadEventTime : ℤ
  deriving DecidableEq

/-- The object returned by `buildProfile`. -/
structure Profile where
  seed : String
  archetype : String
  summary : String
  navigator : NavigatorProfile
  screen : ScreenProfile
  webgl : WebGLProfile
  canvas : CanvasProfile
  audio : AudioProfile
  timezone : TimezoneProfile
  fonts : FontsProfile
  battery : BatteryProfile
  network : NetworkProfile
  sensors : SensorsProfile
  media : MediaProfile
  clientRects : ClientRectsProfile
  performance : PerformanceProfile
  deriving DecidableEq

/-- The object returned by `selectGPU`. -/
structure SelectedGPU where
  vendor : String
  model : Option String
  renderer : String
  deriving DecidableEq

/-- The object returned by `selectGeolocation`. -/
structure GeoData where
  region : String
  timezone : String
  languages : Option (List String)
  country : String
  deriving DecidableEq

end Module

/-! ## Generation in `modules/profile-generator.js` -/

namespace Module

/-- The method `selectCPU(archetype)`. -/
def selectCPU (archetype : DeviceArchetype) : Gen ℚ := do
  let cores := archetype.hardware.cpu.cores
  let weights := archetype.hardware.cpu.weights
  let items := zipWeights cores weights
  let item ← selectWeighted Draw.cpu Item.weight items
  pure (← deref "selectWeighted(items).value" item).value

/-- The method `selectGPU(archetype)`. -/
def selectGPU (archetype : DeviceArchetype) : Gen SelectedGPU := do
  let gpu ← selectFromArray Draw.gpuVendor archetype.hardware.gpuVendors
  let gpu ← deref "gpu.models" gpu
  let model ← selectFromArray Draw.gpuModel gpu.models
  pure { vendor := gpu.vendor, model := model, renderer := jsReplace gpu.renderer "{model}" model }

/-- The table of `getCountryFromTimezone`. -/
def countryMap : List (String × String) :=
  [("America/New_York", "United States"), ("America/Chicago", "United States"),
   ("America/Los_Angeles", "United States"), ("America/Denver", "United States"),
   ("America/Phoenix", "United States"), ("America/Toronto", "Canada"),
   ("America/Mexico_City", "Mexico"), ("America/Sao_Paulo", "Brazil"),
   ("America/Buenos_Aires", "Argentina"), ("Europe/London", "United Kingdom"),
   ("Europe/Paris", "France"), ("Europe/Berlin", "Germany"), ("Europe/Madrid", "Spain"),
   ("Europe/Rome", "Italy"), ("Europe/Amsterdam", "Netherlands"), ("Europe/Warsaw", "Poland"),
   ("Europe/Stockholm", "Sweden"), ("Europe/Moscow", "Russia"), ("Europe/Istanbul", "Turkey"),
   ("Europe/Athens", "Greece"), ("Asia/Tokyo", "Japan"), ("Asia/Shanghai", "China"),
   ("Asia/Hong_Kong", "Hong Kong"), ("Asia/Singapore", "Singapore"),
   ("Asia/Seoul", "South Korea"), ("Asia/Kolkata", "India"),
   ("Asia/Dubai", "United Arab Emirates"), ("Asia/Bangkok", "Thailand"),
   ("Asia/Jakarta", "Indonesia"), ("Australia/Sydney", "Australia"),
   ("Australia/Melbourne", "Australia"), ("Australia/Brisbane", "Australia"),
   ("Australia/Perth", "Australia"), ("Pacific/Auckland", "New Zealand")]

/-- The method `getCountryFromTimezone(timezone)`: `countryMap[timezone] || 'Unknown'`. -/
def getCountryFromTimezone (timezone : String) : String :=
  (lookupKey countryMap timezone).getD "Unknown"

/-- An object `{ name, zones, weight }` of `selectGeolocation`. -/
structure Region where
  name : String
  zones : List TimezoneEntry
  weight : JSNum

/-- The method `selectGeolocation()`. -/
def selectGeolocation (data : ProfilesData) : Gen GeoData := do
  let regions : List Region := data.timezoneRegions.map (fun e =>
    { name := e.1, zones := e.2, weight := zonesWeight e.2 })
  let region ← selectWeighted Draw.tzRegion Region.weight regions
  let region ← deref "region.zones" region
  let timezoneData ← selectWeighted Draw.tzZone
    (fun z : TimezoneEntry => some z.weight) region.zones
  let timezoneData ← deref "timezoneData.timezone" timezoneData
  pure {
    region := region.name
    timezone := timezoneData.timezone
    languages := timezoneData.languages
    country := getCountryFromTimezone timezoneData.timezone }

/-- The method `selectLanguage(archetype, geoData)`; the result of `selectFromArray` may be
`undefined`. -/
def selectLanguage (archetype : DeviceArchetype) (geoData : GeoData) : Gen (Option String) := do
  if (geoData.languages.getD []).length > 0 then
    selectFromArray Draw.language (geoData.languages.getD [])
  else
    let items := zipWeights archetype.languages.primary archetype.languages.weights
    let item ← selectWeighted Draw.language Item.weight items
    pure (some (← deref "selectWeighted(items).value" item).value)

/-- The method `buildUserAgent(archetype, chromeVersion)`. -/
def buildUserAgent (data : ProfilesData) (archetype : DeviceArchetype)
    (chromeVersion : Option ChromeVersion) : Gen String := do
  let chromeVersion ← deref "chromeVersion.version" chromeVersion
  let ua := jsReplace archetype.userAgentTemplate "{chromeVersion}" (some chromeVersion.version)
  if archetype.platform = "Linux armv8l" then do
    let deviceModel ← selectFromArray Draw.deviceModel data.androidDeviceModels
    pure (jsReplace (jsReplace ua "{androidVersion}" (some archetype.os.version))
      "{deviceModel}" deviceModel)
  else pure ua

/-- The array `basicFonts` of `selectFonts`. -/
def basicFonts : List String :=
  ["Arial", "Courier New", "Georgia", "Times New Roman", "Trebuchet MS", "Verdana"]

/-- The method `selectFonts(archetype)`. -/
def selectFonts (h : Host) (archetype : DeviceArchetype) : Gen (List (Option String)) := do
  let fontKey := h.toLowerCase archetype.os.name
  let fonts ← deref "archetype.fonts[fontKey]" archetype.fonts
  let allFonts := ((lookupKey fonts fontKey).orElse (fun _ => lookupKey fonts "windows")).getD []
  let additionalCount := ⌊(← rng Draw.fontCount) * 20⌋ + 25
  let selectedFonts := firstOccurrences (basicFonts.map some)
  let availableFonts := allFonts.filter (fun f => !basicFonts.contains f)
  let selectedFonts ← fontLoop additionalCount.toNat availableFonts selectedFonts
  pure (defaultSort selectedFonts)

/-- The loop `for (let i = 0; i < count && fontsCopy.length > 0; i++)` of `selectJSFonts`,
with `n` iterations left. -/
def jsFontLoop : ℕ → List (Option String) → List (Option String) → Gen (List (Option String))
  | 0, _, selected => pure selected
  | n + 1, fontsCopy, selected =>
    if fontsCopy.length > 0 then do
      let u ← rng Draw.jsFonts
      let index := ⌊u * (fontsCopy.length : ℚ)⌋
      let r := splice1 fontsCopy index
      jsFontLoop n r.1 (selected ++ [r.2.join])
    else pure selected

/-- The method `selectJSFonts(allFonts)`. -/
def selectJSFonts (allFonts : List (Option String)) : Gen (List (Option String)) := do
  let nonDetectable : List (Option String) :=
    [some "Symbol", some "Webdings", some "Wingdings", some "Marlett"]
  let jsDetectable := allFonts.filter (fun font => !nonDetectable.contains font)
  let reductionFactor := 7 / 10 + (← rng Draw.jsFonts) * (1 / 10)
  let count := ⌊(jsDetectable.length : ℚ) * reductionFactor⌋
  let selected ← jsFontLoop count.toNat jsDetectable []
  pure (defaultSort selected)

/-- The plugin `Native Client`. -/
def nativeClient : Plugin :=
  { name := "Native Client", description := "Native Client Executable",
    filename := "internal-nacl-plugin",
    mimeTypes := [{ type := "application/x-nacl", suffixes := "",
                    description := "Native Client Executable" },
                  { type := "application/x-pnacl", suffixes := "",
                    description := "Portable Native Client Executable" }] }

/-- The method `generatePlugins(archetype)`. -/
def generatePlugins (archetype : DeviceArchetype) : Gen (List Plugin) := do
  if archetype.platform ≠ "Linux armv8l" then do
    let u ← rng Draw.pluginCoin
    pure (if u > 1 / 2 then [pdfViewer, chromePdfViewer, nativeClient]
          else [pdfViewer, chromePdfViewer])
  else pure []

/-- The method `generateMimeTypes(plugins)`. -/
def generateMimeTypes (plugins : List Plugin) : List MimeTypeEntry :=
  plugins.flatMap (fun plugin => plugin.mimeTypes.map (fun mimeType =>
    { type := mimeType.type, suffixes := mimeType.suffixes,
      description := mimeType.description, enabledPlugin := plugin.name }))

/-- The method `generateLanguagesList(primary)`. -/
def generateLanguagesList (primary : Option String) : Gen (List String) := do
  let primary ← deref "primary.split" primary
  let baseLang := splitDashHead primary
  let languages := if primary ≠ baseLang then [primary, baseLang] else [primary]
  if !languages.any startsWithEn then do
    let languages := if (← rng Draw.langList) > 3 / 10 then languages ++ ["en-US"] else languages
    let languages := if (← rng Draw.langList) > 1 / 2 then languages ++ ["en"] else languages
    pure languages
  else pure languages

/-- The array `allExtensions` of `generateWebGLExtensions`. -/
def allExtensions : List String :=
  ["ANGLE_instanced_arrays", "EXT_blend_minmax", "EXT_clip_control", "EXT_color_buffer_float",
   "EXT_color_buffer_half_float", "EXT_depth_clamp", "EXT_disjoint_timer_query",
   "EXT_disjoint_timer_query_webgl2", "EXT_float_blend", "EXT_frag_depth",
   "EXT_polygon_offset_clamp", "EXT_shader_texture_lod", "EXT_texture_compression_bptc",
   "EXT_texture_compression_rgtc", "EXT_texture_filter_anisotropic",
   "EXT_texture_mirror_clamp_to_edge", "EXT_sRGB", "KHR_parallel_shader_compile",
   "OES_draw_buffers_indexed", "OES_element_index_uint", "OES_fbo_render_mipmap",
   "OES_standard_derivatives", "OES_texture_float", "OES_texture_float_linear",
   "OES_texture_half_float", "OES_texture_half_float_linear", "OES_vertex_array_object",
   "OVR_multiview2", "WEBGL_color_buffer_float", "WEBGL_compressed_texture_astc",
   "WEBGL_compressed_texture_etc", "WEBGL_compressed_texture_etc1",
   "WEBGL_compressed_texture_pvrtc", "WEBGL_compressed_texture_s3tc",
   "WEBGL_compressed_texture_s3tc_srgb", "WEBGL_debug_renderer_info", "WEBGL_debug_shaders",
   "WEBGL_depth_texture", "WEBGL_draw_buffers", "WEBGL_lose_context", "WEBGL_multi_draw",
   "WEBGL_polygon_mode"]

/-- The loop `for (let i = 0; i < removeCount; i++)` of `generateWebGLExtensions`, with `n`
iterations left. -/
def removeLoop : ℕ → List String → Gen (List String)
  | 0, extensions => pure extensions
  | n + 1, extensions => do
    let u ← rng Draw.webglRemove
    let index := ⌊u * (extensions.length : ℚ)⌋
    removeLoop n (splice1 extensions index).1

/-- The method `generateWebGLExtensions(vendor)`. -/
def generateWebGLExtensions (h : Host) (vendor : String) : Gen (List String) := do
  let extensions :=
    if vendor = "NVIDIA" then allExtensions ++ ["NV_shader_noperspective_interpolation"]
    else if vendor = "Intel" then
      allExtensions.filter (fun ext => !jsIncludes ext "compressed_texture_pvrtc")
    else if vendor = "Apple" then
      allExtensions.filter (fun ext => !jsIncludes ext "WEBGL_compressed_texture_s3tc")
        ++ ["WEBGL_compressed_texture_pvrtc"]
    else allExtensions
  let removeCount := ⌊(← rng Draw.webglRemove) * 5⌋
  let extensions ← removeLoop removeCount.toNat extensions
  sortRandom h Draw.webglSort extensions

/-- The method `generateWebGLParameters(gpu)`: the table, with the three entries that depend on
the vendor. -/
def generateWebGLParameters (gpu : SelectedGPU) : List (String × ParamValue) :=
  let maxSamples : ℤ := if gpu.vendor = "Intel" then 4 else if gpu.vendor = "NVIDIA" then 8 else 4
  let maxTexture : ℤ :=
    if gpu.vendor = "Intel" then 8192 else if gpu.vendor = "NVIDIA" then 32768 else 16384
  [("MAX_COMBINED_TEXTURE_IMAGE_UNITS", .num 32), ("MAX_CUBE_MAP_TEXTURE_SIZE", .num maxTexture),
   ("MAX_FRAGMENT_UNIFORM_VECTORS", .num 1024), ("MAX_RENDERBUFFER_SIZE", .num 16384),
   ("MAX_TEXTURE_IMAGE_UNITS", .num 16), ("MAX_TEXTURE_SIZE", .num maxTexture),
   ("MAX_VARYING_VECTORS", .num 30), ("MAX_VERTEX_ATTRIBS", .num 16),
   ("MAX_VERTEX_TEXTURE_IMAGE_UNITS", .num 16), ("MAX_VERTEX_UNIFORM_VECTORS", .num 4096),
   ("MAX_VIEWPORT_DIMS", .pair 32767 32767), ("ALIASED_LINE_WIDTH_RANGE", .pair 1 1),
   ("ALIASED_POINT_SIZE_RANGE", .pair 1 1024), ("MAX_3D_TEXTURE_SIZE", .num 2048),
   ("MAX_ARRAY_TEXTURE_LAYERS", .num 2048), ("MAX_COLOR_ATTACHMENTS", .num 8),
   ("MAX_COMBINED_FRAGMENT_UNIFORM_COMPONENTS", .num 64000),
   ("MAX_COMBINED_UNIFORM_BLOCKS", .num 24),
   ("MAX_COMBINED_VERTEX_UNIFORM_COMPONENTS", .num 64000), ("MAX_DRAW_BUFFERS", .num 8),
   ("MAX_ELEMENT_INDEX", .num 4294967295), ("MAX_ELEMENTS_INDICES", .num 150000),
   ("MAX_ELEMENTS_VERTICES", .num 100000), ("MAX_FRAGMENT_INPUT_COMPONENTS", .num 120),
   ("MAX_FRAGMENT_UNIFORM_BLOCKS", .num 12), ("MAX_FRAGMENT_UNIFORM_COMPONENTS", .num 4096),
   ("MAX_PROGRAM_TEXEL_OFFSET", .num 7), ("MAX_SAMPLES", .num maxSamples),
   ("MAX_SERVER_WAIT_TIMEOUT", .num 0), ("MAX_TEXTURE_LOD_BIAS", .num 2),
   ("MAX_TRANSFORM_FEEDBACK_INTERLEAVED_COMPONENTS", .num 120),
   ("MAX_TRANSFORM_FEEDBACK_SEPARATE_ATTRIBS", .num 4),
   ("MAX_TRANSFORM_FEEDBACK_SEPARATE_COMPONENTS", .num 4), ("MAX_UNIFORM_BLOCK_SIZE", .num 65536),
   ("MAX_UNIFORM_BUFFER_BINDINGS", .num 24), ("MAX_VARYING_COMPONENTS", .num 120),
   ("MAX_VERTEX_OUTPUT_COMPONENTS", .num 120), ("MAX_VERTEX_UNIFORM_BLOCKS", .num 12),
   ("MAX_VERTEX_UNIFORM_COMPONENTS", .num 4096), ("MIN_PROGRAM_TEXEL_OFFSET", .num (-8)),
   ("UNIFORM_BUFFER_OFFSET_ALIGNMENT", .num 256)]

end Module

namespace Module

/-- The digits `chars = '0123456789abcdef'`, one string per character. -/
def hexChars : List String :=
  ["0", "1", "2", "3", "4", "5", "6", "7", "8", "9", "a", "b", "c", "d", "e", "f"]

/-- The loop `for (let i = 0; i < 64; i++) id += chars[Math.floor(rng() * chars.length)]` of
`generateDeviceId` and `generateGroupId`, with `n` iterations left. -/
def hexLoop : ℕ → String → Gen String
  | 0, id => pure id
  | n + 1, id => do
    let u ← rng Draw.mediaDevices
    hexLoop n (id ++ jsToString (jsIndex hexChars ⌊u * (hexChars.length : ℚ)⌋))

/-- The method `generateDeviceId()`. -/
def generateDeviceId : Gen String := hexLoop 64 ""

/-- The method `generateGroupId()`. -/
def generateGroupId : Gen String := hexLoop 64 ""

/-- An object `{ deviceId, kind, label: '', groupId }` of `generateMediaDevices`. -/
def mediaDevice (kind : String) : Gen MediaDevice := do
  let deviceId ← generateDeviceId
  let groupId ← generateGroupId
  pure { deviceId := deviceId, kind := kind, label := "", groupId := groupId }

/-- The method `generateMediaDevices(archetype)`. -/
def generateMediaDevices (archetype : DeviceArchetype) : Gen (List MediaDevice) := do
  let audioinput ← mediaDevice "audioinput"
  let audiooutput ← mediaDevice "audiooutput"
  let video ← (if archetype.platform ≠ "Linux armv8l" then pure true
    else do pure (decide ((← rng Draw.mediaDevices) > 3 / 10)) : Gen Bool)
  if video then do
    let videoinput ← mediaDevice "videoinput"
    pure [audioinput, audiooutput, videoinput]
  else pure [audioinput, audiooutput]

/-- The method `generateNetworkInfo()`. -/
def generateNetworkInfo : Gen NetworkProfile := do
  let types := ["wifi", "ethernet", "cellular", "bluetooth"]
  let type ← selectFromArray Draw.network types
  let downlink := 10 + (← rng Draw.network) * 40
  let rtt := 50 + ⌊(← rng Draw.network) * 100⌋
  pure { type := type, effectiveType := "4g", downlink := downlink, rtt := rtt,
         saveData := false }

/-- The expression `archetype.platform === 'Linux armv8l' || this.rng() > t`. -/
def mobileOrDraw (archetype : DeviceArchetype) (t : ℚ) : Gen Bool := do
  if archetype.platform = "Linux armv8l" then pure true
  else do pure (decide ((← rng Draw.sensors) > t))

/-- The method `generateSensorInfo(archetype)`. -/
def generateSensorInfo (archetype : DeviceArchetype) : Gen SensorsProfile := do
  let accelerometer ← mobileOrDraw archetype (7 / 10)
  let gyroscope ← mobileOrDraw archetype (7 / 10)
  let magnetometer ← mobileOrDraw archetype (8 / 10)
  let linearAccelerationSensor ← mobileOrDraw archetype (8 / 10)
  let ambientLightSensor := decide ((← rng Draw.sensors) > 9 / 10)
  let proximitySensor ← mobileOrDraw archetype (9 / 10)
  pure { accelerometer := accelerometer, gyroscope := gyroscope, magnetometer := magnetometer,
         linearAccelerationSensor := linearAccelerationSensor,
         ambientLightSensor := ambientLightSensor, proximitySensor := proximitySensor }

/-- The method `generateMediaCapabilities(archetype)`. -/
def generateMediaCapabilities (archetype : DeviceArchetype) : Gen MediaProfile := do
  let video := ["video/mp4; codecs=\"avc1.42E01E\"", "video/mp4; codecs=\"avc1.4D401E\"",
    "video/mp4; codecs=\"avc1.64001E\"", "video/webm; codecs=\"vp8\"",
    "video/webm; codecs=\"vp9\""]
  let audio := ["audio/mp4; codecs=\"mp4a.40.2\"", "audio/webm; codecs=\"opus\"",
    "audio/webm; codecs=\"vorbis\"", "audio/ogg; codecs=\"opus\"",
    "audio/ogg; codecs=\"vorbis\""]
  let first ← deref "archetype.hardware.gpuVendors[0].vendor" archetype.hardware.gpuVendors.head?
  if first.vendor ≠ "Intel" then
    pure { video := video ++ ["video/mp4; codecs=\"hev1.1.6.L93.90\"",
                              "video/webm; codecs=\"av01.0.01M.08\""],
           audio := audio }
  else pure { video := video, audio := audio }

/-- The method `generateClientRectsNoise()`. -/
def generateClientRectsNoise : Gen ClientRectsProfile := do
  let x := (← rng Draw.clientRects) * (1 / 100) - 5 / 1000
  let y := (← rng Draw.clientRects) * (1 / 100) - 5 / 1000
  let width := (← rng Draw.clientRects) * (1 / 100) - 5 / 1000
  let height := (← rng Draw.clientRects) * (1 / 100) - 5 / 1000
  pure { x := x, y := y, width := width, height := height }

/-- The method `generatePerformanceProfile()`; `navigationStart` starts from `Date.now()`. -/
def generatePerformanceProfile (world : World) : Gen PerformanceProfile := do
  let navigationStart := world.dateNow - ⌊(← rng Draw.performance) * 5000⌋
  let redirectTime := ⌊(← rng Draw.performance) * 50⌋
  let dnsTime := 20 + ⌊(← rng Draw.performance) * 30⌋
  let connectTime := 30 + ⌊(← rng Draw.performance) * 50⌋
  let requestTime := 10 + ⌊(← rng Draw.performance) * 20⌋
  let responseTime := 20 + ⌊(← rng Draw.performance) * 40⌋
  let domLoadingTime := 50 + ⌊(← rng Draw.performance) * 100⌋
  let domCompleteTime := 200 + ⌊(← rng Draw.performance) * 300⌋
  let loadEventTime := 300 + ⌊(← rng Draw.performance) * 200⌋
  pure { navigationStart := navigationStart, redirectTime := redirectTime, dnsTime := dnsTime,
         connectTime := connectTime, requestTime := requestTime, responseTime := responseTime,
         domLoadingTime := domLoadingTime, domCompleteTime := domCompleteTime,
         loadEventTime := loadEventTime }

/-- The method `getTaskbarHeight(os)`: `heights[os] || 30`, so the entries `0` of the table
(`Android`, `iOS`) give `30` as well. -/
def getTaskbarHeight (os : String) : ℤ :=
  let heights : List (String × ℤ) :=
    [("Windows", 40), ("macOS", 25), ("Linux", 28), ("Android", 0), ("iOS", 0)]
  match lookupKey heights os with
  | some v => if v = 0 then 30 else v
  | none => 30

/-- The method `getTimezoneOffset(timezone)`: the offset of the zone at the current date, and
`0` when the `try` block throws. -/
def getTimezoneOffset (world : World) (timezone : String) : JSNum :=
  match world.zoneOffsetNow timezone with
  | some offset => offset
  | none => some 0

/-- The method `generateSummary(archetype, resolution, geoData)`. -/
def generateSummary (archetype : DeviceArchetype) (resolution : Option Resolution)
    (geoData : GeoData) : Gen String := do
  let location :=
    match (splitSlashSecond geoData.timezone).map underscoresToSpaces with
    | some l => if l = "" then geoData.timezone else l
    | none => geoData.timezone
  let resolution ← deref "resolution.width" resolution
  pure (archetype.name ++ " - " ++ toString resolution.width ++ "x" ++
    toString resolution.height ++ " - " ++ location)

/-- The method `buildProfile(archetype, seed)`, statement by statement; the fields of the
returned object are evaluated in the order they are written. -/
def buildProfile (h : Host) (world : World) (data : ProfilesData)
    (archetype : Option DeviceArchetype) (seed : String) : Gen Profile := do
  let archetype ← deref "archetype.hardware" archetype
  let cpu ← selectCPU archetype
  let memory ← selectFromArray Draw.memory archetype.hardware.memory
  let gpu ← selectGPU archetype
  let resolution ← selectWeighted Draw.resolution
    (fun r : Resolution => some r.weight) archetype.display.resolutions
  let geoData ← selectGeolocation data
  let language ← selectLanguage archetype geoData
  let chromeVersion ← selectWeighted Draw.chromeVersion
    (fun c : ChromeVersion => some c.weight) data.chromeVersions
  let userAgent ← buildUserAgent data archetype chromeVersion
  let fonts ← selectFonts h archetype
  let plugins ← generatePlugins archetype
  -- the returned object
  let summary ← generateSummary archetype resolution geoData
  let languages ← generateLanguagesList language
  let language ← deref "primary.split" language
  let mediaDevices ← generateMediaDevices archetype
  let resolution ← deref "resolution.width" resolution
  let extensions ← generateWebGLExtensions h gpu.vendor
  let canvasNoise := (← rng Draw.canvas) * (1 / 10000) + 5 / 100000
  let offsetX := ⌊(← rng Draw.canvas) * 3⌋ - 1
  let offsetY := ⌊(← rng Draw.canvas) * 3⌋ - 1
  let multiplier := 999 / 1000 + (← rng Draw.canvas) * (2 / 1000)
  let audioNoise := (← rng Draw.audio) * (2 / 100000) + 1 / 100000
  let jsFonts ← selectJSFonts fonts
  let battery ← generateBattery
  let network ← generateNetworkInfo
  let sensors ← generateSensorInfo archetype
  let media ← generateMediaCapabilities archetype
  let clientRects ← generateClientRectsNoise
  let performance ← generatePerformanceProfile world
  pure {
    seed := seed
    archetype := archetype.id
    summary := summary
    navigator := {
      userAgent := userAgent
      platform := archetype.platform
      language := language
      languages := languages
      hardwareConcurrency := cpu
      deviceMemory := memory
      maxTouchPoints := archetype.display.touchPoints
      vendor := "Google Inc."
      vendorSub := ""
      productSub := "20030107"
      cookieEnabled := true
      onLine := true
      webdriver := false
      pdfViewerEnabled := true
      plugins := plugins
      mimeTypes := generateMimeTypes plugins
      doNotTrack := none
      credentials := ()
      keyboard := ()
      mediaDevices := mediaDevices }
    screen := {
      width := resolution.width
      height := resolution.height
      availWidth := resolution.width
      availHeight := resolution.height - getTaskbarHeight archetype.os.name
      colorDepth := archetype.display.colorDepth
      pixelDepth := archetype.display.pixelDepth
      orientation := {
        angle := 0
        type := if resolution.width > resolution.height then "landscape-primary"
                else "portrait-primary" } }
    webgl := {
      vendor := gpu.vendor
      renderer := gpu.renderer
      version := "WebGL 2.0"
      shadingLanguageVersion := "WebGL GLSL ES 3.00"
      extensions := extensions
      parameters := generateWebGLParameters gpu }
    canvas := { noise := canvasNoise, offsetX := offsetX, offsetY := offsetY,
                multiplier := multiplier }
    audio := {
      sampleRate := 48000, channelCount := 2, maxChannelCount := 2, numberOfInputs := 1,
      numberOfOutputs := 1, channelCountMode := "explicit", channelInterpretation := "speakers",
      fftSize := 2048, frequencyBinCount := 1024, minDecibels := -100, maxDecibels := -30,
      smoothingTimeConstant := 8 / 10, noise := audioNoise }
    timezone := {
      name := geoData.timezone
      offset := getTimezoneOffset world geoData.timezone
      locale := language
      country := geoData.country }
    fonts := { available := fonts, js := jsFonts }
    battery := battery
    network := network
    sensors := sensors
    media := media
    clientRects := clientRects
    performance := performance }

/-- The method `generate(seed)`: a fresh `rng`, the archetype, then `buildProfile`. -/
def generate (h : Host) (world : World) (data : ProfilesData) (seed : String) : Gen Profile := do
  let archetype ← selectWeighted Draw.archetype
    (fun a : DeviceArchetype => some a.weight) data.deviceArchetypes
  buildProfile h world data archetype seed

/-- The call `new ProfileGenerator(data).generate(seed)`: the statement
`this.rng = new Math.seedrandom(seed)`, then the rest of `generate`; the profile returned, or
the exception thrown. -/
def invoke (h : Host) (world : World) (data : ProfilesData) (seed : String) :
    Except JSError Profile :=
  (generate h world data seed (newRng h seed)).map Prod.fst

end Module

/-! ## Results and the selections of a run -/

deriving instance DecidableEq for Except

/-- All numbers of the generator seeded with `seed` lie in `[0, 1)`. -/
def Host.UnitRange (h : Host) (seed : String) : Prop :=
  ∀ n, 0 ≤ h.seedrandom seed n ∧ h.seedrandom seed n < 1

namespace Main

/-- The archetype `generate()` selects: `selectWeighted(profilesData.deviceArchetypes)` on the
first draw of the generator. -/
def selectedArchetype (h : Host) (profilesData : ProfilesData) (seed : String) :
    Option DeviceArchetype :=
  selectWeightedAt (fun a : DeviceArchetype => some a.weight) profilesData.deviceArchetypes
    (h.seedrandom seed 0)

/-- The timezone region `generate()` selects, on the eighth draw of the generator (the seven
steps before it take one draw each). -/
def selectedRegion (h : Host) (profilesData : ProfilesData) (seed : String) :
    Option (String × List TimezoneEntry) :=
  (selectWeightedAt Item.weight (profilesData.timezoneRegions.map (fun e =>
    ({ value := e, weight := zonesWeight e.2 } : Item (String × List TimezoneEntry))))
    (h.seedrandom seed 7)).map (fun r => r.value)

end Main

/-! ## GPU strings a knowledge base can produce -/

/-- The renderer strings an entry of `gpuVendors` yields: its template with `{model}` replaced
by one of its models, and by the text `undefined` when it has no model. -/
def renderers (g : GpuVendor) : List String :=
  if g.models = [] then [jsReplace g.renderer "{model}" none]
  else g.models.map (fun m => jsReplace g.renderer "{model}" (some m))

/-- The platform, GPU vendor and renderer of a profile come from the selected archetype and
from one entry `g` of its `hardware.gpuVendors`. -/
def GpuFrom (selected : Option DeviceArchetype) (platform vendor renderer : String) : Prop :=
  ∃ a g, selected = some a ∧ g ∈ a.hardware.gpuVendors ∧ platform = a.platform ∧
    vendor = g.vendor ∧ renderer ∈ renderers g

/-- No archetype of the knowledge base pairs its platform with a GPU vendor and renderer that
`bad` rejects. -/
def Plausible (profilesData : ProfilesData) (bad : String → String → String → Prop) : Prop :=
  ∀ a ∈ profilesData.deviceArchetypes, ∀ g ∈ a.hardware.gpuVendors, ∀ r ∈ renderers g,
    ¬ bad a.platform g.vendor r

/-! ## The part of a profile that does not read the clock -/

namespace Module

/-- The object `performance` with `navigationStart` counted from `Date.now()`. -/
def untimed (world : World) (performance : PerformanceProfile) : PerformanceProfile :=
  { performance with navigationStart := performance.navigationStart - world.dateNow }

/-- A profile with `timezone.offset` blanked and `performance.navigationStart` counted from
`Date.now()`: what is left does not read the clock. -/
def scrub (world : World) (profile : Profile) : Profile :=
  { profile with
    timezone := { profile.timezone with offset := none }
    performance := untimed world profile.performance }

end Module

/-! ## Assertions on runs -/

/-- Partial correctness: from a state satisfying `P`, every result of `m` satisfies `Q`. -/
def Triple {α : Type} (P : RngState → Prop) (m : Gen α) (Q : α → RngState → Prop) : Prop :=
  ∀ s, P s → ∀ a s', m s = .ok (a, s') → Q a s'

/-- The generator has stream `σ` and has taken `n` draws. -/
def Pos (σ : ℕ → ℚ) (n : ℕ) (s : RngState) : Prop := s.stream = σ ∧ s.pos = n

/-- All numbers of the stream of a generator lie in `[0, 1)`. -/
def UnitStream (s : RngState) : Prop := ∀ n, 0 ≤ s.stream n ∧ s.stream n < 1

/-- Total correctness: from a generator with numbers in `[0, 1)`, `m` returns (it does not
throw), its value satisfies `F`, and the generator it leaves has numbers in `[0, 1)`. -/
def Total {α : Type} (m : Gen α) (F : α → Prop) : Prop :=
  ∀ s, UnitStream s → ∃ a s', m s = .ok (a, s') ∧ F a ∧ UnitStream s'

/-- The log of a generator is in the order of `rank`, and no step in it ranks above `r`. -/
def Upto (rank : Draw → ℕ) (r : ℕ) (s : RngState) : Prop :=
  s.log.Pairwise (fun a b => rank a ≤ rank b) ∧ ∀ d ∈ s.log, rank d ≤ r

namespace Main

/-- The order of the steps in the specification (section 4.2): archetype; CPU cores, memory,
GPU vendor, GPU model; resolution; language; timezone region, timezone; Chrome version, device
model; plugin coin-flip; WebGL reordering; font count, font picks; canvas, audio; battery. -/
def specRank : Draw → ℕ
  | .archetype => 1 | .cpu => 2 | .memory => 3 | .gpuVendor => 4 | .gpuModel => 5
  | .resolution => 6 | .language => 7 | .tzRegion => 8 | .tzZone => 9
  | .chromeVersion => 10 | .deviceModel => 11 | .pluginCoin => 12
  | .webglSort => 13 | .fontCount => 14 | .fontPick => 15
  | .canvas => 16 | .audio => 17 | .battery => 18
  | _ => 19

/-- The order in which `generate()` of `chameleon-main.js` takes its draws: as `specRank`, but
the WebGL reordering (evaluated inside the returned object) comes after the font draws. -/
def codeRank : Draw → ℕ
  | .archetype => 1 | .cpu => 2 | .memory => 3 | .gpuVendor => 4 | .gpuModel => 5
  | .resolution => 6 | .language => 7 | .tzRegion => 8 | .tzZone => 9
  | .chromeVersion => 10 | .deviceModel => 11 | .pluginCoin => 12
  | .fontCount => 13 | .fontPick => 14 | .webglSort => 15
  | .canvas => 16 | .audio => 17 | .battery => 18
  | _ => 19

end Main

/-! ## Weighted selection: what the claims say, in their own words -/

/-- The least index `k` at which the running sum `w_0 + ... + w_k` reaches `r`. -/
def firstReach (ws : List ℚ) (r : ℚ) : Option ℕ :=
  (List.range ws.length).find? (fun k => decide (r ≤ (ws.take (k + 1)).sum))

/-- The item the specification selects: the one at the least index where the running sum of
the weights reaches `r`, and the last item when the running sum never reaches `r`. -/
def selectByRunningSum {α : Type} (w : α → ℚ) (items : List α) (r : ℚ) : Option α :=
  match firstReach (items.map w) r with
  | some k => items.get? k
  | none => items.getLast?

/-- The number `x` is a finite double: rounding leaves it as it is. -/
def IsDouble (x : ℚ) : Prop := Double.ofRat x = Double.finite x

instance (x : ℚ) : Decidable (IsDouble x) :=
  inferInstanceAs (Decidable (Double.ofRat x = Double.finite x))

/-- No operation of `selectWeighted` rounds, on the weights `ws` and the draw `u`: the draw and
the weights are doubles, and so are the running sums `w_0 + ... + w_k`, the product
`r = u * totalWeight` and the remainders `r - (w_0 + ... + w_k)`. -/
def ExactSelection (ws : List ℚ) (u : ℚ) : Prop :=
  IsDouble u ∧ (∀ x ∈ ws, IsDouble x) ∧
  (∀ k < ws.length, IsDouble ((ws.take (k + 1)).sum)) ∧
  IsDouble (u * ws.sum) ∧
  (∀ k < ws.length, IsDouble (u * ws.sum - (ws.take (k + 1)).sum))

instance (ws : List ℚ) (u : ℚ) : Decidable (ExactSelection ws u) :=
  inferInstanceAs (Decidable (IsDouble u ∧ (∀ x ∈ ws, IsDouble x) ∧
    (∀ k < ws.length, IsDouble ((ws.take (k + 1)).sum)) ∧
    IsDouble (u * ws.sum) ∧
    (∀ k < ws.length, IsDouble (u * ws.sum - (ws.take (k + 1)).sum))))

/-! ## A concrete host and knowledge bases for evaluation -/

/-- Insertion of `x` into `sorted` by a comparator that returns `cmp k` on its `k`-th call:
`x` goes before the first element the comparator puts it before. -/
def insertByCalls (cmp : ℕ → ℚ) (x : String) : List String → ℕ → List String × ℕ
  | [], k => ([x], k)
  | y :: ys, k =>
    if cmp k < 0 then (x :: y :: ys, k + 1)
    else ((insertByCalls cmp x ys (k + 1)).1.cons y, (insertByCalls cmp x ys (k + 1)).2)

/-- Straight insertion sort driven by the comparator results `cmp 0, cmp 1, ...`. -/
def insertionSortByCalls (array : List String) (cmp : ℕ → ℚ) : List String × ℕ :=
  array.foldl (fun acc x => insertByCalls cmp x acc.1 acc.2) ([], 0)

/-- A host for examples: the generator seeded with `seed` returns the sixteenths
`(|seed| + 7 n) mod 16 / 16`, arrays are sorted by straight insertion, and `toLowerCase`
lowers ASCII letters. -/
def demoHost : Host where
  seedrandom := fun seed n => (((seed.length + 7 * n) % 16 : ℕ) : ℚ) / 16
  sort := insertionSortByCalls
  toLowerCase := fun s => s.map Char.toLower

/-- A clock for examples. -/
def demoWorld (now : ℤ) : World where
  dateNow := now
  zoneOffsetNow := fun zone => if zone = "Europe/Paris" then some (some (-60)) else some (some 0)

/-- A desktop archetype with one resolution, `1920x1080`. -/
def demoDesktop : DeviceArchetype where
  id := "win10"
  name := "Windows 10 Desktop"
  os := { name := "Windows", version := "10.0" }
  platform := "Win32"
  hardware := {
    cpu := { cores := [4, 8], weights := [1, 1] }
    memory := [8, 16]
    gpuVendors := [{ vendor := "NVIDIA", models := ["GeForce GTX 1660", "GeForce RTX 3060"],
                     renderer := "ANGLE (NVIDIA, {model} Direct3D11)" }] }
  display := { resolutions := [{ width := 1920, height := 1080, weight := 1 }],
               touchPoints := 0, colorDepth := 24, pixelDepth := 24 }
  fonts := some [("windows", ["Arial", "Calibri", "Cambria", "Consolas", "Segoe UI", "Tahoma"])]
  userAgentTemplate :=
    "Mozilla/5.0 (Windows NT 10.0; Win64; x64) Chrome/{chromeVersion} Safari/537.36"
  languages := { primary := ["en-US", "fr-FR"], weights := [1, 1] }
  weight := 1

/-- A knowledge base with the single archetype `demoDesktop`. -/
def demoData : ProfilesData where
  deviceArchetypes := [demoDesktop]
  timezoneRegions := [("europe", [{ timezone := "Europe/Paris", weight := 1,
                                    languages := some ["fr-FR"] }])]
  chromeVersions := [{ version := "120.0.0.0", weight := 1 }]
  androidDeviceModels := ["Pixel 7"]

/-- The seed of sixty-four letters `a`. -/
def seedA : String := String.mk (List.replicate 64 'a')

/-- A mobile archetype (`Linux armv8l`). -/
def demoMobile : DeviceArchetype where
  id := "android13"
  name := "Android Phone"
  os := { name := "Android", version := "13" }
  platform := "Linux armv8l"
  hardware := {
    cpu := { cores := [8], weights := [1] }
    memory := [4, 8]
    gpuVendors := [{ vendor := "Qualcomm", models := ["Adreno 730"],
                     renderer := "ANGLE (Qualcomm, {model}, OpenGL ES 3.2)" }] }
  display := { resolutions := [{ width := 412, height := 915, weight := 1 }],
               touchPoints := 5, colorDepth := 24, pixelDepth := 24 }
  fonts := some [("android", ["Roboto", "Noto Sans", "Droid Sans"])]
  userAgentTemplate :=
    "Mozilla/5.0 (Linux; Android {androidVersion}; {deviceModel}) Chrome/{chromeVersion} Mobile"
  languages := { primary := ["en-US"], weights := [1] }
  weight := 1

/-- The knowledge base `demoData` with the mobile archetype alone. -/
def demoMobileData : ProfilesData := { demoData with deviceArchetypes := [demoMobile] }

/-- The archetype `demoDesktop` with a GPU entry that has no model. -/
def noModelDesktop : DeviceArchetype :=
  { demoDesktop with
    hardware := { demoDesktop.hardware with
      gpuVendors := [{ vendor := "NVIDIA", models := [],
                       renderer := "ANGLE (NVIDIA, {model} Direct3D11)" }] } }

/-- The knowledge base `demoData` with the archetype `noModelDesktop` alone. -/
def noModelData : ProfilesData := { demoData with deviceArchetypes := [noModelDesktop] }

/-- The archetype `demoDesktop` without GPU entries. -/
def noGpuDesktop : DeviceArchetype :=
  { demoDesktop with hardware := { demoDesktop.hardware with gpuVendors := [] } }

/-- The knowledge base `demoData` with the archetype `noGpuDesktop` alone. -/
def noGpuData : ProfilesData := { demoData with deviceArchetypes := [noGpuDesktop] }

/-- The knowledge base `demoData` without Chrome versions. -/
def noChromeData : ProfilesData := { demoData with chromeVersions := [] }

/-- A clock in summer: half a year later, and `Europe/Paris` two hours ahead of UTC. -/
def summerWorld : World where
  dateNow := 15552000000
  zoneOffsetNow := fun zone =>
    if zone = "Europe/Paris" then some (some (-120)) else some (some 0)

/-- Three items whose weights are the doubles nearest to `0.21`, `0.27` and `0.13`. -/
def roundingItems : List (String × ℚ) :=
  [("a", 7566047373982433 / 36028797018963968), ("b", 607985949695017 / 2251799813685248),
   ("c", 1170935903116329 / 9007199254740992)]

/-- The double nearest to `0.7868852459016394`. -/
def roundingDraw : ℚ := 7087632200451929 / 9007199254740992

/-- Two items of positive weight, `1` and `2^-53`. -/
def absorbedItems : List (String × ℚ) := [("a", 1), ("b", 1 / 9007199254740992)]

/-- Four items whose weights are the doubles nearest to `0.15`, `0.25` and `0.01`, and `0`. -/
def fallThroughItems : List (String × ℚ) :=
  [("a", 5404319552844595 / 36028797018963968), ("b", 1 / 4),
   ("c", 5764607523034235 / 576460752303423488), ("d", 0)]

/-- The greatest double below 1, `1 - 2^-53`. -/
def fallThroughDraw : ℚ := 9007199254740991 / 9007199254740992

/-- A generator that returns `u` on every call. -/
def constantRng (u : ℚ) : RngState := { stream := fun _ => u, pos := 0, log := [] }

/-! ## Fonts and WebGL extensions -/

namespace Main

/-- The array `availableFonts` of `generate()` for the archetype `a`: the fonts of the OS pool
that are not baseline fonts. -/
def availableFonts (h : Host) (a : DeviceArchetype) : List String :=
  (((a.fonts.bind (fun f => lookupKey f (h.toLowerCase a.os.name))).orElse
    (fun _ => a.fonts.bind (fun f => lookupKey f "windows"))).getD []).filter
    (fun f => !basicFonts.contains f)

end Main

namespace Module

/-- The array `availableFonts` of `selectFonts(archetype)`: the fonts of the OS pool that are
not baseline fonts. -/
def availableFonts (h : Host) (a : DeviceArchetype) : List String :=
  (((a.fonts.bind (fun f => lookupKey f (h.toLowerCase a.os.name))).orElse
    (fun _ => a.fonts.bind (fun f => lookupKey f "windows"))).getD []).filter
    (fun f => !basicFonts.contains f)

end Module

/-- The engine's `sort` returns a permutation of the array it is given, whatever the comparator
answers. -/
def Host.SortPermutes (h : Host) : Prop :=
  ∀ (array : List String) (cmp : ℕ → ℚ), (h.sort array cmp).1.Perm array

namespace Core

/-- The function `generateWebGLExtensions(vendor, rng)` of `chameleon-core.js`. -/
def generateWebGLExtensions (h : Host) (vendor : String) : Gen (List String) :=
  sortRandom h Draw.webglSort
    (if vendor = "NVIDIA" then Main.baseExtensions ++ ["NV_shader_noperspective_interpolation"]
     else Main.baseExtensions)

end Core

/-! ## `interceptors/screen.js` -/

namespace ScreenInterceptor

/-- The class `\s` of a regular expression. -/
def isWhiteSpace (c : Char) : Bool :=
  [9, 10, 11, 12, 13, 32, 160, 5760, 8232, 8233, 8239, 8287, 12288, 65279].contains c.toNat
    || (8192 ≤ c.toNat && c.toNat ≤ 8202)

/-- The value `parseInt(digits)` of a run of decimal digits. -/
def parseDigits (digits : List Char) : ℕ :=
  digits.foldl (fun n c => 10 * n + (c.toNat - 48)) 0

/-- A match of `name\s*(\d+)px` at the start of `s`: the number captured. -/
def matchWidthHere (name s : List Char) : Option ℕ :=
  if s.take name.length == name then
    let rest := (s.drop name.length).dropWhile isWhiteSpace
    let digits := rest.takeWhile Char.isDigit
    if !digits.isEmpty && (rest.dropWhile Char.isDigit).take 2 == ['p', 'x'] then
      some (parseDigits digits)
    else none
  else none

/-- The call `query.match(/name\s*(\d+)px/)`: the capture of the leftmost match. -/
def matchWidth (name : List Char) : List Char → Option ℕ
  | [] => matchWidthHere name []
  | c :: cs => (matchWidthHere name (c :: cs)).orElse (fun _ => matchWidth name cs)

/-- The method `evaluateMediaQuery(query)`; `profile` is `profile.screen`. -/
def evaluateMediaQuery (profile : ScreenProfile) (query : String) : Bool :=
  if jsIncludes query "prefers-color-scheme: dark" then false
  else if jsIncludes query "prefers-reduced-motion" then false
  else if jsIncludes query "orientation: portrait" then decide (profile.height > profile.width)
  else if jsIncludes query "orientation: landscape" then decide (profile.width > profile.height)
  else
    match matchWidth "max-width:".toList query.toList with
    | some maxWidth => decide (profile.width ≤ (maxWidth : ℤ))
    | none =>
      match matchWidth "min-width:".toList query.toList with
      | some minWidth => decide (profile.width ≥ (minWidth : ℤ))
      | none => true

end ScreenInterceptor

/-- The value of `orientation.type` both generators give a screen of this size. -/
def orientationType (width height : ℤ) : String :=
  if width > height then "landscape-primary" else "portrait-primary"

/-! ## `interceptors/webgl.js` -/

namespace WebGLInterceptor

/-- An argument of `getParameter`: a number that is a non-negative integer (below `10^21`,
where its text is its decimal form), or any other value, given by its property key. -/
inductive Arg where
  | num (n : ℕ)
  | other (key : String)
  deriving DecidableEq

/-- The property key of an argument; for a number its decimal text. -/
def Arg.key : Arg → String
  | .num n => toString n
  | .other key => key

/-- The names of the members every object inherits from `Object.prototype`. -/
def objectPrototypeKeys : List String :=
  ["constructor", "__defineGetter__", "__defineSetter__", "hasOwnProperty",
   "__lookupGetter__", "__lookupSetter__", "isPrototypeOf", "propertyIsEnumerable",
   "toString", "valueOf", "__proto__", "toLocaleString"]

/-- The values `getParameter` returns, as far as the interceptor builds them: strings, and the
members of `Object.prototype`. -/
structure Values (ρ : Type) where
  ofString : String → ρ
  inherited : String → ρ

/-- The fields the constructor sets: `this.profile = profile.webgl` and
`this.parameters = profile.parameters || {}` (the own properties of that object). -/
structure Fields (ρ : Type) where
  profile : Main.WebGLProfile
  parameters : List (String × ρ)

/-- The constructor, on the two fields of `profile` it reads; `profile.parameters` may be
absent (the generators do not set it). -/
def new {ρ : Type} (webgl : Main.WebGLProfile) (parameters : Option (List (String × ρ))) :
    Fields ρ :=
  { profile := webgl, parameters := parameters.getD [] }

/-- The test `parameter in this.parameters`: own and inherited properties. -/
def hasParameter {ρ : Type} (self : Fields ρ) (parameter : Arg) : Bool :=
  (self.parameters.map (fun e => e.1)).contains parameter.key
    || objectPrototypeKeys.contains parameter.key

/-- The value `this.parameters[parameter]`. -/
def parameterValue {ρ : Type} (v : Values ρ) (self : Fields ρ) (parameter : Arg) : ρ :=
  (lookupKey self.parameters parameter.key).getD (v.inherited parameter.key)

/-- The handler `apply` of the proxy installed on `getParameter`; `target` is the original
method. -/
def getParameter {ρ κ : Type} (v : Values ρ) (self : Fields ρ) (target : κ → List Arg → ρ)
    (thisArg : κ) (args : List Arg) : ρ :=
  let parameter := args.head?.getD (Arg.other "undefined")
  if parameter = Arg.num 0x9245 then v.ofString self.profile.vendor
  else if parameter = Arg.num 0x9246 then v.ofString self.profile.renderer
  else if parameter = Arg.num 0x1F00 then v.ofString "WebKit"
  else if parameter = Arg.num 0x1F01 then v.ofString "WebKit WebGL"
  else if parameter = Arg.num 0x1F02 then v.ofString self.profile.version
  else if parameter = Arg.num 0x8B8C then v.ofString self.profile.shadingLanguageVersion
  else if hasParameter self parameter then parameterValue v self parameter
  else target thisArg args

end WebGLInterceptor

/-! ## `interceptors/canvas.js` -/

namespace CanvasInterceptor

/-- The statement `this.rng = new Math.seedrandom(chameleonState.seed + '_canvas')` of the
constructor. -/
def newRng (h : Host) (seed : String) : RngState := Chameleon.newRng h (seed ++ "_canvas")

/-- A canvas, as far as `applyCanvasNoise` reads it: its size, and whether
`getContext('2d')` gives a context. -/
structure Canvas where
  width : ℤ
  height : ℤ
  context2d : Bool
  deriving DecidableEq

/-- The drawing `applyCanvasNoise` makes: `globalAlpha`, the three numbers of the text
`rgb(r, g, b)` assigned to `fillStyle`, and the four arguments of `fillRect`. -/
structure Fill where
  globalAlpha : ℚ
  fillStyle : ℤ × ℤ × ℤ
  x : ℤ
  y : ℤ
  w : ℤ
  h : ℤ
  deriving DecidableEq

/-- The method `applyCanvasNoise(canvas)`; `profile` is `profile.canvas`. The result is the
drawing made, `none` when the canvas has no 2D context. -/
def applyCanvasNoise (profile : Main.CanvasProfile) (canvas : Canvas) : Gen (Option Fill) :=
  if !canvas.context2d then pure none
  else do
    let r := ⌊(← rng Draw.canvas) * 256⌋
    let g := ⌊(← rng Draw.canvas) * 256⌋
    let b := ⌊(← rng Draw.canvas) * 256⌋
    pure (some
      { globalAlpha := 1 / 100
        fillStyle := (r, g, b)
        x := canvas.width - 1 + profile.offsetX
        y := canvas.height - 1 + profile.offsetY
        w := 1
        h := 1 })

/-- The drawing of a call that finds the generator with numbers `σ` after `n` draws. -/
def fillAt (profile : Main.CanvasProfile) (canvas : Canvas) (σ : ℕ → ℚ) (n : ℕ) : Fill :=
  { globalAlpha := 1 / 100
    fillStyle := (⌊σ n * 256⌋, ⌊σ (n + 1) * 256⌋, ⌊σ (n + 2) * 256⌋)
    x := canvas.width - 1 + profile.offsetX
    y := canvas.height - 1 + profile.offsetY
    w := 1
    h := 1 }

/-- The drawings of `count` successive calls of the patched `toDataURL` or `toBlob` on one
canvas: each call starts with `this.applyCanvasNoise(thisArg)`. -/
def successiveCalls (profile : Main.CanvasProfile) (canvas : Canvas) :
    ℕ → Gen (List (Option Fill))
  | 0 => pure []
  | count + 1 => do
    let fill ← applyCanvasNoise profile canvas
    let rest ← successiveCalls profile canvas count
    pure (fill :: rest)

/-- The method `clamp(value)`: `Math.round` rounds to the nearest integer, a half upwards. -/
def clamp (value : ℚ) : ℤ := max 0 (min 255 ⌊value + 1 / 2⌋)

/-- The statement `data[index] = this.clamp(data[index] + noise)` on a `Uint8ClampedArray`: an
index outside the array reads `undefined` and the write is ignored. -/
def addNoise (noise : ℚ) (data : List ℤ) (index : ℤ) : List ℤ :=
  if 0 ≤ index then
    match data.get? index.toNat with
    | some byte => data.set index.toNat (clamp ((byte : ℚ) + noise))
    | none => data
  else data

/-- The loop of `applyImageDataNoise`, `count` rounds. -/
def noiseLoop (profile : Main.CanvasProfile) : ℕ → List ℤ → Gen (List ℤ)
  | 0, data => pure data
  | count + 1, data => do
    let index := ⌊(← rng Draw.canvas) * ((data.length : ℚ) / 4)⌋ * 4
    let noise := ((← rng Draw.canvas) - 1 / 2) * profile.noise * 255
    let data := addNoise noise data index
    let data := addNoise noise data (index + 1)
    let data := addNoise noise data (index + 2)
    noiseLoop profile count data

/-- The method `applyImageDataNoise(imageData)` on the bytes `imageData.data`. -/
def applyImageDataNoise (profile : Main.CanvasProfile) (data : List ℤ) : Gen (List ℤ) := do
  let pixelCount := ⌊(← rng Draw.canvas) * 10⌋ + 5
  noiseLoop profile pixelCount.toNat data

end CanvasInterceptor

/-! ## `interceptors/audio.js` -/

namespace AudioInterceptor

/-- The statement `this.rng = new Math.seedrandom(chameleonState.seed + '_audio')` of the
constructor. -/
def newRng (h : Host) (seed : String) : RngState := Chameleon.newRng h (seed ++ "_audio")

/-- The loop of the patched `getByteFrequencyData` over the bytes of the array. -/
def byteNoise : List ℤ → Gen (List ℤ)
  | [] => pure []
  | byte :: rest => do
    let noise := ⌊((← rng Draw.audio) - 1 / 2) * 2⌋
    let byte := max 0 (min 255 (byte + noise))
    let rest ← byteNoise rest
    pure (byte :: rest)

/-- The handler `apply` of the proxy installed on `AnalyserNode.prototype.getByteFrequencyData`:
`target` is the original method, which fills the array given. -/
def getByteFrequencyData {κ : Type} (target : κ → List ℤ → List ℤ) (thisArg : κ)
    (array : List ℤ) : Gen (List ℤ) :=
  byteNoise (target thisArg array)

end AudioInterceptor

/-! ## `interceptors/timezone.js` -/

namespace TimezoneInterceptor

/-- The handler `apply` of the proxy installed on `Date.prototype.getTimezoneOffset`; `profile`
is `profile.timezone`. -/
def getTimezoneOffset {δ : Type} (profile : Main.TimezoneProfile) (_target : δ → ℤ)
    (_thisArg : δ) : ℤ :=
  profile.offset

/-- The test `!v` on a string that may be missing. -/
def falsy (v : Option String) : Bool := v.isNone || v == some ""

/-- The argument `options` of `Intl.DateTimeFormat`: the property `timeZone` and the others. -/
structure Options (β : Type) where
  timeZone : Option String
  rest : β

/-- The object `resolvedOptions()` returns: the properties `locale` and `timeZone` and the
others. -/
structure Resolved (γ : Type) where
  locale : String
  timeZone : String
  rest : γ

/-- The handler `construct` of the proxy installed on `Intl.DateTimeFormat`; `target` is the
original constructor, `empty` the others of an options object without properties. -/
def construct {β φ : Type} (profile : Main.TimezoneProfile) (empty : β)
    (target : String → Options β → φ) (locale : Option String) (options : Option (Options β)) :
    φ :=
  let locale := if falsy locale then profile.locale else locale.getD ""
  let options := options.getD { timeZone := none, rest := empty }
  let options :=
    if falsy options.timeZone then { options with timeZone := some profile.name } else options
  target locale options

/-- The handler `apply` of the proxy installed on `resolvedOptions`; `target` is the original
method. -/
def resolvedOptions {γ φ : Type} (profile : Main.TimezoneProfile) (target : φ → Resolved γ)
    (thisArg : φ) : Resolved γ :=
  let result := target thisArg
  let result := { result with timeZone := profile.name }
  if result.locale = "" ∨ result.locale = "en-US" then { result with locale := profile.locale }
  else result

/-- The call `s.padStart(2, '0')`. -/
def padStart2 (s : String) : String :=
  String.mk (List.replicate (2 - s.length) '0') ++ s

/-- The method `getGMTOffset()`. -/
def getGMTOffset (profile : Main.TimezoneProfile) : String :=
  let hours := profile.offset.natAbs / 60
  let minutes := profile.offset.natAbs % 60
  let sign := if profile.offset ≤ 0 then "+" else "-"
  sign ++ padStart2 (toString hours) ++ padStart2 (toString minutes)

end TimezoneInterceptor

/-- The offset a text `sHHMM` stands for: `-(60*HH + MM)` for the sign `+` and `60*HH + MM` for
the sign `-`. -/
def readGMTOffset (s : String) : Option ℤ :=
  match s.toList with
  | [sign, h1, h0, m1, m0] =>
    if h1.isDigit && h0.isDigit && m1.isDigit && m0.isDigit then
      let hours : ℤ := 10 * ((h1.toNat : ℤ) - 48) + ((h0.toNat : ℤ) - 48)
      let minutes : ℤ := 10 * ((m1.toNat : ℤ) - 48) + ((m0.toNat : ℤ) - 48)
      if sign = '+' then some (-(60 * hours + minutes))
      else if sign = '-' then some (60 * hours + minutes)
      else none
    else none
  | _ => none

/-! ## Data for the interceptors -/

/-- A screen of 1920 by 1080 as `generate` describes it. -/
def demoScreen : ScreenProfile :=
  { width := 1920, height := 1080, availWidth := 1920, availHeight := 1040,
    colorDepth := 24, pixelDepth := 24,
    orientation := { angle := 0, type := orientationType 1920 1080 } }

/-- A field `webgl` of a profile. -/
def demoWebGL : Main.WebGLProfile :=
  { vendor := "Intel Inc.", renderer := "Intel Iris OpenGL Engine", version := "WebGL 2.0",
    shadingLanguageVersion := "WebGL GLSL ES 3.00", extensions := [] }

/-- Results of `getParameter` as texts. -/
def demoValues : WebGLInterceptor.Values String :=
  { ofString := fun s => s, inherited := fun key => "Object.prototype." ++ key }

/-- An original `getParameter` that answers every call with the text `native`. -/
def demoGetParameter (_context : Unit) (_args : List WebGLInterceptor.Arg) : String := "native"

/-- A field `canvas` of a profile. -/
def demoCanvasProfile : Main.CanvasProfile := { noise := 1 / 10000, offsetX := 1, offsetY := -1 }

/-- A canvas of 300 by 150 with a 2D context. -/
def demoCanvas : CanvasInterceptor.Canvas := { width := 300, height := 150, context2d := true }

/-- A field `timezone` of a profile. -/
def demoTimezone : Main.TimezoneProfile :=
  { name := "Europe/Paris", offset := -60, locale := "fr-FR" }

/-- An original `Intl.DateTimeFormat` that keeps the locale and the zone it is given. -/
def demoDateTimeFormat (locale : String) (options : TimezoneInterceptor.Options Unit) :
    String × String :=
  (locale, options.timeZone.getD "UTC")

/-- The original `resolvedOptions` of that formatter. -/
def demoResolvedOptions (formatter : String × String) : TimezoneInterceptor.Resolved Unit :=
  { locale := formatter.1, timeZone := formatter.2, rest := () }

/-! ## `interceptors/meta-proxy.js` -/

namespace MetaProxyInterceptor

/-- A value as the patched `Function.prototype.toString` reads its `this`: the reference it is
(a `WeakSet` holds objects by reference), whether `typeof` calls it a function, whether it is
truthy, the text `Object.prototype.toString.call` gives for it (`none` when that call throws),
and its property `name` when that is a string (`none` for `undefined`). -/
structure Value where
  ref : ℕ
  isFunction : Bool
  truthy : Bool
  tag : Option String
  name : Option String
  deriving DecidableEq

/-- The set `this.interceptedFunctions`: the references it holds. -/
abbrev Registry := List ℕ

/-- The function `window.chameleonRegisterIntercepted` that `setupRegistration` installs. -/
def chameleonRegisterIntercepted (registry : Registry) (fn : Value) : Registry :=
  if fn.isFunction then
    if registry.contains fn.ref then registry else registry ++ [fn.ref]
  else registry

/-- The characters `.` does not match in a regular expression. -/
def isLineTerminator (c : Char) : Bool :=
  c.toNat == 10 || c.toNat == 13 || c.toNat == 8232 || c.toNat == 8233

/-- The call `name.match(/^bound (.+)$/)`: the text captured, `none` when there is no match. -/
def boundMatch (name : String) : Option String :=
  let rest := name.toList.drop 6
  if name.toList.take 6 == "bound ".toList && !rest.isEmpty
      && rest.all (fun c => !isLineTerminator c) then
    some (String.mk rest)
  else none

/-- The handler `apply` of the proxy installed on `Function.prototype.toString`; `target` is
the original method. -/
def functionToString (registry : Registry) (target : Value → Except JSError String)
    (thisArg : Value) : Except JSError String :=
  if registry.contains thisArg.ref then
    let fnName := thisArg.name.getD ""
    if fnName ≠ "" then .ok ("function " ++ fnName ++ "() \x7b [native code] \x7d")
    else .ok "function () \x7b [native code] \x7d"
  else
    let boundMatch : Option String :=
      if thisArg.truthy && thisArg.tag == some "[object Function]" then
        thisArg.name.bind boundMatch
      else none
    match boundMatch with
    | some captured => .ok ("function " ++ captured ++ "() \x7b [native code] \x7d")
    | none => target thisArg

/-- A stack as `cleanStackTrace` receives it: a string, or a value of another type. -/
inductive StackValue (ν : Type) where
  | str (stack : String)
  | other (value : ν)
  deriving DecidableEq

/-- The pieces of the characters `cs` between the line feeds. -/
def splitLines : List Char → List (List Char)
  | [] => [[]]
  | c :: cs =>
    if c = '\n' then [] :: splitLines cs
    else
      match splitLines cs with
      | [] => [[c]]
      | line :: lines => (c :: line) :: lines

/-- The pieces put together with a line feed between two neighbours. -/
def joinLines : List (List Char) → List Char
  | [] => []
  | [line] => line
  | line :: lines => line ++ '\n' :: joinLines lines

/-- The call `stack.split('\n')`. -/
def jsSplitLines (stack : String) : List String := (splitLines stack.toList).map String.mk

/-- The call `lines.join('\n')`. -/
def jsJoinLines (lines : List String) : String :=
  String.mk (joinLines (lines.map String.toList))

/-- The test of the `filter` in `cleanStackTrace`. -/
def keepsLine (h : Host) (line : String) : Bool :=
  let lowerLine := h.toLowerCase line
  !jsIncludes lowerLine "chameleon" && !jsIncludes lowerLine "interceptor"
    && !jsIncludes lowerLine "chrome-extension://"

/-- The method `cleanStackTrace(stack)`. -/
def cleanStackTrace {ν : Type} (h : Host) : StackValue ν → StackValue ν
  | .other value => .other value
  | .str stack =>
    if stack = "" then .str stack
    else
      let lines := jsSplitLines stack
      let cleaned := lines.filter (keepsLine h)
      .str (jsJoinLines cleaned)

/-- What reading a property of the proxy put in the place of a getter gives: the function the
`get` trap makes (by what a call of it returns), or the value `target[prop]`. -/
inductive TrapResult where
  | closure (call : Unit → String)
  | ofTarget (target : Value) (prop : String)

/-- The field `get` of a descriptor the patched `Object.getOwnPropertyDescriptor` returns: the
getter the original reported, or the proxy put in its place, given by its target and its `get`
trap. -/
inductive Getter where
  | original (fn : Value)
  | proxy (target : Value) (get : Value → String → TrapResult)

/-- A property descriptor: its field `get` and its other fields. -/
structure Descriptor (γ δ : Type) where
  get : Option γ
  rest : δ

/-- The handler `apply` of the proxy installed on `Object.getOwnPropertyDescriptor`, on the
arguments `[obj, prop]`; `target` is the original function. -/
def getOwnPropertyDescriptor {ο δ : Type} (registry : Registry)
    (target : ο → String → Option (Descriptor Value δ)) (obj : ο) (prop : String) :
    Option (Descriptor Getter δ) :=
  match target obj prop with
  | none => none
  | some descriptor =>
    match descriptor.get with
    | none => some { get := none, rest := descriptor.rest }
    | some getter =>
      if registry.contains getter.ref then
        some
          { get := some (Getter.proxy getter (fun target prop =>
              if prop = "toString" then
                TrapResult.closure
                  (fun _ => "function get " ++ prop ++ "() \x7b [native code] \x7d")
              else TrapResult.ofTarget target prop))
            rest := descriptor.rest }
      else some { get := some (Getter.original getter), rest := descriptor.rest }

/-- The call `getter.toString()` on the field `get` of a descriptor: on a proxy the property
`toString` is read through the `get` trap and the function found is called; on a function it is
the patched `Function.prototype.toString`. -/
def Getter.callToString (registry : Registry) (original : Value → Except JSError String) :
    Getter → Except JSError String
  | .original fn => functionToString registry original fn
  | .proxy target get =>
    match get target "toString" with
    | .closure call => .ok (call ())
    | .ofTarget fn _ => functionToString registry original fn

end MetaProxyInterceptor

/-- The test of `/^function [\w$]*\(\) \x7b \[native code\] \x7d$/` on a text. -/
def matchesNativeForm (text : String) : Bool :=
  text.toList.take 9 == "function ".toList
    && (text.toList.drop 9).dropWhile (fun c => c.isAlphanum || c == '_' || c == '$')
      == "() \x7b [native code] \x7d".toList

/-! ## `utils/jitter.js` -/

/-- The function `Math.abs`. -/
def JSNum.abs (a : JSNum) : JSNum := a.map (fun x => |x|)

/-- The function `Math.min` of two numbers. -/
def JSNum.min (a b : JSNum) : JSNum :=
  match a, b with
  | some x, some y => some (Min.min x y)
  | _, _ => none

/-- The function `Math.max` of two numbers. -/
def JSNum.max (a b : JSNum) : JSNum :=
  match a, b with
  | some x, some y => some (Max.max x y)
  | _, _ => none

namespace JitterManager

/-- An entry of `this.config`, by its four fields as numbers: a field that is `undefined`
becomes `NaN` in the arithmetic. -/
structure Config where
  mean : JSNum
  stdDev : JSNum
  min : JSNum
  max : JSNum
  deriving DecidableEq

/-- The object `this.config` the constructor builds: its own properties. -/
def config : List (String × Config) :=
  [("canvas", { mean := some 4, stdDev := some (3 / 2), min := some 1, max := some 10 }),
   ("webgl", { mean := some 2, stdDev := some (1 / 2), min := some 1, max := some 5 }),
   ("audio", { mean := some 3, stdDev := some (4 / 5), min := some 1, max := some 8 }),
   ("navigator", { mean := some 1, stdDev := some (1 / 5), min := some 1, max := some 2 }),
   ("default", { mean := some 2, stdDev := some (2 / 5), min := some 1, max := some 5 })]

/-- The value `this.config[category]`: an own property, else a member inherited from
`Object.prototype` (a function or object, truthy, that has none of the four fields), else
`undefined`. -/
def configOf (category : String) : Option Config :=
  match lookupKey config category with
  | some entry => some entry
  | none =>
    if WebGLInterceptor.objectPrototypeKeys.contains category then
      some { mean := none, stdDev := none, min := none, max := none }
    else none

/-- The method `generateGaussian(mean, stdDev)`, for the value `z0` the Box-Muller transform
gives. -/
def generateGaussian (z0 : ℚ) (mean stdDev : JSNum) : JSNum :=
  JSNum.abs (JSNum.add mean (JSNum.mul (some z0) stdDev))

/-- The method `generateDelay(category)`, for the value `z0` of the transform. -/
def generateDelay (z0 : ℚ) (category : String) : JSNum :=
  let config := ((configOf category).orElse (fun _ => configOf "default")).getD
    { mean := none, stdDev := none, min := none, max := none }
  let delay := generateGaussian z0 config.mean config.stdDev
  let clampedDelay := JSNum.max config.min (JSNum.min config.max delay)
  clampedDelay

end JitterManager

/-! ## `initialize` of `chameleon-main.js` -/

namespace Main

/-- The function `detectPlatform()`, on `window.location.hostname`. -/
def detectPlatform (hostname : String) : String :=
  if jsIncludes hostname "twitch.tv" then "twitch"
  else if jsIncludes hostname "youtube.com" then "youtube"
  else if jsIncludes hostname "facebook.com" || jsIncludes hostname "meta.com" then "meta"
  else if jsIncludes hostname "tiktok.com" then "tiktok"
  else if jsIncludes hostname "fingerprint.com" then "fingerprint"
  else "other"

/-- What `applyModule` tests of the value `module.apply()` returns: `false`, or anything
else. -/
inductive ApplyResult where
  | isFalse
  | other
  deriving DecidableEq

/-- An interceptor class found on `window`: what `new moduleClass(...constructorArgs)` does,
given the profile among the arguments (none for the meta-proxy), and what `apply()` of the
instance does. -/
structure ModuleClass (μ : Type) where
  construct : Option Profile → Except JSError μ
  apply : μ → Except JSError ApplyResult

/-- A call `initialize` makes into an interceptor class. -/
inductive Call where
  | construct (moduleName : String)
  | apply (moduleName : String)
  deriving DecidableEq

/-- The function `applyModule(moduleName, moduleClass, constructorArgs)`: the module or `null`,
and the calls made, appended to those made before. -/
def applyModule {μ : Type} (moduleName : String) (moduleClass : ModuleClass μ)
    (constructorArgs : Option Profile) (calls : List Call) : Option μ × List Call :=
  let calls := calls ++ [Call.construct moduleName]
  match moduleClass.construct constructorArgs with
  | .error _ => (none, calls)
  | .ok module =>
    let calls := calls ++ [Call.apply moduleName]
    match moduleClass.apply module with
    | .error _ => (none, calls)
    | .ok ApplyResult.isFalse => (none, calls)
    | .ok ApplyResult.other => (some module, calls)

/-- The object `ChameleonState` (without its own registry of functions); `modules` holds the
properties set, in the order they were set. -/
structure ChameleonState (μ : Type) where
  seed : Option String
  profile : Option Profile
  initialized : Bool
  platform : Option String
  profilesData : Option ProfilesData
  modules : List (String × μ)

/-- The object `window.__chameleonInitData`. -/
structure InitData where
  profilesData : ProfilesData
  sessionSeed : String

/-- What `initialize` reads of `window`: the initial data when it starts and after its wait of
100 ms, the host name, and the seven interceptor classes, each present or not. -/
structure Window (μ : Type) where
  initData : Option InitData
  initDataAfterWait : Option InitData
  hostname : String
  MetaProxyInterceptor : Option (ModuleClass μ)
  NavigatorInterceptor : Option (ModuleClass μ)
  ScreenInterceptor : Option (ModuleClass μ)
  CanvasInterceptor : Option (ModuleClass μ)
  WebGLInterceptor : Option (ModuleClass μ)
  AudioInterceptor : Option (ModuleClass μ)
  TimezoneInterceptor : Option (ModuleClass μ)

/-- What `initialize` caught: its own error for missing initial data, or an exception of the
generator. -/
inductive Failure where
  | noInitialData
  | thrown (error : JSError)
  deriving DecidableEq

/-- The event `initialize` dispatches at its end. -/
inductive Notice where
  | chameleonReady (platform : Option String) (profile : String) (modulesApplied : ℕ)
  | chameleonError (failure : Failure)
  deriving DecidableEq

/-- What a run of `initialize` leaves: the object `ChameleonState`, the calls made into the
interceptor classes (in order), and the event dispatched. -/
structure Outcome (μ : Type) where
  state : ChameleonState μ
  calls : List Call
  event : Notice

/-- One block of `initialize`: when the class `window.X` is present, `applyModule` on it, and
`ChameleonState.modules.key = module` when a module came back; on the modules set and the calls
made so far. -/
def installModule {μ : Type} (key moduleName : String) (moduleClass : Option (ModuleClass μ))
    (constructorArgs : Option Profile) (acc : List (String × μ) × List Call) :
    List (String × μ) × List Call :=
  match moduleClass with
  | none => acc
  | some moduleClass =>
    match applyModule moduleName moduleClass constructorArgs acc.2 with
    | (some module, calls) => (acc.1 ++ [(key, module)], calls)
    | (none, calls) => (acc.1, calls)

/-- The function `initialize()` of `chameleon-main.js`, run on the initial `ChameleonState`. -/
def initializeMain {μ : Type} (h : Host) (world : World) (window : Window μ) : Outcome μ :=
  let state : ChameleonState μ :=
    { seed := none, profile := none, initialized := false, platform := none,
      profilesData := none, modules := [] }
  match window.initData.orElse (fun _ => window.initDataAfterWait) with
  | none => { state := state, calls := [], event := Notice.chameleonError Failure.noInitialData }
  | some initData =>
    let state :=
      { state with profilesData := some initData.profilesData, seed := some initData.sessionSeed }
    match invoke h world initData.profilesData initData.sessionSeed with
    | .error error =>
      { state := state, calls := [], event := Notice.chameleonError (Failure.thrown error) }
    | .ok profile =>
      let state :=
        { state with profile := some profile, platform := some (detectPlatform window.hostname) }
      let r := installModule "metaProxy" "MetaProxy" window.MetaProxyInterceptor none
        (state.modules, [])
      let r := installModule "navigator" "Navigator" window.NavigatorInterceptor (some profile) r
      let r := installModule "screen" "Screen" window.ScreenInterceptor (some profile) r
      let r := installModule "canvas" "Canvas" window.CanvasInterceptor (some profile) r
      let r := installModule "webgl" "WebGL" window.WebGLInterceptor (some profile) r
      let r := installModule "audio" "Audio" window.AudioInterceptor (some profile) r
      let r := installModule "timezone" "Timezone" window.TimezoneInterceptor (some profile) r
      { state := { state with modules := r.1, initialized := true }
        calls := r.2
        event := Notice.chameleonReady state.platform profile.summary r.1.length }

/-- The module a present class yields when neither its constructor nor `apply()` throws and
`apply()` does not return `false`. -/
def ModuleClass.succeeds {μ : Type} (moduleClass : ModuleClass μ)
    (constructorArgs : Option Profile) : Option μ :=
  match moduleClass.construct constructorArgs with
  | .error _ => none
  | .ok module =>
    match moduleClass.apply module with
    | .ok ApplyResult.other => some module
    | _ => none

/-- The seven classes in the order MetaProxy, Navigator, Screen, Canvas, WebGL, Audio, Timezone,
each with its key in `ChameleonState.modules`, its name and its constructor arguments. -/
def moduleSlots {μ : Type} (window : Window μ) (profile : Profile) :
    List (String × String × Option (ModuleClass μ) × Option Profile) :=
  [("metaProxy", "MetaProxy", window.MetaProxyInterceptor, none),
   ("navigator", "Navigator", window.NavigatorInterceptor, some profile),
   ("screen", "Screen", window.ScreenInterceptor, some profile),
   ("canvas", "Canvas", window.CanvasInterceptor, some profile),
   ("webgl", "WebGL", window.WebGLInterceptor, some profile),
   ("audio", "Audio", window.AudioInterceptor, some profile),
   ("timezone", "Timezone", window.TimezoneInterceptor, some profile)]

/-- The entry of `ChameleonState.modules` a slot is to leave: one for a present class that does
not fail, none otherwise. -/
def slotModule {μ : Type} (slot : String × String × Option (ModuleClass μ) × Option Profile) :
    List (String × μ) :=
  match slot.2.2.1 with
  | none => []
  | some moduleClass =>
    match moduleClass.succeeds slot.2.2.2 with
    | some module => [(slot.1, module)]
    | none => []

/-- The calls a slot is to make: the constructor of a present class, and `apply()` when the
constructor returned. -/
def slotCalls {μ : Type} (slot : String × String × Option (ModuleClass μ) × Option Profile) :
    List Call :=
  match slot.2.2.1 with
  | none => []
  | some moduleClass =>
    match moduleClass.construct slot.2.2.2 with
    | .error _ => [Call.construct slot.2.1]
    | .ok _ => [Call.construct slot.2.1, Call.apply slot.2.1]

end Main

/-- The rectangle of a drawing lies inside the canvas area `[0, width) x [0, height)`. -/
def insideCanvas (fill : CanvasInterceptor.Fill) (canvas : CanvasInterceptor.Canvas) : Bool :=
  decide (0 ≤ fill.x ∧ fill.x + fill.w ≤ canvas.width
    ∧ 0 ≤ fill.y ∧ fill.y + fill.h ≤ canvas.height)

/-! ## Data for the meta-proxy and `initialize` -/

/-- An original `Function.prototype.toString`: a fixed text for a function, a `TypeError` for
anything else. -/
def demoToString (v : MetaProxyInterceptor.Value) : Except JSError String :=
  if v.isFunction then .ok "function () \x7b [native code] \x7d"
  else .error (JSError.typeError "Function.prototype.toString requires that 'this' be a Function")

/-- A function with the given reference and name. -/
def demoFunction (ref : ℕ) (name : String) : MetaProxyInterceptor.Value :=
  { ref := ref, isFunction := true, truthy := true, tag := some "[object Function]",
    name := some name }

/-- An original `Object.getOwnPropertyDescriptor` on an object whose every property is an
accessor with the getter `demoFunction 1 "get"`. -/
def demoDescriptorOf (_obj : Unit) (_prop : String) :
    Option (MetaProxyInterceptor.Descriptor MetaProxyInterceptor.Value Unit) :=
  some { get := some (demoFunction 1 "get"), rest := () }

/-- A class whose constructor and `apply()` return. -/
def workingModule (name : String) : Main.ModuleClass String :=
  { construct := fun _ => .ok name, apply := fun _ => .ok Main.ApplyResult.other }

/-- A class whose `apply()` throws. -/
def throwingModule (name : String) : Main.ModuleClass String :=
  { construct := fun _ => .ok name, apply := fun _ => .error (JSError.typeError name) }

/-- A class whose `apply()` returns `false`. -/
def refusingModule (name : String) : Main.ModuleClass String :=
  { construct := fun _ => .ok name, apply := fun _ => .ok Main.ApplyResult.isFalse }

/-- A window with the initial data `(data, seed)`: the meta-proxy refuses, the audio class
throws, the WebGL class is absent and the others work. -/
def demoWindow (data : ProfilesData) (seed : String) : Main.Window String :=
  { initData := some { profilesData := data, sessionSeed := seed }
    initDataAfterWait := none
    hostname := "example.org"
    MetaProxyInterceptor := some (refusingModule "MetaProxy")
    NavigatorInterceptor := some (workingModule "Navigator")
    ScreenInterceptor := some (workingModule "Screen")
    CanvasInterceptor := some (workingModule "Canvas")
    WebGLInterceptor := none
    AudioInterceptor := some (throwingModule "Audio")
    TimezoneInterceptor := some (workingModule "Timezone") }

/-! # Theorems -/

/-! ## A program logic for `Gen` -/

theorem bind_run {α β : Type} (m : Gen α) (f : α → Gen β) (s : RngState) :
    (m >>= f) s = match m s with
      | .ok r => f r.1 r.2
      | .error e => .error e := by
  show (StateT.bind m f) s = _
  unfold StateT.bind
  show (Except.bind (m s) _) = _
  unfold Except.bind
  cases m s <;> rfl

theorem bind_ok {α β : Type} {m : Gen α} {f : α → Gen β} {s s' : RngState} {a : α}
    (hm : m s = .ok (a, s')) : (m >>= f) s = f a s' := by
  rw [bind_run, hm]

/-- The state after one draw made by step `d`. -/
theorem rng_run (d : Draw) (s : RngState) :
    rng d s = .ok (s.stream s.pos, { s with pos := s.pos + 1, log := s.log ++ [d] }) := rfl

theorem selectWeighted_run {α : Type} (d : Draw) (weight : α → JSNum) (items : List α)
    (s : RngState) :
    selectWeighted d weight items s
      = .ok (selectWeightedAt weight items (s.stream s.pos),
             { s with pos := s.pos + 1, log := s.log ++ [d] }) := rfl

theorem selectFromArray_run {α : Type} (d : Draw) (array : List α) (s : RngState) :
    selectFromArray d array s
      = .ok (jsIndex array ⌊s.stream s.pos * (array.length : ℚ)⌋,
             { s with pos := s.pos + 1, log := s.log ++ [d] }) := rfl

theorem deref_some {α : Type} (what : String) (a : α) (s : RngState) :
    deref what (some a) s = .ok (a, s) := rfl

theorem triple_bind {α β : Type} {P : RngState → Prop} {m : Gen α} {f : α → Gen β}
    {Q : β → RngState → Prop} (F : α → Prop) (P' : RngState → Prop)
    (hm : Triple P m (fun a s => F a ∧ P' s)) (hf : ∀ a, F a → Triple P' (f a) Q) :
    Triple P (m >>= f) Q := by
  intro s hs b s'' hrun
  rw [bind_run] at hrun
  cases hr : m s with
  | error e => rw [hr] at hrun; cases hrun
  | ok r =>
    rw [hr] at hrun
    obtain ⟨a, s'⟩ := r
    obtain ⟨hF, hP'⟩ := hm s hs a s' hr
    exact hf a hF s' hP' b s'' hrun

theorem triple_skip {α β : Type} {P : RngState → Prop} {m : Gen α} {f : α → Gen β}
    {Q : β → RngState → Prop} (hf : ∀ a, Triple (fun _ => True) (f a) Q) :
    Triple P (m >>= f) Q :=
  triple_bind (fun _ => True) (fun _ => True) (fun _ _ _ _ _ => ⟨trivial, trivial⟩)
    (fun a _ => hf a)

theorem triple_pure {α : Type} {P : RngState → Prop} {a : α} {Q : α → RngState → Prop}
    (h : ∀ s, P s → Q a s) : Triple P (pure a : Gen α) Q := by
  intro s hs b s' hrun
  cases hrun
  exact h s hs

theorem triple_selectWeighted {α : Type} (σ : ℕ → ℚ) (n : ℕ) (d : Draw) (weight : α → JSNum)
    (items : List α) :
    Triple (Pos σ n) (selectWeighted d weight items)
      (fun r s => r = selectWeightedAt weight items (σ n) ∧ Pos σ (n + 1) s) := by
  intro s hs a s' hrun
  rw [selectWeighted_run] at hrun
  cases hrun
  obtain ⟨h1, h2⟩ := hs
  exact ⟨by rw [h1, h2], h1, by simp [h2]⟩

theorem triple_selectFromArray {α : Type} (σ : ℕ → ℚ) (n : ℕ) (d : Draw) (array : List α) :
    Triple (Pos σ n) (selectFromArray d array)
      (fun r s => r = jsIndex array ⌊σ n * (array.length : ℚ)⌋ ∧ Pos σ (n + 1) s) := by
  intro s hs a s' hrun
  rw [selectFromArray_run] at hrun
  cases hrun
  obtain ⟨h1, h2⟩ := hs
  exact ⟨by rw [h1, h2], h1, by simp [h2]⟩

theorem triple_deref {α : Type} (P : RngState → Prop) (what : String) (v : Option α) :
    Triple P (deref what v) (fun a s => v = some a ∧ P s) := by
  intro s hs a s' hrun
  cases v with
  | none => cases hrun
  | some x =>
    rw [deref_some] at hrun
    cases hrun
    exact ⟨rfl, hs⟩

theorem triple_ite {α : Type} {P : RngState → Prop} {c : Prop} [Decidable c] {m1 m2 : Gen α}
    {Q : α → RngState → Prop} (h1 : c → Triple P m1 Q) (h2 : ¬ c → Triple P m2 Q) :
    Triple P (if c then m1 else m2) Q := by
  by_cases hc : c
  · rw [if_pos hc]; exact h1 hc
  · rw [if_neg hc]; exact h2 hc


/-! ## Lemmas on weighted selection -/

theorem totalWeight_foldl {α : Type} (w : α → ℚ) (items : List α) :
    ∀ acc : ℚ, (∀ a ∈ items, IsDouble (w a)) →
      (∀ k < items.length, IsDouble (acc + ((items.map w).take (k + 1)).sum)) →
      items.foldl (fun sum item => Double.add sum (Double.ofJSNum (some (w item))))
          (Double.finite acc)
        = Double.finite (acc + (items.map w).sum) := by
  induction items with
  | nil => intro acc _ _; simp
  | cons a rest ih =>
    intro acc hw hsum
    have ha : Double.ofJSNum (some (w a)) = Double.finite (w a) :=
      hw a (List.mem_cons_self _ _)
    have h0 : IsDouble (acc + w a) := by
      have := hsum 0 (by simp)
      simpa using this
    have hstep : Double.add (Double.finite acc) (Double.finite (w a))
        = Double.finite (acc + w a) := h0
    simp only [List.foldl_cons, ha, hstep, List.map_cons, List.sum_cons]
    rw [ih (acc + w a) (fun b hb => hw b (List.mem_cons_of_mem _ hb))]
    · congr 1
      ring
    · intro k hk
      have := hsum (k + 1) (by simpa using hk)
      simp only [List.map_cons, List.take_succ_cons, List.sum_cons] at this
      rw [add_assoc]
      exact this

theorem totalWeight_exact {α : Type} (w : α → ℚ) (items : List α)
    (hw : ∀ a ∈ items, IsDouble (w a))
    (hsum : ∀ k < items.length, IsDouble (((items.map w).take (k + 1)).sum)) :
    totalWeight (fun a => some (w a)) items = Double.finite ((items.map w).sum) := by
  unfold totalWeight
  rw [totalWeight_foldl w items 0 hw (fun k hk => by simpa using hsum k hk)]
  simp

theorem firstReach_cons (a : ℚ) (ws : List ℚ) (r : ℚ) :
    firstReach (a :: ws) r
      = if r ≤ a then some 0 else (firstReach ws (r - a)).map Nat.succ := by
  unfold firstReach
  simp only [List.length_cons, List.range_succ_eq_map, List.find?_cons]
  by_cases hra : r ≤ a
  · simp [hra]
  · simp only [hra, List.take_succ_cons, List.sum_cons, List.take_zero, List.sum_nil,
      add_zero, decide_False, if_false, zero_add]
    rw [List.find?_map]
    congr 1
    congr 1
    funext k
    simp only [Function.comp, List.take_succ_cons, List.sum_cons]
    congr 1
    apply propext
    constructor <;> intro hk <;> linarith

theorem selectWeightedLoop_exact {α : Type} (w : α → ℚ) (last : Option α) (items : List α) :
    ∀ r : ℚ, (∀ a ∈ items, IsDouble (w a)) →
      (∀ k < items.length, IsDouble (r - ((items.map w).take (k + 1)).sum)) →
      selectWeightedLoop (fun a => some (w a)) last (Double.finite r) items
        = match firstReach (items.map w) r with
          | some k => items.get? k
          | none => last := by
  induction items with
  | nil => intro r _ _; simp [selectWeightedLoop, firstReach]
  | cons a rest ih =>
    intro r hw hrem
    have ha : Double.ofJSNum (some (w a)) = Double.finite (w a) :=
      hw a (List.mem_cons_self _ _)
    have h0 : IsDouble (r - w a) := by
      have := hrem 0 (by simp)
      simpa using this
    have hstep : Double.sub (Double.finite r) (Double.finite (w a))
        = Double.finite (r - w a) := h0
    simp only [selectWeightedLoop, ha, hstep, Double.leZero, List.map_cons, firstReach_cons]
    by_cases hra : r ≤ w a
    · have h0 : r - w a ≤ 0 := by linarith
      simp [hra, h0]
    · have h0 : ¬ (r - w a ≤ 0) := by intro hc; apply hra; linarith
      simp only [h0, hra, decide_False, if_false, Bool.false_eq_true]
      rw [ih (r - w a) (fun b hb => hw b (List.mem_cons_of_mem _ hb))]
      · cases firstReach (rest.map w) (r - w a) <;> simp
      · intro k hk
        have := hrem (k + 1) (by simpa using hk)
        simp only [List.map_cons, List.take_succ_cons, List.sum_cons] at this
        rw [sub_sub]
        exact this

theorem selectWeightedAt_exact {α : Type} (w : α → ℚ) (items : List α) (u : ℚ)
    (hexact : ExactSelection (items.map w) u) :
    selectWeightedAt (fun a => some (w a)) items u
      = selectByRunningSum w items (u * (items.map w).sum) := by
  obtain ⟨hu, hw, hsum, hr, hrem⟩ := hexact
  have hw' : ∀ a ∈ items, IsDouble (w a) := fun a ha => hw _ (List.mem_map_of_mem w ha)
  unfold selectWeightedAt
  rw [totalWeight_exact w items hw' (fun k hk => hsum k (by simpa using hk))]
  have hmul : Double.mul (Double.ofRat u) (Double.finite ((items.map w).sum))
      = Double.finite (u * (items.map w).sum) := by
    rw [show Double.ofRat u = Double.finite u from hu]
    exact hr
  dsimp only
  rw [hmul]
  exact selectWeightedLoop_exact w items.getLast? items (u * (items.map w).sum) hw'
    (fun k hk => hrem k (by simpa using hk))

theorem firstReach_lt {ws : List ℚ} {r : ℚ} {k : ℕ} (hk : firstReach ws r = some k) :
    k < ws.length := by
  unfold firstReach at hk
  have hmem := List.mem_of_find?_eq_some hk
  exact List.mem_range.mp hmem

theorem selectByRunningSum_mem {α : Type} (w : α → ℚ) (items : List α) (r : ℚ)
    (hne : items ≠ []) : ∃ item ∈ items, selectByRunningSum w items r = some item := by
  unfold selectByRunningSum
  cases hk : firstReach (items.map w) r with
  | none =>
    refine ⟨items.getLast hne, List.getLast_mem hne, ?_⟩
    simp [List.getLast?_eq_getLast _ hne]
  | some k =>
    have hlt : k < items.length := by simpa using firstReach_lt hk
    refine ⟨items.get ⟨k, hlt⟩, List.get_mem _ _ _, ?_⟩
    simp [List.getElem?_eq_getElem hlt]

theorem sum_pos_of_pos {ws : List ℚ} (hne : ws ≠ []) (hpos : ∀ x ∈ ws, 0 < x) : 0 < ws.sum := by
  induction ws with
  | nil => exact absurd rfl hne
  | cons a rest ih =>
    simp only [List.sum_cons]
    have ha : 0 < a := hpos a (List.mem_cons_self _ _)
    by_cases hr : rest = []
    · subst hr; simpa using ha
    · have := ih hr (fun x hx => hpos x (List.mem_cons_of_mem _ hx))
      linarith

theorem firstReach_total {ws : List ℚ} (hne : ws ≠ []) (hpos : ∀ x ∈ ws, 0 < x) :
    firstReach ws ws.sum = some (ws.length - 1) := by
  induction ws with
  | nil => exact absurd rfl hne
  | cons a rest ih =>
    rw [firstReach_cons]
    by_cases hr : rest = []
    · subst hr; simp
    · have hrest := sum_pos_of_pos hr (fun x hx => hpos x (List.mem_cons_of_mem _ hx))
      have hna : ¬ ((a :: rest).sum ≤ a) := by
        simp only [List.sum_cons]; intro hc; linarith
      have hsub : (a :: rest).sum - a = rest.sum := by simp
      rw [if_neg hna, hsub, ih hr (fun x hx => hpos x (List.mem_cons_of_mem _ hx))]
      have hlen : 0 < rest.length := List.length_pos.mpr hr
      simp only [Option.map_some', List.length_cons, Nat.succ_eq_add_one, Option.some.injEq]
      omega

/-! ## Lemmas on selections and results -/

theorem selectWeightedLoop_mem {α : Type} (weight : α → JSNum) (last : Option α)
    (items : List α) (random : Double) (x : α)
    (hx : selectWeightedLoop weight last random items = some x) : x ∈ items ∨ last = some x := by
  induction items generalizing random with
  | nil => right; simpa [selectWeightedLoop] using hx
  | cons a rest ih =>
    simp only [selectWeightedLoop] at hx
    split at hx
    · left; cases hx; exact List.mem_cons_self _ _
    · rcases ih _ hx with hmem | hlast
      · left; exact List.mem_cons_of_mem _ hmem
      · right; exact hlast

theorem selectWeightedAt_mem {α : Type} (weight : α → JSNum) (items : List α) (u : ℚ) (x : α)
    (hx : selectWeightedAt weight items u = some x) : x ∈ items := by
  unfold selectWeightedAt at hx
  rcases selectWeightedLoop_mem weight _ items _ x hx with hmem | hlast
  · exact hmem
  · exact List.mem_of_mem_getLast? hlast

theorem selectWeightedAt_nil {α : Type} (weight : α → JSNum) (u : ℚ) :
    selectWeightedAt weight ([] : List α) u = none := rfl

theorem selectWeightedLoop_isSome {α : Type} (weight : α → JSNum) (last : α)
    (items : List α) (random : Double) :
    ∃ x, selectWeightedLoop weight (some last) random items = some x := by
  induction items generalizing random with
  | nil => exact ⟨last, rfl⟩
  | cons a rest ih =>
    simp only [selectWeightedLoop]
    split
    · exact ⟨a, rfl⟩
    · exact ih _

theorem selectWeightedAt_isSome {α : Type} (weight : α → JSNum) (items : List α) (u : ℚ)
    (hne : items ≠ []) : ∃ x ∈ items, selectWeightedAt weight items u = some x := by
  have hlast : items.getLast? = some (items.getLast hne) := List.getLast?_eq_getLast _ hne
  obtain ⟨x, hx⟩ := selectWeightedLoop_isSome weight (items.getLast hne) items
    (Double.mul (Double.ofRat u) (totalWeight weight items))
  have hsel : selectWeightedAt weight items u = some x := by
    unfold selectWeightedAt
    rw [hlast]
    exact hx
  exact ⟨x, selectWeightedAt_mem weight items u x hsel, hsel⟩

/-! ## Weighted selection and the running sum -/

/-- C1 (counterexample): the weights are the doubles nearest to `0.21`, `0.27` and `0.13` and
the draw is the double nearest to `0.7868852459016394`, in `[0, 1)`. The running sum of the
weights first reaches `r = u * totalWeight` at the third item, for the exact product and for the
double the code computes as `r` alike; the code returns the second item, because its sum and
its remainders are rounded. -/
theorem first_reach_rounding_counterexample :
    (∀ item ∈ roundingItems, IsDouble item.2 ∧ 0 ≤ item.2) ∧ IsDouble roundingDraw ∧
    0 ≤ roundingDraw ∧ roundingDraw < 1 ∧
    Double.ofRat (21 / 100) = Double.finite (7566047373982433 / 36028797018963968) ∧
    (selectWeighted Draw.archetype (fun a : String × ℚ => some a.2) roundingItems
        (constantRng roundingDraw)).map Prod.fst
      = .ok (some ("b", 607985949695017 / 2251799813685248)) ∧
    selectByRunningSum (fun a : String × ℚ => a.2) roundingItems
        (roundingDraw * (roundingItems.map (fun a : String × ℚ => a.2)).sum)
      = some ("c", 1170935903116329 / 9007199254740992) ∧
    Double.mul (Double.ofRat roundingDraw)
        (totalWeight (fun a : String × ℚ => some a.2) roundingItems)
      = Double.finite (8646911284551353 / 18014398509481984) ∧
    selectByRunningSum (fun a : String × ℚ => a.2) roundingItems
        (8646911284551353 / 18014398509481984)
      = some ("c", 1170935903116329 / 9007199254740992) := by
  refine ⟨by decide!, by decide!, by decide!, by decide!, by decide!, by decide!, by decide!,
    by decide!, by decide!⟩

/-- C1 (amended): on a non-empty list with non-negative weights and a draw `u` in `[0,1)`,
`selectWeighted` returns an item of the list; and when no operation rounds (the draw, the
weights, their running sums, `r = u * totalWeight` and the remainders are doubles), it returns
the item at the least index `k` whose running sum `w_0 + ... + w_k` reaches `r`, and the last
item when no index does. -/
theorem selectWeighted_first_reach {α : Type} (d : Draw) (w : α → ℚ) (items : List α)
    (s : RngState) (hne : items ≠ []) (_hw : ∀ a ∈ items, 0 ≤ w a)
    (_h0 : 0 ≤ s.stream s.pos) (_h1 : s.stream s.pos < 1)
    (hexact : ExactSelection (items.map w) (s.stream s.pos)) :
    (selectWeighted d (fun a => some (w a)) items s).map Prod.fst
        = .ok (selectByRunningSum w items (s.stream s.pos * (items.map w).sum)) ∧
    (∃ item ∈ items,
      selectByRunningSum w items (s.stream s.pos * (items.map w).sum) = some item) ∧
    (∀ s0 : RngState, ∃ item ∈ items,
      (selectWeighted d (fun a => some (w a)) items s0).map Prod.fst = .ok (some item)) := by
  refine ⟨?_, selectByRunningSum_mem w items _ hne, fun s0 => ?_⟩
  · rw [selectWeighted_run, selectWeightedAt_exact w items _ hexact]
    rfl
  · obtain ⟨x, hx, hsel⟩ := selectWeightedAt_isSome (fun a => some (w a)) items
      (s0.stream s0.pos) hne
    refine ⟨x, hx, ?_⟩
    rw [selectWeighted_run, hsel]
    rfl

/-- Witness of C1: weights `[1, 2, 1]` and the draw `1/2`, so `r = 2`; nothing is rounded, and
the second item is the first whose running sum (`3`) reaches `2`. -/
theorem selectWeighted_first_reach_witness :
    (selectWeighted Draw.archetype (fun a : String × ℚ => some a.2)
        [("a", 1), ("b", 2), ("c", 1)] (constantRng (1 / 2))).map Prod.fst
      = .ok (selectByRunningSum (fun a : String × ℚ => a.2) [("a", 1), ("b", 2), ("c", 1)]
          ((1 / 2 : ℚ) * ([("a", 1), ("b", 2), ("c", 1)].map (fun a : String × ℚ => a.2)).sum))
      ∧ selectByRunningSum (fun a : String × ℚ => a.2) [("a", 1), ("b", 2), ("c", 1)]
          ((1 / 2 : ℚ) * ([("a", 1), ("b", 2), ("c", 1)].map (fun a : String × ℚ => a.2)).sum)
        = some ("b", 2) :=
  ⟨(selectWeighted_first_reach Draw.archetype (fun a : String × ℚ => a.2)
      [("a", 1), ("b", 2), ("c", 1)] (constantRng (1 / 2))
      (by simp) (by decide!) (by decide!) (by decide!) (by decide!)).1,
   by decide!⟩

/-- C2 (counterexample): the positive weights `1` and `2^-53`: the sum `1 + 2^-53` rounds to
`1`, so `r = totalWeight` is `1`, the first subtraction leaves `0`, and the first item is
returned, not the last. -/
theorem boundary_rounding_counterexample :
    (∀ item ∈ absorbedItems, IsDouble item.2 ∧ 0 < item.2) ∧
    totalWeight (fun a : String × ℚ => some a.2) absorbedItems = Double.finite 1 ∧
    (selectWeighted Draw.archetype (fun a : String × ℚ => some a.2) absorbedItems
        (constantRng 1)).map Prod.fst = .ok (some ("a", 1)) ∧
    absorbedItems.getLast? = some ("b", 1 / 9007199254740992) := by
  refine ⟨by decide!, by decide!, by decide!, by decide!⟩

/-- C2 (amended): on a non-empty list, `selectWeighted` does not throw and returns an item of
the list, never `undefined`, whatever the draw; and when the weights are all positive, the
draw makes `r` equal to `totalWeight` (the generator returns `1`) and no operation rounds (the
weights, their running sums and the remainders are doubles), it returns the last item of the
list. -/
theorem selectWeighted_boundary {α : Type} (d : Draw) (w : α → ℚ) (items : List α)
    (s : RngState) (hne : items ≠ []) (hpos : ∀ a ∈ items, 0 < w a)
    (hu : s.stream s.pos = 1) (hexact : ExactSelection (items.map w) 1) :
    (selectWeighted d (fun a => some (w a)) items s).map Prod.fst
      = .ok (some (items.getLast hne)) ∧
    (∀ s0 : RngState, ∃ item ∈ items,
      (selectWeighted d (fun a => some (w a)) items s0).map Prod.fst = .ok (some item)) := by
  refine ⟨?_, fun s0 => ?_⟩
  · rw [selectWeighted_run, hu, selectWeightedAt_exact w items 1 hexact, one_mul]
    have hne2 : items.map w ≠ [] := by simpa using hne
    have hpos2 : ∀ x ∈ items.map w, 0 < x := by
      intro x hx
      rcases List.mem_map.mp hx with ⟨a, ha, rfl⟩
      exact hpos a ha
    have hk := firstReach_total hne2 hpos2
    unfold selectByRunningSum
    rw [hk]
    simp only [List.length_map, Except.map]
    congr 1
    rw [List.getLast_eq_getElem]
    have hlt : items.length - 1 < items.length :=
      Nat.sub_lt (List.length_pos.mpr hne) Nat.one_pos
    simp [List.getElem?_eq_getElem hlt]
  · obtain ⟨x, hx, hsel⟩ := selectWeightedAt_isSome (fun a => some (w a)) items
      (s0.stream s0.pos) hne
    refine ⟨x, hx, ?_⟩
    rw [selectWeighted_run, hsel]
    rfl

/-- Witness of C2: weights `[1, 1, 1]` and `r = 3`; the third item is returned. -/
theorem selectWeighted_boundary_witness :
    (selectWeighted Draw.archetype (fun a : String × ℚ => some a.2)
        [("a", 1), ("b", 1), ("c", 1)] (constantRng 1)).map Prod.fst
      = .ok (some ([(("a", 1) : String × ℚ), ("b", 1), ("c", 1)].getLast (by simp))) :=
  (selectWeighted_boundary Draw.archetype (fun a : String × ℚ => a.2)
    [("a", 1), ("b", 1), ("c", 1)] (constantRng 1)
    (by simp) (by decide!) rfl (by decide!)).1

/-! ## Lemmas on weighted items -/

theorem zipWeights_eq_nil {α : Type} (values : List α) (weights : List ℚ) :
    zipWeights values weights = [] ↔ values = [] := by
  unfold zipWeights
  cases values <;> simp [List.enum]

theorem jsIndex_mem {α : Type} (array : List α) (i : ℤ) (x : α)
    (hx : jsIndex array i = some x) : x ∈ array := by
  unfold jsIndex at hx
  split at hx
  · exact List.get?_mem hx
  · cases hx

theorem jsIndex_unit {α : Type} (array : List α) (u : ℚ) (hne : array ≠ [])
    (h0 : 0 ≤ u) (h1 : u < 1) :
    ∃ x ∈ array, jsIndex array ⌊u * (array.length : ℚ)⌋ = some x := by
  have hlen : (0 : ℚ) < (array.length : ℚ) := by
    exact_mod_cast List.length_pos.mpr hne
  have hnn : 0 ≤ ⌊u * (array.length : ℚ)⌋ := Int.floor_nonneg.mpr (mul_nonneg h0 hlen.le)
  have hlt : ⌊u * (array.length : ℚ)⌋ < (array.length : ℤ) := by
    rw [Int.floor_lt]
    push_cast
    nlinarith
  have hidx : ⌊u * (array.length : ℚ)⌋.toNat < array.length := by
    omega
  refine ⟨array.get ⟨_, hidx⟩, List.get_mem _ _ _, ?_⟩
  unfold jsIndex
  rw [if_pos hnn]
  simp [List.getElem?_eq_getElem hidx]

theorem jsIndex_nil {α : Type} (i : ℤ) : jsIndex ([] : List α) i = none := by
  unfold jsIndex
  split <;> simp

theorem invoke_ok_main {h : Host} {w : World} {K : ProfilesData} {S : String}
    {p : Main.Profile} (hp : Main.invoke h w K S = .ok p) :
    ∃ s', Main.generate h w K S (newRng h S) = .ok (p, s') := by
  unfold Main.invoke at hp
  cases hr : Main.generate h w K S (newRng h S) with
  | error e => rw [hr] at hp; cases hp
  | ok r =>
    rw [hr] at hp
    obtain ⟨a, s'⟩ := r
    cases hp
    exact ⟨s', rfl⟩

theorem invoke_ok_module {h : Host} {w : World} {K : ProfilesData} {S : String}
    {p : Module.Profile} (hp : Module.invoke h w K S = .ok p) :
    ∃ s', Module.generate h w K S (newRng h S) = .ok (p, s') := by
  unfold Module.invoke at hp
  cases hr : Module.generate h w K S (newRng h S) with
  | error e => rw [hr] at hp; cases hp
  | ok r =>
    rw [hr] at hp
    obtain ⟨a, s'⟩ := r
    cases hp
    exact ⟨s', rfl⟩

theorem pos_newRng (h : Host) (S : String) : Pos (h.seedrandom S) 0 (newRng h S) :=
  ⟨rfl, rfl⟩


/-! ## What a successful run of `generate` selected -/

theorem main_generate_facts (h : Host) (w : World) (K : ProfilesData) (S : String)
    (σ : ℕ → ℚ) :
    Triple (Pos σ 0) (Main.generate h w K S) (fun p _ =>
      ∃ (a : DeviceArchetype) (cpu : Item ℚ) (gpu : GpuVendor) (res : Resolution)
        (lang : Item String) (region : Item (String × List TimezoneEntry))
        (zone : TimezoneEntry) (cv : ChromeVersion),
        selectWeightedAt (fun a : DeviceArchetype => some a.weight) K.deviceArchetypes (σ 0)
          = some a ∧
        selectWeightedAt Item.weight (zipWeights a.hardware.cpu.cores a.hardware.cpu.weights)
          (σ 1) = some cpu ∧
        jsIndex a.hardware.gpuVendors ⌊σ 3 * (a.hardware.gpuVendors.length : ℚ)⌋ = some gpu ∧
        selectWeightedAt (fun r : Resolution => some r.weight) a.display.resolutions (σ 5)
          = some res ∧
        selectWeightedAt Item.weight (zipWeights a.languages.primary a.languages.weights)
          (σ 6) = some lang ∧
        selectWeightedAt Item.weight (K.timezoneRegions.map (fun e =>
          ({ value := e, weight := zonesWeight e.2 } : Item (String × List TimezoneEntry))))
          (σ 7) = some region ∧
        selectWeightedAt (fun z : TimezoneEntry => some z.weight) region.value.2 (σ 8)
          = some zone ∧
        selectWeightedAt (fun c : ChromeVersion => some c.weight) K.chromeVersions (σ 9)
          = some cv ∧
        p.seed = S ∧ p.archetype = a.id ∧ p.navigator.platform = a.platform ∧
        (a.platform = "Linux armv8l" → p.navigator.plugins = []) ∧
        p.navigator.hardwareConcurrency = cpu.value ∧
        p.navigator.deviceMemory
          = jsIndex a.hardware.memory ⌊σ 2 * (a.hardware.memory.length : ℚ)⌋ ∧
        p.navigator.language = lang.value ∧
        p.screen.width = res.width ∧ p.screen.height = res.height ∧
        p.webgl.vendor = gpu.vendor ∧
        p.webgl.renderer = jsReplace gpu.renderer "{model}"
          (jsIndex gpu.models ⌊σ 4 * (gpu.models.length : ℚ)⌋) ∧
        p.timezone.name = zone.timezone) := by
  unfold Main.generate
  refine triple_bind _ _ (triple_selectWeighted σ 0 _ _ _) (fun archetype h1 => ?_)
  refine triple_bind _ _ (triple_deref _ _ _) (fun a h2 => ?_)
  refine triple_bind _ _ (triple_selectWeighted σ _ _ _ _) (fun cpuItem h3 => ?_)
  refine triple_bind _ _ (triple_deref _ _ _) (fun cpu h4 => ?_)
  refine triple_bind _ _ (triple_selectFromArray σ _ _ _) (fun memory h5 => ?_)
  refine triple_bind _ _ (triple_selectFromArray σ _ _ _) (fun gpu h6 => ?_)
  refine triple_bind _ _ (triple_deref _ _ _) (fun gpu h7 => ?_)
  refine triple_bind _ _ (triple_selectFromArray σ _ _ _) (fun gpuModel h8 => ?_)
  refine triple_bind _ _ (triple_selectWeighted σ _ _ _ _) (fun resolution h9 => ?_)
  refine triple_bind _ _ (triple_selectWeighted σ _ _ _ _) (fun languageItem h10 => ?_)
  refine triple_bind _ _ (triple_deref _ _ _) (fun lang h11 => ?_)
  refine triple_bind _ _ (triple_selectWeighted σ _ _ _ _) (fun region h12 => ?_)
  refine triple_bind _ _ (triple_deref _ _ _) (fun region h13 => ?_)
  refine triple_bind _ _ (triple_selectWeighted σ _ _ _ _) (fun timezoneData h14 => ?_)
  refine triple_bind _ _ (triple_selectWeighted σ _ _ _ _) (fun chromeVersion h15 => ?_)
  refine triple_bind _ _ (triple_deref _ _ _) (fun cv h16 => ?_)
  dsimp only
  refine triple_skip (fun userAgent => ?_)
  refine triple_bind (fun pl => a.platform = "Linux armv8l" → pl = []) (fun _ => True) ?_
    (fun plugins h18 => ?_)
  · refine triple_ite (fun hc => ?_) (fun _ => triple_pure (fun _ _ => ⟨fun _ => rfl, trivial⟩))
    intro s _ pl s' _
    exact ⟨fun hp => absurd hp hc, trivial⟩
  dsimp only
  refine triple_skip (fun fontCount => ?_)
  refine triple_skip (fun selectedFonts => ?_)
  refine triple_bind _ _ (triple_deref _ _ _) (fun res h21 => ?_)
  refine triple_bind _ _ (triple_deref _ _ _) (fun zone h22 => ?_)
  refine triple_skip (fun extensions => ?_)
  refine triple_skip (fun u1 => ?_)
  refine triple_skip (fun u2 => ?_)
  refine triple_skip (fun u3 => ?_)
  refine triple_skip (fun u4 => ?_)
  refine triple_skip (fun battery => ?_)
  refine triple_pure (fun _ _ => ?_)
  subst h1 h3 h5 h6 h8 h9 h10 h12 h14 h15
  exact ⟨a, cpu, gpu, res, lang, region, zone, cv, h2, h4, h7, h21, h11, h13, h22, h16,
    rfl, rfl, rfl, h18, rfl, rfl, rfl, rfl, rfl, rfl, rfl, rfl⟩


theorem triple_selectCPU (σ : ℕ → ℚ) (n : ℕ) (a : DeviceArchetype) :
    Triple (Pos σ n) (Module.selectCPU a) (fun _ s => True ∧ Pos σ (n + 1) s) := by
  unfold Module.selectCPU
  dsimp only
  refine triple_bind _ _ (triple_selectWeighted σ n _ _ _) (fun item _ => ?_)
  refine triple_bind _ _ (triple_deref _ _ _) (fun item _ => ?_)
  exact triple_pure (fun _ hs => ⟨trivial, hs⟩)

theorem triple_selectGPU (σ : ℕ → ℚ) (n : ℕ) (a : DeviceArchetype) :
    Triple (Pos σ n) (Module.selectGPU a) (fun r s =>
      (∃ g, jsIndex a.hardware.gpuVendors ⌊σ n * (a.hardware.gpuVendors.length : ℚ)⌋ = some g ∧
        r.vendor = g.vendor ∧
        r.renderer = jsReplace g.renderer "{model}"
          (jsIndex g.models ⌊σ (n + 1) * (g.models.length : ℚ)⌋)) ∧ Pos σ (n + 2) s) := by
  unfold Module.selectGPU
  refine triple_bind _ _ (triple_selectFromArray σ n _ _) (fun gpu h1 => ?_)
  refine triple_bind _ _ (triple_deref _ _ _) (fun g h2 => ?_)
  refine triple_bind _ _ (triple_selectFromArray σ _ _ _) (fun model h3 => ?_)
  refine triple_pure (fun _ hs => ⟨⟨g, ?_, rfl, ?_⟩, hs⟩)
  · rw [← h1, h2]
  · rw [h3]

theorem triple_generatePlugins (P : RngState → Prop) (a : DeviceArchetype) :
    Triple P (Module.generatePlugins a)
      (fun pl _ => (a.platform = "Linux armv8l" → pl = []) ∧ True) := by
  unfold Module.generatePlugins
  refine triple_ite (fun hc => ?_) (fun _ => triple_pure (fun _ _ => ⟨fun _ => rfl, trivial⟩))
  intro s _ pl s' _
  exact ⟨fun hp => absurd hp hc, trivial⟩

theorem module_generate_facts (h : Host) (w : World) (K : ProfilesData) (S : String)
    (σ : ℕ → ℚ) :
    Triple (Pos σ 0) (Module.generate h w K S) (fun p _ =>
      ∃ (a : DeviceArchetype) (gpu : GpuVendor),
        selectWeightedAt (fun a : DeviceArchetype => some a.weight) K.deviceArchetypes (σ 0)
          = some a ∧
        jsIndex a.hardware.gpuVendors ⌊σ 3 * (a.hardware.gpuVendors.length : ℚ)⌋ = some gpu ∧
        p.seed = S ∧ p.archetype = a.id ∧ p.navigator.platform = a.platform ∧
        (a.platform = "Linux armv8l" → p.navigator.plugins = []) ∧
        p.navigator.mimeTypes = Module.generateMimeTypes p.navigator.plugins ∧
        p.webgl.vendor = gpu.vendor ∧
        p.webgl.renderer = jsReplace gpu.renderer "{model}"
          (jsIndex gpu.models ⌊σ 4 * (gpu.models.length : ℚ)⌋)) := by
  unfold Module.generate
  refine triple_bind _ _ (triple_selectWeighted σ 0 _ _ _) (fun archetype h1 => ?_)
  unfold Module.buildProfile
  refine triple_bind _ _ (triple_deref _ _ _) (fun a h2 => ?_)
  refine triple_bind _ _ (triple_selectCPU σ _ _) (fun cpu _ => ?_)
  refine triple_bind _ _ (triple_selectFromArray σ _ _ _) (fun memory _ => ?_)
  refine triple_bind _ _ (triple_selectGPU σ _ _) (fun gpu h5 => ?_)
  refine triple_skip (fun resolution => ?_)
  refine triple_skip (fun geoData => ?_)
  refine triple_skip (fun language => ?_)
  refine triple_skip (fun chromeVersion => ?_)
  refine triple_skip (fun userAgent => ?_)
  refine triple_skip (fun fonts => ?_)
  refine triple_bind _ _ (triple_generatePlugins _ _) (fun plugins h12 => ?_)
  iterate 18 (refine triple_skip (fun _ => ?_))
  refine triple_pure (fun _ _ => ?_)
  obtain ⟨g, hg, hv, hr⟩ := h5
  subst h1
  exact ⟨a, g, h2, hg, rfl, rfl, rfl, h12, rfl, hv, hr⟩


/-! ## Claims on the generated profile -/

theorem ok_of_isSome {α : Type} {r : Except JSError α} (hr : r.toOption.isSome = true) :
    ∃ a, r = .ok a := by
  cases r with
  | error e => cases hr
  | ok a => exact ⟨a, rfl⟩

theorem main_facts_of_invoke {h : Host} {w : World} {K : ProfilesData} {S : String}
    {p : Main.Profile} (hp : Main.invoke h w K S = .ok p) :
    ∃ (a : DeviceArchetype) (gpu : GpuVendor) (res : Resolution)
      (region : Item (String × List TimezoneEntry)) (zone : TimezoneEntry)
      (cv : ChromeVersion),
      Main.selectedArchetype h K S = some a ∧
      zipWeights a.hardware.cpu.cores a.hardware.cpu.weights ≠ [] ∧
      jsIndex a.hardware.gpuVendors
        ⌊h.seedrandom S 3 * (a.hardware.gpuVendors.length : ℚ)⌋ = some gpu ∧
      res ∈ a.display.resolutions ∧
      zipWeights a.languages.primary a.languages.weights ≠ [] ∧
      Main.selectedRegion h K S = some region.value ∧
      zone ∈ region.value.2 ∧
      cv ∈ K.chromeVersions ∧
      p.seed = S ∧ p.navigator.platform = a.platform ∧
      (a.platform = "Linux armv8l" → p.navigator.plugins = []) ∧
      p.screen.width = res.width ∧ p.screen.height = res.height ∧
      p.webgl.vendor = gpu.vendor ∧
      p.webgl.renderer = jsReplace gpu.renderer "{model}"
        (jsIndex gpu.models ⌊h.seedrandom S 4 * (gpu.models.length : ℚ)⌋) := by
  obtain ⟨s', hrun⟩ := invoke_ok_main hp
  obtain ⟨a, cpu, gpu, res, lang, region, zone, cv, h1, h2, h3, h4, h5, h6, h7, h8, h9, _,
    h11, h12, _, _, _, h16, h17, h18, h19, _⟩ :=
    main_generate_facts h w K S (h.seedrandom S) _ (pos_newRng h S) p s' hrun
  refine ⟨a, gpu, res, region, zone, cv, h1, ?_, h3, ?_, ?_, ?_, ?_, ?_, h9, h11,
    h12, h16, h17, h18, h19⟩
  · intro hnil; rw [hnil, selectWeightedAt_nil] at h2; cases h2
  · exact selectWeightedAt_mem _ _ _ _ h4
  · intro hnil; rw [hnil, selectWeightedAt_nil] at h5; cases h5
  · unfold Main.selectedRegion; rw [h6]; rfl
  · exact selectWeightedAt_mem _ _ _ _ h7
  · exact selectWeightedAt_mem _ _ _ _ h8

theorem renderer_mem_renderers (g : GpuVendor) (u : ℚ) (h0 : 0 ≤ u) (h1 : u < 1) :
    jsReplace g.renderer "{model}" (jsIndex g.models ⌊u * (g.models.length : ℚ)⌋)
      ∈ renderers g := by
  unfold renderers
  by_cases hm : g.models = []
  · rw [if_pos hm, hm, jsIndex_nil]
    exact List.mem_singleton_self _
  · rw [if_neg hm]
    obtain ⟨m, hmem, hidx⟩ := jsIndex_unit g.models u hm h0 h1
    rw [hidx]
    exact List.mem_map.mpr ⟨m, hmem, rfl⟩

/-- C3: two invocations of `ProfileGenerator(K, S).generate()` of `chameleon-main.js`, each on
a fresh generator seeded with `S`, return the same result whatever the clock and the time zone
database say at the time of the call: the profile is a function of `S` and `K` (and of the
seeded generator and the sort of the engine) alone. -/
theorem main_invoke_deterministic (h : Host) (K : ProfilesData) (S : String)
    (w1 w2 : World) : Main.invoke h w1 K S = Main.invoke h w2 K S := rfl

/-- C5: for seeds `S1 ≠ S2` and a knowledge base on which generation succeeds, the profiles
of `S1` and `S2` differ (the profile carries its seed in the field `seed`). -/
theorem main_invoke_seed_sensitive (h : Host) (w : World) (K : ProfilesData)
    (S1 S2 : String) (hne : S1 ≠ S2) (hok : ∃ p, Main.invoke h w K S1 = .ok p) :
    Main.invoke h w K S1 ≠ Main.invoke h w K S2 := by
  obtain ⟨p, hp⟩ := hok
  intro heq
  have hp2 : Main.invoke h w K S2 = .ok p := by rw [← heq]; exact hp
  obtain ⟨_, _, _, _, _, _, _, _, _, _, _, _, _, _, hs1, _⟩ := main_facts_of_invoke hp
  obtain ⟨_, _, _, _, _, _, _, _, _, _, _, _, _, _, hs2, _⟩ := main_facts_of_invoke hp2
  exact hne (hs1.symm.trans hs2)

/-- Witness of C5: the seed of sixty-four `a` and the seed `b` on the demo knowledge base. -/
theorem main_invoke_seed_sensitive_witness :
    Main.invoke demoHost (demoWorld 0) demoData seedA
      ≠ Main.invoke demoHost (demoWorld 0) demoData "b" :=
  main_invoke_seed_sensitive demoHost (demoWorld 0) demoData seedA "b" (by decide)
    (ok_of_isSome (by decide!))

/-- C7: if a mandatory weighted list is empty (`deviceArchetypes`, `timezoneRegions`,
`chromeVersions`, the CPU cores, the resolutions or the primary languages of the selected
archetype, or the zone list of the selected region), `generate()` of `chameleon-main.js`
throws and returns no profile. -/
theorem main_invoke_raises_on_empty_list (h : Host) (w : World) (K : ProfilesData) (S : String)
    (hempty : K.deviceArchetypes = [] ∨ K.timezoneRegions = [] ∨ K.chromeVersions = [] ∨
      (∃ a, Main.selectedArchetype h K S = some a ∧
        (a.hardware.cpu.cores = [] ∨ a.display.resolutions = [] ∨ a.languages.primary = [])) ∨
      (∃ r, Main.selectedRegion h K S = some r ∧ r.2 = [])) :
    ∃ e, Main.invoke h w K S = .error e := by
  cases hrun : Main.invoke h w K S with
  | error e => exact ⟨e, rfl⟩
  | ok p =>
    exfalso
    obtain ⟨a, gpu, res, region, zone, cv, h1, h2, _, h4, h5, h6, h7, h8, _⟩ :=
      main_facts_of_invoke hrun
    rcases hempty with hK | hR | hC | ⟨a', ha', hlists⟩ | ⟨r, hr, hz⟩
    · unfold Main.selectedArchetype at h1
      rw [hK, selectWeightedAt_nil] at h1
      cases h1
    · unfold Main.selectedRegion at h6
      rw [hR] at h6
      cases h6
    · rw [hC] at h8
      cases h8
    · rw [h1] at ha'
      cases ha'
      rcases hlists with hc | hd | hl
      · exact h2 ((zipWeights_eq_nil _ _).mpr hc)
      · rw [hd] at h4; cases h4
      · exact h5 ((zipWeights_eq_nil _ _).mpr hl)
    · rw [h6] at hr
      cases hr
      rw [hz] at h7
      cases h7

/-- Witness of C7: the demo knowledge base without Chrome versions. -/
theorem main_invoke_raises_on_empty_list_witness :
    ∃ e, Main.invoke demoHost (demoWorld 0) noChromeData seedA = .error e :=
  main_invoke_raises_on_empty_list demoHost (demoWorld 0) noChromeData seedA
    (Or.inr (Or.inr (Or.inl rfl)))


theorem module_facts_of_invoke {h : Host} {w : World} {K : ProfilesData} {S : String}
    {p : Module.Profile} (hp : Module.invoke h w K S = .ok p) :
    ∃ (a : DeviceArchetype) (gpu : GpuVendor),
      Main.selectedArchetype h K S = some a ∧
      jsIndex a.hardware.gpuVendors
        ⌊h.seedrandom S 3 * (a.hardware.gpuVendors.length : ℚ)⌋ = some gpu ∧
      p.seed = S ∧ p.navigator.platform = a.platform ∧
      (a.platform = "Linux armv8l" → p.navigator.plugins = []) ∧
      p.navigator.mimeTypes = Module.generateMimeTypes p.navigator.plugins ∧
      p.webgl.vendor = gpu.vendor ∧
      p.webgl.renderer = jsReplace gpu.renderer "{model}"
        (jsIndex gpu.models ⌊h.seedrandom S 4 * (gpu.models.length : ℚ)⌋) := by
  obtain ⟨s', hrun⟩ := invoke_ok_module hp
  obtain ⟨a, gpu, h1, h2, h3, _, h5, h6, h7, h8, h9⟩ :=
    module_generate_facts h w K S (h.seedrandom S) _ (pos_newRng h S) p s' hrun
  exact ⟨a, gpu, h1, h2, h3, h5, h6, h7, h8, h9⟩

/-- C8: in a profile generated by either generator, if the platform of the selected archetype
(the field `navigator.platform`) is `Linux armv8l`, the list `navigator.plugins` is empty, and
so is the list `navigator.mimeTypes` that `profile-generator.js` derives from it. -/
theorem plugins_empty_on_mobile (h : Host) (w : World) (K : ProfilesData) (S : String) :
    (∀ p, Main.invoke h w K S = .ok p → p.navigator.platform = "Linux armv8l" →
      p.navigator.plugins = []) ∧
    (∀ q, Module.invoke h w K S = .ok q → q.navigator.platform = "Linux armv8l" →
      q.navigator.plugins = [] ∧ q.navigator.mimeTypes = []) := by
  constructor
  · intro p hp hplat
    obtain ⟨a, _, _, _, _, _, _, _, _, _, _, _, _, _, _, h10, h11, _⟩ := main_facts_of_invoke hp
    exact h11 (h10 ▸ hplat)
  · intro q hq hplat
    obtain ⟨a, _, _, _, _, h4, h5, h6, _⟩ := module_facts_of_invoke hq
    have hpl : q.navigator.plugins = [] := h5 (h4 ▸ hplat)
    exact ⟨hpl, by rw [h6, hpl]; rfl⟩

/-- Witness of C8: the mobile knowledge base; both generators return a profile with platform
`Linux armv8l`, no plugin and no mime type. -/
theorem plugins_empty_on_mobile_witness :
    (∃ p, Main.invoke demoHost (demoWorld 0) demoMobileData seedA = .ok p ∧
      p.navigator.platform = "Linux armv8l" ∧ p.navigator.plugins = []) ∧
    (∃ q, Module.invoke demoHost (demoWorld 0) demoMobileData seedA = .ok q ∧
      q.navigator.platform = "Linux armv8l" ∧
      q.navigator.plugins = [] ∧ q.navigator.mimeTypes = []) := by
  obtain ⟨p, hp⟩ : ∃ p, Main.invoke demoHost (demoWorld 0) demoMobileData seedA = .ok p :=
    ok_of_isSome (by decide!)
  obtain ⟨q, hq⟩ : ∃ q, Module.invoke demoHost (demoWorld 0) demoMobileData seedA = .ok q :=
    ok_of_isSome (by decide!)
  have hpp : (Main.invoke demoHost (demoWorld 0) demoMobileData seedA).toOption.map
      (fun p => p.navigator.platform) = some "Linux armv8l" := by decide!
  have hqp : (Module.invoke demoHost (demoWorld 0) demoMobileData seedA).toOption.map
      (fun q => q.navigator.platform) = some "Linux armv8l" := by decide!
  rw [hp] at hpp
  rw [hq] at hqp
  have hpp' : p.navigator.platform = "Linux armv8l" := Option.some.inj hpp
  have hqp' : q.navigator.platform = "Linux armv8l" := Option.some.inj hqp
  exact ⟨⟨p, hp, hpp',
      (plugins_empty_on_mobile demoHost (demoWorld 0) demoMobileData seedA).1 p hp hpp'⟩,
    ⟨q, hq, hqp',
      (plugins_empty_on_mobile demoHost (demoWorld 0) demoMobileData seedA).2 q hq hqp'⟩⟩

/-- C9, as the code has it: when the numbers of the seeded generator lie in `[0, 1)`, every
profile generated by either generator takes `navigator.platform` from the selected archetype
and `webgl.vendor`, `webgl.renderer` from one entry `g` of that archetype's
`hardware.gpuVendors`: the renderer is the template of `g` with `{model}` replaced by a model of
`g`, or by the text `undefined` when `g` has no model.  Hence on a knowledge base where no
archetype pairs its platform with a GPU string that `bad` rejects, no generated profile is
rejected by `bad`. -/
theorem gpu_from_selected_archetype (h : Host) (w : World) (K : ProfilesData) (S : String)
    (hu : h.UnitRange S) :
    (∀ p, Main.invoke h w K S = .ok p →
      GpuFrom (Main.selectedArchetype h K S) p.navigator.platform p.webgl.vendor
        p.webgl.renderer ∧
      ∀ bad, Plausible K bad → ¬ bad p.navigator.platform p.webgl.vendor p.webgl.renderer) ∧
    (∀ q, Module.invoke h w K S = .ok q →
      GpuFrom (Main.selectedArchetype h K S) q.navigator.platform q.webgl.vendor
        q.webgl.renderer ∧
      ∀ bad, Plausible K bad → ¬ bad q.navigator.platform q.webgl.vendor q.webgl.renderer) := by
  have key : ∀ (platform vendor renderer : String) (a : DeviceArchetype) (g : GpuVendor),
      Main.selectedArchetype h K S = some a →
      jsIndex a.hardware.gpuVendors
        ⌊h.seedrandom S 3 * (a.hardware.gpuVendors.length : ℚ)⌋ = some g →
      platform = a.platform → vendor = g.vendor →
      renderer = jsReplace g.renderer "{model}"
        (jsIndex g.models ⌊h.seedrandom S 4 * (g.models.length : ℚ)⌋) →
      GpuFrom (Main.selectedArchetype h K S) platform vendor renderer ∧
      ∀ bad, Plausible K bad → ¬ bad platform vendor renderer := by
    intro platform vendor renderer a g ha hg hp hv hr
    have hgmem : g ∈ a.hardware.gpuVendors := jsIndex_mem _ _ _ hg
    have hamem : a ∈ K.deviceArchetypes := selectWeightedAt_mem _ _ _ _ ha
    have hrmem : renderer ∈ renderers g := by
      rw [hr]
      exact renderer_mem_renderers g _ (hu 4).1 (hu 4).2
    refine ⟨⟨a, g, ha, hgmem, hp, hv, hrmem⟩, ?_⟩
    intro bad hbad
    rw [hp, hv]
    exact hbad a hamem g hgmem renderer hrmem
  constructor
  · intro p hp
    obtain ⟨a, g, _, _, _, _, h1, _, h3, _, _, _, _, _, _, h10, _, _, _, h14, h15⟩ :=
      main_facts_of_invoke hp
    exact key _ _ _ a g h1 h3 h10 h14 h15
  · intro q hq
    obtain ⟨a, g, h1, h2, _, h4, _, _, h7, h8⟩ := module_facts_of_invoke hq
    exact key _ _ _ a g h1 h2 h4 h7 h8


/-! ## Total correctness -/

theorem total_bind {α β : Type} {m : Gen α} {f : α → Gen β} {G : β → Prop} (F : α → Prop)
    (hm : Total m F) (hf : ∀ a, F a → Total (f a) G) : Total (m >>= f) G := by
  intro s hs
  obtain ⟨a, s', hrun, hF, hs'⟩ := hm s hs
  obtain ⟨b, s'', hrun', hG, hs''⟩ := hf a hF s' hs'
  exact ⟨b, s'', by rw [bind_ok hrun]; exact hrun', hG, hs''⟩

theorem total_pure {α : Type} {a : α} {F : α → Prop} (hF : F a) : Total (pure a : Gen α) F :=
  fun s hs => ⟨a, s, rfl, hF, hs⟩

theorem total_rng (d : Draw) : Total (rng d) (fun u => 0 ≤ u ∧ u < 1) :=
  fun s hs => ⟨_, _, rng_run d s, hs s.pos, hs⟩

theorem total_selectWeighted {α : Type} (d : Draw) (weight : α → JSNum) (items : List α)
    (hne : items ≠ []) :
    Total (selectWeighted d weight items) (fun r => ∃ x ∈ items, r = some x) := by
  intro s hs
  obtain ⟨x, hmem, hx⟩ := selectWeightedAt_isSome weight items (s.stream s.pos) hne
  exact ⟨_, _, selectWeighted_run d weight items s, ⟨x, hmem, hx⟩, hs⟩

theorem total_selectFromArray {α : Type} (d : Draw) (array : List α) (hne : array ≠ []) :
    Total (selectFromArray d array) (fun r => ∃ x ∈ array, r = some x) := by
  intro s hs
  obtain ⟨x, hmem, hx⟩ := jsIndex_unit array (s.stream s.pos) hne (hs s.pos).1 (hs s.pos).2
  exact ⟨_, _, selectFromArray_run d array s, ⟨x, hmem, hx⟩, hs⟩

theorem total_selectFromArray_any {α : Type} (d : Draw) (array : List α) :
    Total (selectFromArray d array) (fun _ => True) :=
  fun s hs => ⟨_, _, selectFromArray_run d array s, trivial, hs⟩

theorem total_deref {α : Type} (what : String) (a : α) :
    Total (deref what (some a)) (fun x => x = a) :=
  fun s hs => ⟨a, s, rfl, rfl, hs⟩

theorem total_ite {α : Type} {c : Prop} [Decidable c] {m1 m2 : Gen α} {F : α → Prop}
    (h1 : c → Total m1 F) (h2 : ¬ c → Total m2 F) : Total (if c then m1 else m2) F := by
  by_cases hc : c
  · rw [if_pos hc]; exact h1 hc
  · rw [if_neg hc]; exact h2 hc

theorem total_fontLoop (n : ℕ) (availableFonts : List String)
    (selectedFonts : List (Option String)) :
    Total (fontLoop n availableFonts selectedFonts) (fun _ => True) := by
  induction n generalizing availableFonts selectedFonts with
  | zero => exact total_pure trivial
  | succ k ih =>
    unfold fontLoop
    refine total_ite (fun _ => ?_) (fun _ => total_pure trivial)
    exact total_bind _ (total_rng _) (fun u _ => ih _ _)

theorem total_sortRandom (h : Host) (d : Draw) (array : List String) :
    Total (sortRandom h d array) (fun _ => True) :=
  fun _ hs => ⟨_, _, rfl, trivial, hs⟩

theorem total_generateBattery : Total generateBattery (fun _ => True) := by
  unfold generateBattery
  refine total_bind _ (total_rng _) (fun u1 _ => ?_)
  refine total_bind _ (total_rng _) (fun u2 _ => ?_)
  refine total_bind _ (total_rng _) (fun u3 _ => ?_)
  refine total_bind (fun _ => True) ?_ (fun chargingTime _ => ?_)
  · refine total_ite (fun _ => ?_) (fun _ => total_pure trivial)
    exact total_bind _ (total_rng _) (fun u4 _ => total_pure trivial)
  refine total_bind _ (total_rng _) (fun u5 _ => ?_)
  exact total_pure trivial

theorem main_generate_total (h : Host) (w : World) (K : ProfilesData) (S : String)
    (a : DeviceArchetype) (res : Resolution)
    (hK : K.deviceArchetypes = [a]) (hres : a.display.resolutions = [res])
    (hcpu : a.hardware.cpu.cores ≠ []) (hgpu : a.hardware.gpuVendors ≠ [])
    (hlang : a.languages.primary ≠ []) (hreg : K.timezoneRegions ≠ [])
    (hzones : ∀ r ∈ K.timezoneRegions, r.2 ≠ []) (hcv : K.chromeVersions ≠ []) :
    Total (Main.generate h w K S)
      (fun p => p.screen.width = res.width ∧ p.screen.height = res.height) := by
  unfold Main.generate
  refine total_bind _ (total_selectWeighted _ _ _ (by rw [hK]; simp)) (fun archetype h1 => ?_)
  obtain ⟨x, hx, rfl⟩ := h1
  rw [hK, List.mem_singleton] at hx
  subst hx
  refine total_bind _ (total_deref _ _) (fun a' h2 => ?_)
  subst h2
  refine total_bind _ (total_selectWeighted _ _ _
    (fun hnil => hcpu ((zipWeights_eq_nil _ _).mp hnil))) (fun cpuItem h3 => ?_)
  obtain ⟨cpu, _, rfl⟩ := h3
  refine total_bind _ (total_deref _ _) (fun cpu' _ => ?_)
  dsimp only
  refine total_bind _ (total_selectFromArray_any _ _) (fun memory _ => ?_)
  refine total_bind _ (total_selectFromArray _ _ hgpu) (fun gpu h6 => ?_)
  obtain ⟨g, _, rfl⟩ := h6
  refine total_bind _ (total_deref _ _) (fun gpu h7 => ?_)
  refine total_bind _ (total_selectFromArray_any _ _) (fun gpuModel _ => ?_)
  refine total_bind _ (total_selectWeighted _ _ _ (by rw [hres]; simp)) (fun resolution h9 => ?_)
  obtain ⟨r, hr, rfl⟩ := h9
  rw [hres, List.mem_singleton] at hr
  subst hr
  refine total_bind _ (total_selectWeighted _ _ _
    (fun hnil => hlang ((zipWeights_eq_nil _ _).mp hnil))) (fun languageItem h10 => ?_)
  obtain ⟨lang, _, rfl⟩ := h10
  refine total_bind _ (total_deref _ _) (fun lang' _ => ?_)
  dsimp only
  refine total_bind _ (total_selectWeighted _ _ _ (by simpa using hreg)) (fun region h12 => ?_)
  obtain ⟨region, hregion, rfl⟩ := h12
  refine total_bind _ (total_deref _ _) (fun region' h13 => ?_)
  subst h13
  have hz : region'.value.2 ≠ [] := by
    obtain ⟨e, he, rfl⟩ := List.mem_map.mp hregion
    exact hzones e he
  refine total_bind _ (total_selectWeighted _ _ _ hz) (fun timezoneData h14 => ?_)
  obtain ⟨zone, _, rfl⟩ := h14
  refine total_bind _ (total_selectWeighted _ _ _ hcv) (fun chromeVersion h15 => ?_)
  obtain ⟨cv, _, rfl⟩ := h15
  refine total_bind _ (total_deref _ _) (fun cv' _ => ?_)
  dsimp only
  refine total_bind (fun _ => True) ?_ (fun userAgent _ => ?_)
  · refine total_ite (fun _ => ?_) (fun _ => total_pure trivial)
    exact total_bind _ (total_selectFromArray_any _ _) (fun _ _ => total_pure trivial)
  refine total_bind (fun _ => True) ?_ (fun plugins _ => ?_)
  · refine total_ite (fun _ => ?_) (fun _ => total_pure trivial)
    exact total_bind _ (total_rng _) (fun _ _ => total_pure trivial)
  dsimp only
  refine total_bind _ (total_rng _) (fun fontCount _ => ?_)
  refine total_bind _ (total_fontLoop _ _ _) (fun selectedFonts _ => ?_)
  refine total_bind _ (total_deref _ _) (fun res' h21 => ?_)
  subst h21
  refine total_bind _ (total_deref _ _) (fun zone' _ => ?_)
  refine total_bind _ (total_sortRandom _ _ _) (fun extensions _ => ?_)
  refine total_bind _ (total_rng _) (fun u1 _ => ?_)
  refine total_bind _ (total_rng _) (fun u2 _ => ?_)
  refine total_bind _ (total_rng _) (fun u3 _ => ?_)
  refine total_bind _ (total_rng _) (fun u4 _ => ?_)
  refine total_bind _ total_generateBattery (fun battery _ => ?_)
  exact total_pure ⟨rfl, rfl⟩


theorem demoHost_unitRange (S : String) : demoHost.UnitRange S := by
  intro n
  show 0 ≤ (((S.length + 7 * n) % 16 : ℕ) : ℚ) / 16 ∧ (((S.length + 7 * n) % 16 : ℕ) : ℚ) / 16 < 1
  constructor
  · positivity
  · rw [div_lt_one (by norm_num)]
    exact_mod_cast Nat.mod_lt _ (by norm_num)

/-- Witness of C9: the demo knowledge base; the profile of `chameleon-main.js` takes its
platform and GPU strings from the archetype `demoDesktop`. -/
theorem gpu_from_selected_archetype_witness :
    ∃ p, Main.invoke demoHost (demoWorld 0) demoData seedA = .ok p ∧
      GpuFrom (Main.selectedArchetype demoHost demoData seedA) p.navigator.platform
        p.webgl.vendor p.webgl.renderer := by
  obtain ⟨p, hp⟩ : ∃ p, Main.invoke demoHost (demoWorld 0) demoData seedA = .ok p :=
    ok_of_isSome (by decide!)
  exact ⟨p, hp, ((gpu_from_selected_archetype demoHost (demoWorld 0) demoData seedA
    (demoHost_unitRange seedA)).1 p hp).1⟩

/-- Counterexample of C9 as stated: the only GPU entry of `noModelData` has no model; a
profile is generated, its renderer is the template with `{model}` replaced by the text
`undefined`, which is not a model of the entry. -/
theorem gpu_model_counterexample :
    ∃ p, Main.invoke demoHost (demoWorld 0) noModelData seedA = .ok p ∧
      p.webgl.renderer = "ANGLE (NVIDIA, undefined Direct3D11)" ∧
      ¬ ∃ g ∈ noModelDesktop.hardware.gpuVendors, ∃ m ∈ g.models,
          p.webgl.vendor = g.vendor ∧
          p.webgl.renderer = jsReplace g.renderer "{model}" (some m) := by
  obtain ⟨p, hp⟩ : ∃ p, Main.invoke demoHost (demoWorld 0) noModelData seedA = .ok p :=
    ok_of_isSome (by decide!)
  have hr : (Main.invoke demoHost (demoWorld 0) noModelData seedA).toOption.map
      (fun p => p.webgl.renderer) = some "ANGLE (NVIDIA, undefined Direct3D11)" := by decide!
  rw [hp] at hr
  refine ⟨p, hp, Option.some.inj hr, ?_⟩
  rintro ⟨g, hg, m, hm, _⟩
  have hg' : g = { vendor := "NVIDIA", models := [],
                   renderer := "ANGLE (NVIDIA, {model} Direct3D11)" } := by
    simpa [noModelDesktop] using hg
  rw [hg'] at hm
  cases hm

/-- Counterexample of C10 as stated: `noGpuData` has one archetype of weight 1 with the single
resolution `1920x1080` of weight 1, but no GPU entry; `generate()` throws on `gpu.models` and
returns no profile. -/
theorem single_resolution_counterexample :
    noGpuData.deviceArchetypes = [noGpuDesktop] ∧ noGpuDesktop.weight = 1 ∧
      noGpuDesktop.display.resolutions = [{ width := 1920, height := 1080, weight := 1 }] ∧
      Main.invoke demoHost (demoWorld 0) noGpuData seedA
        = .error (JSError.typeError "gpu.models") := by
  refine ⟨rfl, rfl, rfl, ?_⟩
  decide!

/-- C10, as the code has it: on a knowledge base with exactly one archetype (of positive
weight) whose display has exactly one resolution `W x H` (of positive weight), and whose other
lists `generate()` reads an entry from are non-empty (CPU cores, GPU vendors, primary languages,
timezone regions and the zones of every region, Chrome versions), `generate()` of
`chameleon-main.js` returns a profile with `screen.width = W` and `screen.height = H`, for every
seed whose generator returns numbers in `[0, 1)`. -/
theorem screen_of_single_resolution (h : Host) (w : World) (K : ProfilesData) (S : String)
    (a : DeviceArchetype) (res : Resolution)
    (hK : K.deviceArchetypes = [a]) (hres : a.display.resolutions = [res])
    (_ha : 0 < a.weight) (_hr : 0 < res.weight)
    (hcpu : a.hardware.cpu.cores ≠ []) (hgpu : a.hardware.gpuVendors ≠ [])
    (hlang : a.languages.primary ≠ []) (hreg : K.timezoneRegions ≠ [])
    (hzones : ∀ r ∈ K.timezoneRegions, r.2 ≠ []) (hcv : K.chromeVersions ≠ [])
    (hu : h.UnitRange S) :
    ∃ p, Main.invoke h w K S = .ok p ∧
      p.screen.width = res.width ∧ p.screen.height = res.height := by
  obtain ⟨p, s', hrun, ⟨hw, hh⟩, _⟩ :=
    main_generate_total h w K S a res hK hres hcpu hgpu hlang hreg hzones hcv (newRng h S) hu
  refine ⟨p, ?_, hw, hh⟩
  unfold Main.invoke
  rw [hrun]
  rfl

/-- Witness of C10: the demo knowledge base (one archetype, one resolution `1920x1080`) and the
seed of sixty-four `a`. -/
theorem screen_of_single_resolution_witness :
    ∃ p, Main.invoke demoHost (demoWorld 0) demoData seedA = .ok p ∧
      p.screen.width = 1920 ∧ p.screen.height = 1080 :=
  screen_of_single_resolution demoHost (demoWorld 0) demoData seedA demoDesktop
    { width := 1920, height := 1080, weight := 1 } rfl rfl (by decide!) (by decide!)
    (by decide) (by decide) (by decide) (by decide) (by decide) (by decide)
    (demoHost_unitRange seedA)


/-! ## The order of the draws -/

theorem upto_append (rank : Draw → ℕ) (r r' : ℕ) (s : RngState) (ext : List Draw) (n : ℕ)
    (hs : Upto rank r s) (hlo : ∀ d ∈ ext, r ≤ rank d) (hhi : ∀ d ∈ ext, rank d ≤ r')
    (hext : ext.Pairwise (fun a b => rank a ≤ rank b)) (hr : r ≤ r') :
    Upto rank r' { s with pos := n, log := s.log ++ ext } := by
  obtain ⟨hp, hb⟩ := hs
  constructor
  · show (s.log ++ ext).Pairwise _
    rw [List.pairwise_append]
    exact ⟨hp, hext, fun a ha b hb' => le_trans (hb a ha) (hlo b hb')⟩
  · intro d hd
    have hd' : d ∈ s.log ++ ext := hd
    rcases List.mem_append.mp hd' with h1 | h2
    · exact le_trans (hb d h1) hr
    · exact hhi d h2

theorem upto_mono (rank : Draw → ℕ) (r r' : ℕ) (s : RngState) (hr : r ≤ r')
    (hs : Upto rank r s) : Upto rank r' s :=
  ⟨hs.1, fun d hd => le_trans (hs.2 d hd) hr⟩

theorem upto_rng (rank : Draw → ℕ) (d : Draw) (r r' : ℕ) (h1 : r ≤ rank d) (h2 : rank d ≤ r') :
    Triple (Upto rank r) (rng d) (fun _ s => True ∧ Upto rank r' s) := by
  intro s hs a s' hrun
  rw [rng_run] at hrun
  cases hrun
  refine ⟨trivial, upto_append rank r r' s [d] _ hs ?_ ?_ (List.pairwise_singleton _ _)
    (le_trans h1 h2)⟩
  · intro x hx; rw [List.mem_singleton.mp hx]; exact h1
  · intro x hx; rw [List.mem_singleton.mp hx]; exact h2

theorem upto_selectWeighted {α : Type} (rank : Draw → ℕ) (d : Draw) (r r' : ℕ)
    (h1 : r ≤ rank d) (h2 : rank d ≤ r') (weight : α → JSNum) (items : List α) :
    Triple (Upto rank r) (selectWeighted d weight items) (fun _ s => True ∧ Upto rank r' s) := by
  unfold selectWeighted
  refine triple_bind _ _ (upto_rng rank d r r' h1 h2) (fun _ _ => ?_)
  exact triple_pure (fun _ hs => ⟨trivial, hs⟩)

theorem upto_selectFromArray {α : Type} (rank : Draw → ℕ) (d : Draw) (r r' : ℕ)
    (h1 : r ≤ rank d) (h2 : rank d ≤ r') (array : List α) :
    Triple (Upto rank r) (selectFromArray d array) (fun _ s => True ∧ Upto rank r' s) := by
  unfold selectFromArray
  refine triple_bind _ _ (upto_rng rank d r r' h1 h2) (fun _ _ => ?_)
  exact triple_pure (fun _ hs => ⟨trivial, hs⟩)

theorem upto_pure {α : Type} (rank : Draw → ℕ) (r r' : ℕ) (hr : r ≤ r') (a : α) :
    Triple (Upto rank r) (pure a : Gen α) (fun _ s => True ∧ Upto rank r' s) :=
  triple_pure (fun s hs => ⟨trivial, upto_mono rank r r' s hr hs⟩)

theorem upto_fontLoop (rank : Draw → ℕ) (r r' : ℕ) (h1 : r ≤ rank Draw.fontPick)
    (h2 : rank Draw.fontPick ≤ r') (n : ℕ) (availableFonts : List String)
    (selectedFonts : List (Option String)) :
    Triple (Upto rank r) (fontLoop n availableFonts selectedFonts)
      (fun _ s => True ∧ Upto rank r' s) := by
  induction n generalizing r availableFonts selectedFonts with
  | zero => exact upto_pure rank r r' (le_trans h1 h2) _
  | succ k ih =>
    unfold fontLoop
    refine triple_ite (fun _ => ?_) (fun _ => upto_pure rank r r' (le_trans h1 h2) _)
    refine triple_bind _ _ (upto_rng rank Draw.fontPick r (rank Draw.fontPick) h1 le_rfl)
      (fun _ _ => ?_)
    exact ih (rank Draw.fontPick) le_rfl _ _

theorem upto_sortRandom (rank : Draw → ℕ) (h : Host) (d : Draw) (r r' : ℕ) (h1 : r ≤ rank d)
    (h2 : rank d ≤ r') (array : List String) :
    Triple (Upto rank r) (sortRandom h d array) (fun _ s => True ∧ Upto rank r' s) := by
  intro s hs a s' hrun
  unfold sortRandom at hrun
  cases hrun
  refine ⟨trivial, upto_append rank r r' s _ _ hs ?_ ?_ ?_ (le_trans h1 h2)⟩
  · intro x hx; rw [List.eq_of_mem_replicate hx]; exact h1
  · intro x hx; rw [List.eq_of_mem_replicate hx]; exact h2
  · rw [List.pairwise_replicate]
    right
    exact le_rfl

theorem upto_generateBattery (rank : Draw → ℕ) (r r' : ℕ) (h1 : r ≤ rank Draw.battery)
    (h2 : rank Draw.battery ≤ r') :
    Triple (Upto rank r) generateBattery (fun _ s => True ∧ Upto rank r' s) := by
  unfold generateBattery
  refine triple_bind _ _ (upto_rng rank _ r (rank Draw.battery) h1 le_rfl) (fun _ _ => ?_)
  refine triple_bind _ _ (upto_rng rank _ _ (rank Draw.battery) le_rfl le_rfl) (fun _ _ => ?_)
  refine triple_bind _ _ (upto_rng rank _ _ (rank Draw.battery) le_rfl le_rfl) (fun _ _ => ?_)
  refine triple_bind (fun _ => True) (Upto rank (rank Draw.battery)) ?_ (fun _ _ => ?_)
  · refine triple_ite (fun _ => ?_) (fun _ => upto_pure rank _ _ le_rfl _)
    refine triple_bind _ _ (upto_rng rank _ _ (rank Draw.battery) le_rfl le_rfl) (fun _ _ => ?_)
    exact upto_pure rank _ _ le_rfl _
  refine triple_bind _ _ (upto_rng rank _ _ (rank Draw.battery) le_rfl le_rfl) (fun _ _ => ?_)
  exact upto_pure rank _ _ h2 _

theorem main_generate_order (h : Host) (w : World) (K : ProfilesData) (S : String) :
    Triple (Upto Main.codeRank 0) (Main.generate h w K S)
      (fun _ s => True ∧ Upto Main.codeRank 18 s) := by
  unfold Main.generate
  refine triple_bind _ _ (upto_selectWeighted Main.codeRank _ 0 1 (by decide) (by decide) _ _)
    (fun _ _ => ?_)
  refine triple_bind _ _ (triple_deref _ _ _) (fun a _ => ?_)
  refine triple_bind _ _ (upto_selectWeighted Main.codeRank _ 1 2 (by decide) (by decide) _ _)
    (fun _ _ => ?_)
  refine triple_bind _ _ (triple_deref _ _ _) (fun _ _ => ?_)
  refine triple_bind _ _ (upto_selectFromArray Main.codeRank _ 2 3 (by decide) (by decide) _)
    (fun _ _ => ?_)
  refine triple_bind _ _ (upto_selectFromArray Main.codeRank _ 3 4 (by decide) (by decide) _)
    (fun _ _ => ?_)
  refine triple_bind _ _ (triple_deref _ _ _) (fun gpu _ => ?_)
  refine triple_bind _ _ (upto_selectFromArray Main.codeRank _ 4 5 (by decide) (by decide) _)
    (fun _ _ => ?_)
  refine triple_bind _ _ (upto_selectWeighted Main.codeRank _ 5 6 (by decide) (by decide) _ _)
    (fun _ _ => ?_)
  refine triple_bind _ _ (upto_selectWeighted Main.codeRank _ 6 7 (by decide) (by decide) _ _)
    (fun _ _ => ?_)
  refine triple_bind _ _ (triple_deref _ _ _) (fun _ _ => ?_)
  refine triple_bind _ _ (upto_selectWeighted Main.codeRank _ 7 8 (by decide) (by decide) _ _)
    (fun _ _ => ?_)
  refine triple_bind _ _ (triple_deref _ _ _) (fun _ _ => ?_)
  refine triple_bind _ _ (upto_selectWeighted Main.codeRank _ 8 9 (by decide) (by decide) _ _)
    (fun _ _ => ?_)
  refine triple_bind _ _ (upto_selectWeighted Main.codeRank _ 9 10 (by decide) (by decide) _ _)
    (fun _ _ => ?_)
  refine triple_bind _ _ (triple_deref _ _ _) (fun _ _ => ?_)
  dsimp only
  refine triple_bind (fun _ => True) (Upto Main.codeRank 11) ?_ (fun _ _ => ?_)
  · refine triple_ite (fun _ => ?_) (fun _ => upto_pure _ _ _ (by decide) _)
    refine triple_bind _ _
      (upto_selectFromArray Main.codeRank _ 10 11 (by decide) (by decide) _) (fun _ _ => ?_)
    exact upto_pure _ _ _ le_rfl _
  refine triple_bind (fun _ => True) (Upto Main.codeRank 12) ?_ (fun _ _ => ?_)
  · refine triple_ite (fun _ => ?_) (fun _ => upto_pure _ _ _ (by decide) _)
    refine triple_bind _ _ (upto_rng Main.codeRank _ 11 12 (by decide) (by decide))
      (fun _ _ => ?_)
    exact upto_pure _ _ _ le_rfl _
  dsimp only
  refine triple_bind _ _ (upto_rng Main.codeRank _ 12 13 (by decide) (by decide)) (fun _ _ => ?_)
  refine triple_bind _ _ (upto_fontLoop Main.codeRank 13 14 (by decide) (by decide) _ _ _)
    (fun _ _ => ?_)
  refine triple_bind _ _ (triple_deref _ _ _) (fun _ _ => ?_)
  refine triple_bind _ _ (triple_deref _ _ _) (fun _ _ => ?_)
  refine triple_bind _ _ (upto_sortRandom Main.codeRank h _ 14 15 (by decide) (by decide) _)
    (fun _ _ => ?_)
  refine triple_bind _ _ (upto_rng Main.codeRank _ 15 16 (by decide) (by decide)) (fun _ _ => ?_)
  refine triple_bind _ _ (upto_rng Main.codeRank _ 16 16 (by decide) (by decide)) (fun _ _ => ?_)
  refine triple_bind _ _ (upto_rng Main.codeRank _ 16 16 (by decide) (by decide)) (fun _ _ => ?_)
  refine triple_bind _ _ (upto_rng Main.codeRank _ 16 17 (by decide) (by decide)) (fun _ _ => ?_)
  refine triple_bind _ _ (upto_generateBattery Main.codeRank 17 18 (by decide) (by decide))
    (fun _ _ => ?_)
  exact upto_pure _ _ _ le_rfl _

/-- Counterexample of C6 as stated: on the demo knowledge base the font count and the five font
picks are drawn before the twenty-one draws of the WebGL reordering, so the log of the draws is
not in the order of the specification. -/
theorem draw_order_counterexample :
    Main.draws demoHost (demoWorld 0) demoData seedA
        = .ok ([Draw.archetype, Draw.cpu, Draw.memory, Draw.gpuVendor, Draw.gpuModel,
            Draw.resolution, Draw.language, Draw.tzRegion, Draw.tzZone, Draw.chromeVersion,
            Draw.pluginCoin, Draw.fontCount] ++ List.replicate 5 Draw.fontPick
            ++ List.replicate 21 Draw.webglSort
            ++ [Draw.canvas, Draw.canvas, Draw.canvas, Draw.audio]
            ++ List.replicate 4 Draw.battery) ∧
      ¬ ([Draw.archetype, Draw.cpu, Draw.memory, Draw.gpuVendor, Draw.gpuModel,
            Draw.resolution, Draw.language, Draw.tzRegion, Draw.tzZone, Draw.chromeVersion,
            Draw.pluginCoin, Draw.fontCount] ++ List.replicate 5 Draw.fontPick
            ++ List.replicate 21 Draw.webglSort
            ++ [Draw.canvas, Draw.canvas, Draw.canvas, Draw.audio]
            ++ List.replicate 4 Draw.battery).Pairwise
          (fun a b => Main.specRank a ≤ Main.specRank b) := by
  constructor
  · decide!
  · decide

/-- C6, as the code has it: `generate()` of `chameleon-main.js` takes its draws in the order
archetype; CPU core count, memory, GPU vendor, GPU model; resolution; primary language;
timezone region, timezone; Chrome version, device model; plugin coin-flip; font count and font
picks; WebGL reordering; canvas and audio noise; battery.  Every draw of a step comes after all
draws of the steps before it. -/
theorem main_draws_in_code_order (h : Host) (w : World) (K : ProfilesData) (S : String)
    (log : List Draw) (hlog : Main.draws h w K S = .ok log) :
    log.Pairwise (fun a b => Main.codeRank a ≤ Main.codeRank b) := by
  unfold Main.draws at hlog
  cases hr : Main.generate h w K S (newRng h S) with
  | error e => rw [hr] at hlog; cases hlog
  | ok r =>
    rw [hr] at hlog
    obtain ⟨p, s'⟩ := r
    cases hlog
    have h0 : Upto Main.codeRank 0 (newRng h S) :=
      ⟨List.Pairwise.nil, fun d hd => by cases hd⟩
    exact (main_generate_order h w K S _ h0 p s' hr).2.1

/-- Witness of C6: the demo knowledge base and the seed of sixty-four `a`. -/
theorem main_draws_in_code_order_witness :
    ([Draw.archetype, Draw.cpu, Draw.memory, Draw.gpuVendor, Draw.gpuModel,
        Draw.resolution, Draw.language, Draw.tzRegion, Draw.tzZone, Draw.chromeVersion,
        Draw.pluginCoin, Draw.fontCount] ++ List.replicate 5 Draw.fontPick
        ++ List.replicate 21 Draw.webglSort
        ++ [Draw.canvas, Draw.canvas, Draw.canvas, Draw.audio]
        ++ List.replicate 4 Draw.battery).Pairwise
      (fun a b => Main.codeRank a ≤ Main.codeRank b) :=
  main_draws_in_code_order demoHost (demoWorld 0) demoData seedA _ (by decide!)


/-! ## Dependence on the clock -/

theorem pure_run {α : Type} (a : α) (s : RngState) : (pure a : Gen α) s = .ok (a, s) := rfl

theorem map_bind_congr {α β γ : Type} (g1 g2 : β × RngState → γ) (m : Gen α)
    (f1 f2 : α → Gen β) (s : RngState)
    (hf : ∀ a s', Except.map g1 (f1 a s') = Except.map g2 (f2 a s')) :
    Except.map g1 ((m >>= f1) s) = Except.map g2 ((m >>= f2) s) := by
  rw [bind_run, bind_run]
  cases m s with
  | error e => rfl
  | ok r => exact hf r.1 r.2

theorem map_bind_rel {α β γ δ : Type} (g1 g2 : β × RngState → γ) (k1 k2 : α → δ)
    (m1 m2 : Gen α) (f1 f2 : α → Gen β) (s : RngState)
    (hm : Except.map (fun r => (k1 r.1, r.2)) (m1 s)
      = Except.map (fun r => (k2 r.1, r.2)) (m2 s))
    (hf : ∀ a1 a2 s', k1 a1 = k2 a2 → Except.map g1 (f1 a1 s') = Except.map g2 (f2 a2 s')) :
    Except.map g1 ((m1 >>= f1) s) = Except.map g2 ((m2 >>= f2) s) := by
  rw [bind_run, bind_run]
  cases h1 : m1 s with
  | error e =>
    cases h2 : m2 s with
    | error e' =>
      rw [h1, h2] at hm
      cases hm
      rfl
    | ok r => rw [h1, h2] at hm; cases hm
  | ok r =>
    cases h2 : m2 s with
    | error e' => rw [h1, h2] at hm; cases hm
    | ok r' =>
      obtain ⟨a1, t1⟩ := r
      obtain ⟨a2, t2⟩ := r'
      rw [h1, h2] at hm
      simp only [Except.map] at hm
      injection hm with hm
      injection hm with hk hs
      subst hs
      exact hf a1 a2 t1 hk

theorem module_generate_untimed (h : Host) (K : ProfilesData) (S : String) (w1 w2 : World)
    (s : RngState) :
    Except.map (fun r => Module.scrub w1 r.1) (Module.generate h w1 K S s)
      = Except.map (fun r => Module.scrub w2 r.1) (Module.generate h w2 K S s) := by
  unfold Module.generate
  apply map_bind_congr
  intro archetype s1
  unfold Module.buildProfile
  iterate 28 (apply map_bind_congr; intro _ _)
  apply map_bind_rel _ _ (Module.untimed w1) (Module.untimed w2)
  · unfold Module.generatePerformanceProfile
    simp only [bind_run, rng_run, pure_run, Except.map, Module.untimed]
    simp
  · intro p1 p2 s' hp
    simp only [pure_run, Except.map, Module.scrub]
    rw [hp]

theorem module_timezone_offset (h : Host) (w : World) (K : ProfilesData) (S : String) :
    Triple (fun _ => True) (Module.generate h w K S)
      (fun p _ => p.timezone.offset = Module.getTimezoneOffset w p.timezone.name) := by
  unfold Module.generate
  refine triple_skip (fun archetype => ?_)
  unfold Module.buildProfile
  iterate 29 (refine triple_skip (fun _ => ?_))
  exact triple_pure (fun _ _ => rfl)

/-- Counterexample of C4 as stated: the same seed and knowledge base at two times give two
profiles; `performance.navigationStart` and `timezone.offset` differ. -/
theorem module_clock_counterexample :
    (Module.invoke demoHost (demoWorld 0) demoData seedA).toOption.map
        (fun p => (p.performance.navigationStart, p.timezone.offset))
        = some (-3125, some (-60)) ∧
      (Module.invoke demoHost summerWorld demoData seedA).toOption.map
        (fun p => (p.performance.navigationStart, p.timezone.offset))
        = some (15551996875, some (-120)) ∧
      Module.invoke demoHost (demoWorld 0) demoData seedA
        ≠ Module.invoke demoHost summerWorld demoData seedA := by
  refine ⟨?_, ?_, ?_⟩
  · decide!
  · decide!
  · decide!

/-- C4, as the code has it: for the same seed and knowledge base, `generate(seed)` of
`profile-generator.js` throws at every time or at none, and every field of the profile it
returns is the same at every time, except `timezone.offset` and `performance.navigationStart`:
`navigationStart - Date.now()` is the same at every time, and `timezone.offset` is the offset
of the profile's zone at the date of the call. -/
theorem module_invoke_clock_free (h : Host) (K : ProfilesData) (S : String) (w1 w2 : World) :
    (Module.invoke h w1 K S).map (Module.scrub w1)
        = (Module.invoke h w2 K S).map (Module.scrub w2) ∧
      ∀ p, Module.invoke h w1 K S = .ok p →
        p.timezone.offset = Module.getTimezoneOffset w1 p.timezone.name := by
  constructor
  · have key := module_generate_untimed h K S w1 w2 (newRng h S)
    unfold Module.invoke
    cases h1 : Module.generate h w1 K S (newRng h S) with
    | error e =>
      cases h2 : Module.generate h w2 K S (newRng h S) with
      | error e' => rw [h1, h2] at key; exact key
      | ok r => rw [h1, h2] at key; cases key
    | ok r =>
      cases h2 : Module.generate h w2 K S (newRng h S) with
      | error e' => rw [h1, h2] at key; cases key
      | ok r' => rw [h1, h2] at key; exact key
  · intro p hp
    obtain ⟨s', hrun⟩ := invoke_ok_module hp
    exact module_timezone_offset h w1 K S _ trivial p s' hrun

/-- Witness of C4: the demo knowledge base in winter and in summer. -/
theorem module_invoke_clock_free_witness :
    (Module.invoke demoHost (demoWorld 0) demoData seedA).map (Module.scrub (demoWorld 0))
        = (Module.invoke demoHost summerWorld demoData seedA).map (Module.scrub summerWorld) ∧
      ∃ p, Module.invoke demoHost (demoWorld 0) demoData seedA = .ok p ∧
        p.timezone.offset = Module.getTimezoneOffset (demoWorld 0) p.timezone.name := by
  obtain ⟨p, hp⟩ : ∃ p, Module.invoke demoHost (demoWorld 0) demoData seedA = .ok p :=
    ok_of_isSome (by decide!)
  exact ⟨(module_invoke_clock_free demoHost demoData seedA (demoWorld 0) summerWorld).1,
    p, hp, (module_invoke_clock_free demoHost demoData seedA (demoWorld 0) summerWorld).2 p hp⟩


/-! ## The size of the font list -/

theorem triple_weaken {α : Type} {P P0 : RngState → Prop} {m : Gen α}
    {Q : α → RngState → Prop} (hP : ∀ s, P s → P0 s) (hm : Triple P0 m Q) : Triple P m Q :=
  fun s hs a s' hrun => hm s (hP s hs) a s' hrun

theorem triple_rng (σ : ℕ → ℚ) (n : ℕ) (d : Draw) :
    Triple (Pos σ n) (rng d) (fun u s => u = σ n ∧ Pos σ (n + 1) s) := by
  intro s hs a s' hrun
  rw [rng_run] at hrun
  cases hrun
  obtain ⟨h1, h2⟩ := hs
  exact ⟨by rw [h1, h2], h1, by simp [h2]⟩

theorem triple_rng_unit (σ : ℕ → ℚ) (hσ : ∀ n, 0 ≤ σ n ∧ σ n < 1) (d : Draw) :
    Triple (fun s => s.stream = σ) (rng d)
      (fun u s => (0 ≤ u ∧ u < 1) ∧ s.stream = σ) := by
  intro s hs a s' hrun
  rw [rng_run] at hrun
  cases hrun
  exact ⟨by rw [hs]; exact hσ _, hs⟩

theorem splice1_unit {α : Type} (array : List α) (u : ℚ) (hne : 0 < array.length)
    (h0 : 0 ≤ u) (h1 : u < 1) :
    ∃ i, ∃ hi : i < array.length,
      splice1 array ⌊u * (array.length : ℚ)⌋ = (array.eraseIdx i, some (array.get ⟨i, hi⟩)) := by
  have hlen : (0 : ℚ) < (array.length : ℚ) := by exact_mod_cast hne
  have hnn : 0 ≤ ⌊u * (array.length : ℚ)⌋ := Int.floor_nonneg.mpr (mul_nonneg h0 hlen.le)
  have hlt : ⌊u * (array.length : ℚ)⌋ < (array.length : ℤ) := by
    rw [Int.floor_lt]
    push_cast
    nlinarith
  have hidx : ⌊u * (array.length : ℚ)⌋.toNat < array.length := by omega
  refine ⟨⌊u * (array.length : ℚ)⌋.toNat, hidx, ?_⟩
  unfold splice1
  have hneg : ¬ ⌊u * (array.length : ℚ)⌋ < 0 := not_lt.mpr hnn
  simp only [hneg, if_false]
  rw [min_eq_left hidx.le]
  simp [List.getElem?_eq_getElem hidx]

theorem fontLoop_length (σ : ℕ → ℚ) (hσ : ∀ n, 0 ≤ σ n ∧ σ n < 1) (n : ℕ)
    (availableFonts : List String) (selectedFonts : List (Option String))
    (hnd : availableFonts.Nodup) (hdis : ∀ f ∈ availableFonts, some f ∉ selectedFonts) :
    Triple (fun s => s.stream = σ) (fontLoop n availableFonts selectedFonts)
      (fun r s => r.length = selectedFonts.length + min n availableFonts.length ∧
        s.stream = σ) := by
  induction n generalizing availableFonts selectedFonts with
  | zero => exact triple_pure (fun _ hs => ⟨by simp, hs⟩)
  | succ k ih =>
    unfold fontLoop
    refine triple_ite (fun hpos => ?_) (fun hzero => triple_pure (fun _ hs => ⟨?_, hs⟩))
    · refine triple_bind _ _ (triple_rng_unit σ hσ _) (fun u hu => ?_)
      dsimp only
      obtain ⟨i, hi, hsp⟩ := splice1_unit availableFonts u hpos hu.1 hu.2
      rw [hsp]
      dsimp only
      have hx : some (availableFonts.get ⟨i, hi⟩) ∉ selectedFonts :=
        hdis _ (List.get_mem _ _ _)
      have hadd : setAdd selectedFonts (some (availableFonts.get ⟨i, hi⟩))
          = selectedFonts ++ [some (availableFonts.get ⟨i, hi⟩)] := by
        unfold setAdd
        rw [if_neg hx]
      rw [hadd]
      have herase : availableFonts.eraseIdx i
          = availableFonts.erase (availableFonts.get ⟨i, hi⟩) :=
        (hnd.erase_get ⟨i, hi⟩).symm
      have hnd' : (availableFonts.eraseIdx i).Nodup := by
        rw [herase]; exact hnd.erase _
      have hdis' : ∀ f ∈ availableFonts.eraseIdx i,
          some f ∉ selectedFonts ++ [some (availableFonts.get ⟨i, hi⟩)] := by
        intro f hf hmem
        rw [herase] at hf
        have hf' := (hnd.mem_erase_iff).mp hf
        rcases List.mem_append.mp hmem with h1 | h2
        · exact hdis f hf'.2 h1
        · rw [List.mem_singleton] at h2
          exact hf'.1 (Option.some.inj h2)
      refine triple_weaken (fun _ hs => hs) ?_
      intro s hs r s' hrun
      obtain ⟨hlen, hst⟩ := ih _ _ hnd' hdis' s hs r s' hrun
      refine ⟨?_, hst⟩
      rw [hlen, List.length_append, List.length_singleton, List.length_eraseIdx, if_pos hi]
      omega
    · have : availableFonts.length = 0 := by omega
      rw [this]
      simp

theorem insertDefault_length (x : Option String) (l : List (Option String)) :
    (insertDefault x l).length = l.length + 1 := by
  induction l with
  | nil => rfl
  | cons y ys ih =>
    unfold insertDefault
    split
    · simp [ih]
    · simp

theorem defaultSort_length (l : List (Option String)) : (defaultSort l).length = l.length := by
  unfold defaultSort
  suffices hgen : ∀ acc : List (Option String),
      (l.foldl (fun acc x => insertDefault x acc) acc).length = acc.length + l.length by
    simpa using hgen []
  induction l with
  | nil => intro acc; rfl
  | cons x xs ih =>
    intro acc
    rw [List.foldl_cons, ih, insertDefault_length, List.length_cons]
    omega

theorem main_generate_fonts (h : Host) (w : World) (K : ProfilesData) (S : String)
    (σ : ℕ → ℚ) (hσ : ∀ n, 0 ≤ σ n ∧ σ n < 1) :
    Triple (Pos σ 0) (Main.generate h w K S) (fun p _ =>
      ∃ a : DeviceArchetype,
        selectWeightedAt (fun a : DeviceArchetype => some a.weight) K.deviceArchetypes (σ 0)
          = some a ∧
        ((Main.availableFonts h a).Nodup →
          p.fonts.length
            = 5 + min (⌊σ 11 * 15⌋ + 20).toNat (Main.availableFonts h a).length)) := by
  unfold Main.generate
  refine triple_bind _ _ (triple_selectWeighted σ 0 _ _ _) (fun archetype h1 => ?_)
  refine triple_bind _ _ (triple_deref _ _ _) (fun a h2 => ?_)
  refine triple_bind _ _ (triple_selectWeighted σ _ _ _ _) (fun _ _ => ?_)
  refine triple_bind _ _ (triple_deref _ _ _) (fun _ _ => ?_)
  refine triple_bind _ _ (triple_selectFromArray σ _ _ _) (fun _ _ => ?_)
  refine triple_bind _ _ (triple_selectFromArray σ _ _ _) (fun _ _ => ?_)
  refine triple_bind _ _ (triple_deref _ _ _) (fun gpu _ => ?_)
  refine triple_bind _ _ (triple_selectFromArray σ _ _ _) (fun _ _ => ?_)
  refine triple_bind _ _ (triple_selectWeighted σ _ _ _ _) (fun _ _ => ?_)
  refine triple_bind _ _ (triple_selectWeighted σ _ _ _ _) (fun _ _ => ?_)
  refine triple_bind _ _ (triple_deref _ _ _) (fun _ _ => ?_)
  refine triple_bind _ _ (triple_selectWeighted σ _ _ _ _) (fun _ _ => ?_)
  refine triple_bind _ _ (triple_deref _ _ _) (fun _ _ => ?_)
  refine triple_bind _ _ (triple_selectWeighted σ _ _ _ _) (fun _ _ => ?_)
  refine triple_bind _ _ (triple_selectWeighted σ _ _ _ _) (fun _ _ => ?_)
  refine triple_bind _ _ (triple_deref _ _ _) (fun _ _ => ?_)
  dsimp only
  refine triple_bind (fun _ => True)
    (Pos σ (if a.platform = "Linux armv8l" then 11 else 10)) ?_ (fun _ _ => ?_)
  · refine triple_ite (fun hc => ?_) (fun hc => ?_)
    · rw [if_pos hc]
      refine triple_bind _ _ (triple_selectFromArray σ _ _ _) (fun _ _ => ?_)
      exact triple_pure (fun _ hs => ⟨trivial, hs⟩)
    · rw [if_neg hc]
      exact triple_pure (fun _ hs => ⟨trivial, hs⟩)
  refine triple_bind (fun _ => True) (Pos σ 11) ?_ (fun _ _ => ?_)
  · refine triple_ite (fun hc => ?_) (fun hc => ?_)
    · rw [if_neg hc]
      refine triple_bind _ _ (triple_rng σ _ _) (fun _ _ => ?_)
      exact triple_pure (fun _ hs => ⟨trivial, hs⟩)
    · rw [if_pos (not_not.mp hc)]
      exact triple_pure (fun _ hs => ⟨trivial, hs⟩)
  dsimp only
  refine triple_bind _ _ (triple_rng σ 11 _) (fun u hu => ?_)
  refine triple_bind
    (fun r => (Main.availableFonts h a).Nodup →
      r.length = 5 + min (⌊σ 11 * 15⌋ + 20).toNat (Main.availableFonts h a).length)
    (fun _ => True) ?_ (fun selectedFonts hfonts => ?_)
  · intro s hs r s' hrun
    refine ⟨fun hnd => ?_, trivial⟩
    have hdis : ∀ f ∈ Main.availableFonts h a,
        some f ∉ firstOccurrences (Main.basicFonts.map some) := by
      intro f hf hmem
      have hnot : Main.basicFonts.contains f = false := by
        have := (List.mem_filter.mp hf).2
        simpa using this
      have hin : f ∈ Main.basicFonts := by
        have hm : some f ∈ Main.basicFonts.map some := by
          have hfo : firstOccurrences (Main.basicFonts.map some) = Main.basicFonts.map some := by
            decide
          rw [hfo] at hmem
          exact hmem
        obtain ⟨g, hg, hge⟩ := List.mem_map.mp hm
        rw [← Option.some.inj hge]
        exact hg
      have : Main.basicFonts.contains f = true := by simpa using hin
      rw [this] at hnot
      cases hnot
    have key := fontLoop_length σ hσ (⌊u * 15⌋ + 20).toNat (Main.availableFonts h a) _ hnd hdis
      s hs.1 r s' hrun
    rw [key.1, hu]
    rfl
  refine triple_skip (fun _ => ?_)
  refine triple_skip (fun _ => ?_)
  refine triple_skip (fun _ => ?_)
  refine triple_skip (fun _ => ?_)
  refine triple_skip (fun _ => ?_)
  refine triple_skip (fun _ => ?_)
  refine triple_skip (fun _ => ?_)
  refine triple_skip (fun _ => ?_)
  refine triple_pure (fun _ _ => ?_)
  subst h1
  refine ⟨a, h2, fun hnd => ?_⟩
  show (defaultSort selectedFonts).length = _
  rw [defaultSort_length]
  exact hfonts hnd

theorem triple_selectGeolocation (σ : ℕ → ℚ) (n : ℕ) (K : ProfilesData) :
    Triple (Pos σ n) (Module.selectGeolocation K) (fun _ s => True ∧ Pos σ (n + 2) s) := by
  unfold Module.selectGeolocation
  dsimp only
  refine triple_bind _ _ (triple_selectWeighted σ n _ _ _) (fun _ _ => ?_)
  refine triple_bind _ _ (triple_deref _ _ _) (fun _ _ => ?_)
  refine triple_bind _ _ (triple_selectWeighted σ _ _ _ _) (fun _ _ => ?_)
  refine triple_bind _ _ (triple_deref _ _ _) (fun _ _ => ?_)
  exact triple_pure (fun _ hs => ⟨trivial, hs⟩)

theorem triple_selectLanguage (σ : ℕ → ℚ) (n : ℕ) (a : DeviceArchetype)
    (geoData : Module.GeoData) :
    Triple (Pos σ n) (Module.selectLanguage a geoData) (fun _ s => True ∧ Pos σ (n + 1) s) := by
  unfold Module.selectLanguage
  refine triple_ite (fun _ => ?_) (fun _ => ?_)
  · intro s hs r s' hrun
    exact ⟨trivial, (triple_selectFromArray σ n _ _ s hs r s' hrun).2⟩
  · dsimp only
    refine triple_bind _ _ (triple_selectWeighted σ n _ _ _) (fun _ _ => ?_)
    refine triple_bind _ _ (triple_deref _ _ _) (fun _ _ => ?_)
    exact triple_pure (fun _ hs => ⟨trivial, hs⟩)

theorem triple_buildUserAgent (σ : ℕ → ℚ) (n : ℕ) (K : ProfilesData) (a : DeviceArchetype)
    (chromeVersion : Option ChromeVersion) :
    Triple (Pos σ n) (Module.buildUserAgent K a chromeVersion)
      (fun _ s => True ∧ Pos σ (if a.platform = "Linux armv8l" then n + 1 else n) s) := by
  unfold Module.buildUserAgent
  refine triple_bind _ _ (triple_deref _ _ _) (fun _ _ => ?_)
  dsimp only
  refine triple_ite (fun hc => ?_) (fun hc => ?_)
  · rw [if_pos hc]
    refine triple_bind _ _ (triple_selectFromArray σ _ _ _) (fun _ _ => ?_)
    exact triple_pure (fun _ hs => ⟨trivial, hs⟩)
  · rw [if_neg hc]
    exact triple_pure (fun _ hs => ⟨trivial, hs⟩)

theorem triple_selectFonts (σ : ℕ → ℚ) (hσ : ∀ n, 0 ≤ σ n ∧ σ n < 1) (n : ℕ) (h : Host)
    (a : DeviceArchetype) :
    Triple (Pos σ n) (Module.selectFonts h a) (fun r _ =>
      ((Module.availableFonts h a).Nodup →
        r.length = 6 + min (⌊σ n * 20⌋ + 25).toNat (Module.availableFonts h a).length) ∧
      True) := by
  unfold Module.selectFonts
  dsimp only
  refine triple_bind _ _ (triple_deref _ _ _) (fun fonts hfonts => ?_)
  refine triple_bind _ _ (triple_rng σ n _) (fun u hu => ?_)
  refine triple_bind
    (fun r => (Module.availableFonts h a).Nodup →
      r.length = 6 + min (⌊σ n * 20⌋ + 25).toNat (Module.availableFonts h a).length)
    (fun _ => True) ?_ (fun selectedFonts hsel => ?_)
  · intro s hs r s' hrun
    refine ⟨fun hnd => ?_, trivial⟩
    have hav : Module.availableFonts h a
        = (((lookupKey fonts (h.toLowerCase a.os.name)).orElse
            (fun _ => lookupKey fonts "windows")).getD []).filter
            (fun f => !Module.basicFonts.contains f) := by
      unfold Module.availableFonts
      rw [hfonts]
      rfl
    rw [hav] at hnd ⊢
    have hdis : ∀ f ∈ (((lookupKey fonts (h.toLowerCase a.os.name)).orElse
            (fun _ => lookupKey fonts "windows")).getD []).filter
            (fun f => !Module.basicFonts.contains f),
        some f ∉ firstOccurrences (Module.basicFonts.map some) := by
      intro f hf hmem
      have hnot : Module.basicFonts.contains f = false := by
        have := (List.mem_filter.mp hf).2
        simpa using this
      have hin : f ∈ Module.basicFonts := by
        have hm : some f ∈ Module.basicFonts.map some := by
          have hfo : firstOccurrences (Module.basicFonts.map some)
              = Module.basicFonts.map some := by decide
          rw [hfo] at hmem
          exact hmem
        obtain ⟨g, hg, hge⟩ := List.mem_map.mp hm
        rw [← Option.some.inj hge]
        exact hg
      have : Module.basicFonts.contains f = true := by simpa using hin
      rw [this] at hnot
      cases hnot
    have key := fontLoop_length σ hσ (⌊u * 20⌋ + 25).toNat _ _ hnd hdis s hs.1 r s' hrun
    rw [key.1, hu]
    rfl
  refine triple_pure (fun _ _ => ⟨fun hnd => ?_, trivial⟩)
  rw [defaultSort_length]
  exact hsel hnd

theorem module_generate_fonts (h : Host) (w : World) (K : ProfilesData) (S : String)
    (σ : ℕ → ℚ) (hσ : ∀ n, 0 ≤ σ n ∧ σ n < 1) :
    Triple (Pos σ 0) (Module.generate h w K S) (fun p _ =>
      ∃ a : DeviceArchetype,
        selectWeightedAt (fun a : DeviceArchetype => some a.weight) K.deviceArchetypes (σ 0)
          = some a ∧
        ((Module.availableFonts h a).Nodup →
          p.fonts.available.length
            = 6 + min (⌊σ (if a.platform = "Linux armv8l" then 11 else 10) * 20⌋ + 25).toNat
                (Module.availableFonts h a).length)) := by
  unfold Module.generate
  refine triple_bind _ _ (triple_selectWeighted σ 0 _ _ _) (fun archetype h1 => ?_)
  unfold Module.buildProfile
  refine triple_bind _ _ (triple_deref _ _ _) (fun a h2 => ?_)
  refine triple_bind _ _ (triple_selectCPU σ _ _) (fun _ _ => ?_)
  refine triple_bind _ _ (triple_selectFromArray σ _ _ _) (fun _ _ => ?_)
  refine triple_bind _ _ (triple_selectGPU σ _ _) (fun _ _ => ?_)
  refine triple_bind _ _ (triple_selectWeighted σ _ _ _ _) (fun _ _ => ?_)
  refine triple_bind _ _ (triple_selectGeolocation σ _ _) (fun _ _ => ?_)
  refine triple_bind _ _ (triple_selectLanguage σ _ _ _) (fun _ _ => ?_)
  refine triple_bind _ _ (triple_selectWeighted σ _ _ _ _) (fun _ _ => ?_)
  refine triple_bind _ _ (triple_buildUserAgent σ _ _ _ _) (fun _ _ => ?_)
  refine triple_bind _ (fun _ => True) (triple_selectFonts σ hσ _ h a) (fun fonts hfonts => ?_)
  iterate 19 (refine triple_skip (fun _ => ?_))
  refine triple_pure (fun _ _ => ?_)
  subst h1
  refine ⟨a, h2, fun hnd => ?_⟩
  exact hfonts hnd


/-- Counterexample of C11 as stated: on the demo knowledge base the OS pool has five fonts
outside the baseline; the count drawn is 32, and the font list of `chameleon-main.js` has 10
entries, not 5 + 32. -/
theorem font_count_counterexample :
    (Main.invoke demoHost (demoWorld 0) demoData seedA).toOption.map (fun p => p.fonts.length)
        = some 10 ∧
      ⌊demoHost.seedrandom seedA 11 * 15⌋ + 20 = 32 ∧
      (Main.availableFonts demoHost demoDesktop).length = 5 := by
  refine ⟨?_, ?_, ?_⟩
  · decide!
  · decide!
  · decide!

/-- C11, as the code has it: when the numbers of the seeded generator lie in `[0, 1)` and the
OS font pool of the selected archetype lists no font twice, the generated font list has exactly
`baselineCount + min(additionalCount, poolCount)` entries, where `poolCount` is the number of
pool fonts that are not baseline fonts: 5 baseline fonts and `additionalCount = floor(u * 15) +
20` in `chameleon-main.js` (`u` the twelfth draw), 6 baseline fonts and `additionalCount =
floor(u * 20) + 25` in `profile-generator.js` (`u` the eleventh draw, the twelfth on a mobile
archetype). -/
theorem font_count_bounded_by_pool (h : Host) (w : World) (K : ProfilesData) (S : String)
    (hu : h.UnitRange S) :
    (∀ p a, Main.invoke h w K S = .ok p → Main.selectedArchetype h K S = some a →
      (Main.availableFonts h a).Nodup →
      p.fonts.length
        = 5 + min (⌊h.seedrandom S 11 * 15⌋ + 20).toNat (Main.availableFonts h a).length) ∧
    (∀ q a, Module.invoke h w K S = .ok q → Main.selectedArchetype h K S = some a →
      (Module.availableFonts h a).Nodup →
      q.fonts.available.length
        = 6 + min (⌊h.seedrandom S (if a.platform = "Linux armv8l" then 11 else 10) * 20⌋
            + 25).toNat (Module.availableFonts h a).length) := by
  constructor
  · intro p a hp ha hnd
    obtain ⟨s', hrun⟩ := invoke_ok_main hp
    obtain ⟨a', ha', hlen⟩ :=
      main_generate_fonts h w K S (h.seedrandom S) hu _ (pos_newRng h S) p s' hrun
    have : a' = a := Option.some.inj (ha'.symm.trans ha)
    subst this
    exact hlen hnd
  · intro q a hq ha hnd
    obtain ⟨s', hrun⟩ := invoke_ok_module hq
    obtain ⟨a', ha', hlen⟩ :=
      module_generate_fonts h w K S (h.seedrandom S) hu _ (pos_newRng h S) q s' hrun
    have : a' = a := Option.some.inj (ha'.symm.trans ha)
    subst this
    exact hlen hnd

/-- Witness of C11: the demo knowledge base; the font list of `chameleon-main.js` has
`5 + min(32, 5)` entries. -/
theorem font_count_bounded_by_pool_witness :
    ∃ p, Main.invoke demoHost (demoWorld 0) demoData seedA = .ok p ∧
      p.fonts.length
        = 5 + min (⌊demoHost.seedrandom seedA 11 * 15⌋ + 20).toNat
            (Main.availableFonts demoHost demoDesktop).length := by
  obtain ⟨p, hp⟩ : ∃ p, Main.invoke demoHost (demoWorld 0) demoData seedA = .ok p :=
    ok_of_isSome (by decide!)
  exact ⟨p, hp, (font_count_bounded_by_pool demoHost (demoWorld 0) demoData seedA
    (demoHost_unitRange seedA)).1 p demoDesktop hp (by decide!) (by decide!)⟩

/-! ## The WebGL extension list -/

theorem triple_sortRandom (P : RngState → Prop) (h : Host) (d : Draw) (array : List String) :
    Triple P (sortRandom h d array) (fun r _ => (∃ cmp, r = (h.sort array cmp).1) ∧ True) := by
  intro s _ r s' hrun
  unfold sortRandom at hrun
  cases hrun
  exact ⟨⟨_, rfl⟩, trivial⟩

theorem main_generate_extensions (h : Host) (w : World) (K : ProfilesData) (S : String) :
    Triple (fun _ => True) (Main.generate h w K S) (fun p _ =>
      ∃ cmp, p.webgl.extensions
        = (h.sort (if p.webgl.vendor = "NVIDIA"
            then Main.baseExtensions ++ ["NV_shader_noperspective_interpolation"]
            else Main.baseExtensions) cmp).1) := by
  unfold Main.generate
  iterate 6 (refine triple_skip (fun _ => ?_))
  refine triple_skip (fun gpu => ?_)
  iterate 9 (refine triple_skip (fun _ => ?_))
  dsimp only
  iterate 6 (refine triple_skip (fun _ => ?_))
  refine triple_bind _ _ (triple_sortRandom _ _ _ _) (fun extensions hext => ?_)
  iterate 5 (refine triple_skip (fun _ => ?_))
  exact triple_pure (fun _ _ => hext)

/-- C12: when the engine's `sort` returns a permutation of its input, every profile generated
by `chameleon-main.js` has as `webgl.extensions` a permutation of the 11 baseline extensions,
extended by `NV_shader_noperspective_interpolation` exactly when `webgl.vendor` (the vendor of
the selected GPU entry) is `NVIDIA`; no extension is dropped or listed twice.  The function
`generateWebGLExtensions` of `chameleon-core.js` returns such a permutation as well. -/
theorem webgl_extensions_permutation (h : Host) (w : World) (K : ProfilesData) (S : String)
    (hsort : h.SortPermutes) :
    (∀ p, Main.invoke h w K S = .ok p →
      p.webgl.extensions.Perm (if p.webgl.vendor = "NVIDIA"
        then Main.baseExtensions ++ ["NV_shader_noperspective_interpolation"]
        else Main.baseExtensions) ∧
      p.webgl.extensions.Nodup ∧
      ("NV_shader_noperspective_interpolation" ∈ p.webgl.extensions
        ↔ p.webgl.vendor = "NVIDIA")) ∧
    Main.baseExtensions.length = 11 ∧
    (∀ vendor s r s', Core.generateWebGLExtensions h vendor s = .ok (r, s') →
      r.Perm (if vendor = "NVIDIA"
        then Main.baseExtensions ++ ["NV_shader_noperspective_interpolation"]
        else Main.baseExtensions)) := by
  refine ⟨fun p hp => ?_, rfl, fun vendor s r s' hrun => ?_⟩
  · obtain ⟨s', hrun⟩ := invoke_ok_main hp
    obtain ⟨cmp, hext⟩ := main_generate_extensions h w K S _ trivial p s' hrun
    have hperm := hsort (if p.webgl.vendor = "NVIDIA"
        then Main.baseExtensions ++ ["NV_shader_noperspective_interpolation"]
        else Main.baseExtensions) cmp
    rw [← hext] at hperm
    refine ⟨hperm, ?_, ?_⟩
    · rw [hperm.nodup_iff]
      split <;> decide
    · rw [hperm.mem_iff]
      by_cases hv : p.webgl.vendor = "NVIDIA"
      · simp [hv]
      · simp only [hv, if_false, iff_false]
        decide
  · obtain ⟨⟨cmp, hr⟩, _⟩ := triple_sortRandom (fun _ => True) h _ _ s trivial r s' hrun
    rw [hr]
    exact hsort _ cmp

theorem insertByCalls_perm (cmp : ℕ → ℚ) (x : String) (l : List String) (k : ℕ) :
    (insertByCalls cmp x l k).1.Perm (x :: l) := by
  induction l generalizing k with
  | nil => exact List.Perm.refl _
  | cons y ys ih =>
    unfold insertByCalls
    split
    · exact List.Perm.refl _
    · exact ((ih (k + 1)).cons y).trans (List.Perm.swap x y ys)

theorem insertionSortByCalls_perm (array : List String) (cmp : ℕ → ℚ) :
    (insertionSortByCalls array cmp).1.Perm array := by
  unfold insertionSortByCalls
  suffices hgen : ∀ (acc : List String × ℕ),
      (array.foldl (fun acc x => insertByCalls cmp x acc.1 acc.2) acc).1.Perm
        (acc.1 ++ array) by
    simpa using hgen ([], 0)
  induction array with
  | nil => intro acc; simp
  | cons x xs ih =>
    intro acc
    rw [List.foldl_cons]
    refine (ih _).trans ?_
    refine ((insertByCalls_perm cmp x acc.1 acc.2).append_right xs).trans ?_
    exact List.perm_middle.symm

theorem demoHost_sortPermutes : demoHost.SortPermutes :=
  fun array cmp => insertionSortByCalls_perm array cmp

/-- Witness of C12: the demo knowledge base (an NVIDIA archetype) with insertion sort as the
engine's sort. -/
theorem webgl_extensions_permutation_witness :
    ∃ p, Main.invoke demoHost (demoWorld 0) demoData seedA = .ok p ∧
      p.webgl.extensions.Perm (if p.webgl.vendor = "NVIDIA"
        then Main.baseExtensions ++ ["NV_shader_noperspective_interpolation"]
        else Main.baseExtensions) := by
  obtain ⟨p, hp⟩ : ∃ p, Main.invoke demoHost (demoWorld 0) demoData seedA = .ok p :=
    ok_of_isSome (by decide!)
  exact ⟨p, hp, ((webgl_extensions_permutation demoHost (demoWorld 0) demoData seedA
    demoHost_sortPermutes).1 p hp).1⟩

/-- C13 at the failing input: `getTaskbarHeight` returns 30 for `Android` and for `iOS` (the
entry `0` of its table is falsy, so `heights[os] || 30` falls through to 30), and the profile
generated by `profile-generator.js` for the Android archetype of height 915 has
`screen.availHeight = 885`, not 915.  For the other OS names of the table the value of the table
is returned, and 30 for a name outside it. -/
theorem taskbar_height_zero_entries :
    Module.getTaskbarHeight "Android" = 30 ∧ Module.getTaskbarHeight "iOS" = 30 ∧
      (Module.invoke demoHost (demoWorld 0) demoMobileData seedA).toOption.map
        (fun p => (p.screen.height, p.screen.availHeight)) = some (915, 885) ∧
      Module.getTaskbarHeight "Windows" = 40 ∧ Module.getTaskbarHeight "macOS" = 25 ∧
      Module.getTaskbarHeight "Linux" = 28 ∧ Module.getTaskbarHeight "ChromeOS" = 30 := by
  refine ⟨by decide, by decide, by decide!, by decide, by decide, by decide, by decide⟩

theorem main_generate_shape (h : Host) (w : World) (K : ProfilesData) (S : String) :
    Triple (fun _ => True) (Main.generate h w K S) (fun p _ =>
      p.screen.orientation.type = orientationType p.screen.width p.screen.height ∧
      p.timezone.offset = Main.getTimezoneOffset p.timezone.name ∧
      p.webgl.version = "WebGL 2.0" ∧
      p.webgl.shadingLanguageVersion = "WebGL GLSL ES 3.00") := by
  unfold Main.generate
  iterate 16 refine triple_skip (fun _ => ?_)
  dsimp only
  iterate 2 refine triple_skip (fun _ => ?_)
  dsimp only
  iterate 10 refine triple_skip (fun _ => ?_)
  exact triple_pure (fun _ _ => ⟨rfl, rfl, rfl, rfl⟩)

theorem main_shape_of_invoke {h : Host} {w : World} {K : ProfilesData} {S : String}
    {p : Main.Profile} (hp : Main.invoke h w K S = .ok p) :
    p.screen.orientation.type = orientationType p.screen.width p.screen.height ∧
    p.timezone.offset = Main.getTimezoneOffset p.timezone.name ∧
    p.webgl.version = "WebGL 2.0" ∧
    p.webgl.shadingLanguageVersion = "WebGL GLSL ES 3.00" := by
  obtain ⟨s', hrun⟩ := invoke_ok_main hp
  exact main_generate_shape h w K S _ trivial p s' hrun

/-! ## Media queries on the orientation -/

/-- C14 (counterexample): on the 1920 by 1080 screen, whose `orientation.type` is
`landscape-primary`, two queries that contain `orientation: landscape` do not match: the checks
for `prefers-color-scheme: dark` and for `orientation: portrait` come first and return. -/
theorem media_query_counterexample :
    demoScreen.orientation.type = "landscape-primary" ∧
    jsIncludes "(orientation: landscape) and (prefers-color-scheme: dark)"
      "orientation: landscape" = true ∧
    ScreenInterceptor.evaluateMediaQuery demoScreen
      "(orientation: landscape) and (prefers-color-scheme: dark)" = false ∧
    jsIncludes "(orientation: portrait), (orientation: landscape)"
      "orientation: landscape" = true ∧
    ScreenInterceptor.evaluateMediaQuery demoScreen
      "(orientation: portrait), (orientation: landscape)" = false := by
  decide

/-- C14 (amended): for a screen whose `orientation.type` is the one the generator sets
(`landscape-primary` when `width > height`, `portrait-primary` otherwise) and a query that
contains neither `prefers-color-scheme: dark` nor `prefers-reduced-motion`: a query containing
`orientation: portrait` matches exactly when the type is `portrait-primary`, on a screen that is
not square; a query containing `orientation: landscape` and not `orientation: portrait` matches
exactly when the type is `landscape-primary`. Every profile `generate` returns has such a
screen. -/
theorem orientation_queries_agree (profile : ScreenProfile) (query : String)
    (hgen : profile.orientation.type = orientationType profile.width profile.height)
    (hdark : jsIncludes query "prefers-color-scheme: dark" = false)
    (hmotion : jsIncludes query "prefers-reduced-motion" = false) :
    (jsIncludes query "orientation: portrait" = true → profile.width ≠ profile.height →
      (ScreenInterceptor.evaluateMediaQuery profile query = true
        ↔ profile.orientation.type = "portrait-primary")) ∧
    (jsIncludes query "orientation: landscape" = true →
      jsIncludes query "orientation: portrait" = false →
      (ScreenInterceptor.evaluateMediaQuery profile query = true
        ↔ profile.orientation.type = "landscape-primary")) ∧
    (∀ (h : Host) (w : World) (K : ProfilesData) (S : String) (p : Main.Profile),
      Main.invoke h w K S = .ok p →
      p.screen.orientation.type = orientationType p.screen.width p.screen.height) := by
  have hne : ("landscape-primary" : String) ≠ "portrait-primary" := by decide
  refine ⟨?_, ?_, fun h w K S p hp => (main_shape_of_invoke hp).1⟩
  · intro hp hsq
    simp only [ScreenInterceptor.evaluateMediaQuery, hdark, hmotion, hp, hgen, orientationType]
    by_cases hw : profile.width > profile.height
    · have : ¬ profile.height > profile.width := by omega
      simp [hw, this, hne]
    · have : profile.height > profile.width := by omega
      simp [hw, this]
  · intro hl hp
    simp only [ScreenInterceptor.evaluateMediaQuery, hdark, hmotion, hp, hl, hgen,
      orientationType]
    by_cases hw : profile.width > profile.height
    · simp [hw]
    · simp [hw, hne.symm]

/-- Witness of C14: the query `(orientation: landscape)` on the 1920 by 1080 screen. -/
theorem orientation_queries_agree_witness :
    ScreenInterceptor.evaluateMediaQuery demoScreen "(orientation: landscape)" = true
      ↔ demoScreen.orientation.type = "landscape-primary" :=
  (orientation_queries_agree demoScreen "(orientation: landscape)" (by decide) (by decide)
    (by decide)).2.1 (by decide) (by decide)

/-! ## The proxy on `getParameter` -/

theorem toDigitsCore_isDigit (fuel : ℕ) : ∀ (n : ℕ) (ds : List Char),
    (∀ c ∈ ds, c.isDigit = true) →
    ∀ c ∈ Nat.toDigitsCore 10 fuel n ds, c.isDigit = true := by
  induction fuel with
  | zero => intro n ds hds; simpa [Nat.toDigitsCore] using hds
  | succ fuel ih =>
    intro n ds hds
    have hd : (Nat.digitChar (n % 10)).isDigit = true := by
      have hlt : n % 10 < 10 := Nat.mod_lt _ (by decide)
      have hall : ∀ d < 10, (Nat.digitChar d).isDigit = true := by decide
      exact hall _ hlt
    have hds' : ∀ c ∈ Nat.digitChar (n % 10) :: ds, c.isDigit = true := by
      intro c hc
      rcases List.mem_cons.mp hc with h | h
      · rw [h]; exact hd
      · exact hds c h
    unfold Nat.toDigitsCore
    dsimp only
    split
    · exact hds'
    · exact ih _ _ hds'

theorem toString_nat_isDigit (n : ℕ) : ∀ c ∈ (toString n).toList, c.isDigit = true := by
  show ∀ c ∈ (Nat.toDigits 10 n), c.isDigit = true
  exact toDigitsCore_isDigit _ _ _ (fun c hc => by cases hc)

theorem num_key_not_inherited (n : ℕ) :
    WebGLInterceptor.objectPrototypeKeys.contains (WebGLInterceptor.Arg.num n).key = false := by
  have hall : ∀ k ∈ WebGLInterceptor.objectPrototypeKeys,
      ∃ c ∈ k.toList, c.isDigit = false := by
    decide
  rw [Bool.eq_false_iff]
  intro hc
  have hmem : (WebGLInterceptor.Arg.num n).key ∈ WebGLInterceptor.objectPrototypeKeys := by
    simpa using hc
  obtain ⟨c, hc1, hc2⟩ := hall _ hmem
  have := toString_nat_isDigit n c hc1
  rw [this] at hc2
  cases hc2

section

open WebGLInterceptor

/-- C15 (counterexample): a profile that carries a table `parameters` with a value for
`3379` (`MAX_TEXTURE_SIZE`): the patched `getParameter(3379)` returns the value of the table,
not what the original returns, and `3379` is none of the six identifiers. -/
theorem webgl_custom_parameter_counterexample :
    getParameter demoValues (new demoWebGL (some [("3379", "16384")])) demoGetParameter ()
        [Arg.num 3379] = "16384" ∧
    demoGetParameter () [Arg.num 3379] = "native" ∧
    Arg.num 3379 ∉ [Arg.num 0x1F00, Arg.num 0x1F01, Arg.num 0x1F02, Arg.num 0x8B8C,
      Arg.num 0x9245, Arg.num 0x9246] := by
  decide

/-- C15 (amended): for every argument that is none of the six identifiers and whose property
key is neither a key of the table `this.parameters` (the field `parameters` of the profile) nor
the name of a member of `Object.prototype`, the patched `getParameter` returns what the
original returns for the same context and arguments; the six identifiers are answered by the
interceptor (`0x9245` and `0x9246` with the vendor and the renderer of the profile, `0x1F02`
and `0x8B8C` with its version texts, `0x1F00` and `0x1F01` with `WebKit` and `WebKit WebGL`);
with a profile that has no field `parameters`, every other number passes through. -/
theorem webgl_getParameter_passes_through {ρ κ : Type} (v : Values ρ) (self : Fields ρ)
    (target : κ → List Arg → ρ) (thisArg : κ) (args : List Arg)
    (hid : args.head?.getD (Arg.other "undefined") ∉ [Arg.num 0x1F00, Arg.num 0x1F01,
      Arg.num 0x1F02, Arg.num 0x8B8C, Arg.num 0x9245, Arg.num 0x9246])
    (hcustom : (self.parameters.map (fun e => e.1)).contains
      (args.head?.getD (Arg.other "undefined")).key = false)
    (hinherited : objectPrototypeKeys.contains
      (args.head?.getD (Arg.other "undefined")).key = false) :
    getParameter v self target thisArg args = target thisArg args ∧
    (∀ rest,
      getParameter v self target thisArg (Arg.num 0x9245 :: rest)
        = v.ofString self.profile.vendor ∧
      getParameter v self target thisArg (Arg.num 0x9246 :: rest)
        = v.ofString self.profile.renderer ∧
      getParameter v self target thisArg (Arg.num 0x1F02 :: rest)
        = v.ofString self.profile.version ∧
      getParameter v self target thisArg (Arg.num 0x8B8C :: rest)
        = v.ofString self.profile.shadingLanguageVersion ∧
      getParameter v self target thisArg (Arg.num 0x1F00 :: rest) = v.ofString "WebKit" ∧
      getParameter v self target thisArg (Arg.num 0x1F01 :: rest)
        = v.ofString "WebKit WebGL") ∧
    (∀ (webgl : Main.WebGLProfile) (n : ℕ) (rest : List Arg),
      n ∉ [0x1F00, 0x1F01, 0x1F02, 0x8B8C, 0x9245, 0x9246] →
      getParameter v (new webgl none) target thisArg (Arg.num n :: rest)
        = target thisArg (Arg.num n :: rest)) := by
  refine ⟨?_, fun rest => ⟨rfl, rfl, rfl, rfl, rfl, rfl⟩, ?_⟩
  · simp only [List.mem_cons, List.mem_singleton, List.not_mem_nil, or_false, not_or] at hid
    obtain ⟨h1, h2, h3, h4, h5, h6⟩ := hid
    simp only [getParameter, hasParameter, h1, h2, h3, h4, h5, h6, hcustom, hinherited,
      if_false, Bool.or_self]
    rfl
  · intro webgl n rest hn
    simp only [List.mem_cons, List.mem_singleton, List.not_mem_nil, or_false, not_or] at hn
    obtain ⟨h1, h2, h3, h4, h5, h6⟩ := hn
    have hkey := num_key_not_inherited n
    simp only [getParameter, hasParameter, new, List.head?, Option.getD, Arg.num.injEq,
      h1, h2, h3, h4, h5, h6, if_false, hkey, Option.getD_none, List.map_nil]
    rfl

/-- Witness of C15: the argument `3386` with the table that holds `3379` only. -/
theorem webgl_getParameter_passes_through_witness :
    getParameter demoValues (new demoWebGL (some [("3379", "16384")])) demoGetParameter ()
        [Arg.num 3386] = demoGetParameter () [Arg.num 3386] ∧
    getParameter demoValues (new demoWebGL (some [("3379", "16384")])) demoGetParameter ()
        [Arg.num 0x9246] = "Intel Iris OpenGL Engine" :=
  have key := webgl_getParameter_passes_through demoValues
    (new demoWebGL (some [("3379", "16384")])) demoGetParameter () [Arg.num 3386]
    (by decide) (by decide) (by decide)
  ⟨key.1, (key.2.1 []).2.1⟩

end

/-! ## The noise on bytes -/

theorem clamp_range (value : ℚ) :
    0 ≤ CanvasInterceptor.clamp value ∧ CanvasInterceptor.clamp value ≤ 255 :=
  ⟨le_max_left _ _, max_le (by decide) (min_le_left _ _)⟩

theorem addNoise_range (noise : ℚ) (data : List ℤ) (index : ℤ)
    (hdata : ∀ b ∈ data, 0 ≤ b ∧ b ≤ 255) :
    (CanvasInterceptor.addNoise noise data index).length = data.length ∧
    ∀ b ∈ CanvasInterceptor.addNoise noise data index, 0 ≤ b ∧ b ≤ 255 := by
  unfold CanvasInterceptor.addNoise
  split
  · split
    · refine ⟨List.length_set _ _ _, fun b hb => ?_⟩
      rcases List.mem_or_eq_of_mem_set hb with h | h
      · exact hdata b h
      · rw [h]
        exact clamp_range _
    · exact ⟨rfl, hdata⟩
  · exact ⟨rfl, hdata⟩

theorem noiseLoop_range (profile : Main.CanvasProfile) (count : ℕ) :
    ∀ (data : List ℤ) (s : RngState), (∀ b ∈ data, 0 ≤ b ∧ b ≤ 255) →
    ∃ r s', CanvasInterceptor.noiseLoop profile count data s = .ok (r, s') ∧
      r.length = data.length ∧ ∀ b ∈ r, 0 ≤ b ∧ b ≤ 255 := by
  induction count with
  | zero => exact fun data s hdata => ⟨data, s, rfl, rfl, hdata⟩
  | succ count ih =>
    intro data s hdata
    unfold CanvasInterceptor.noiseLoop
    rw [bind_ok (rng_run _ _), bind_ok (rng_run _ _)]
    dsimp only
    have h1 := addNoise_range
      ((({ s with pos := s.pos + 1, log := s.log ++ [Draw.canvas] } : RngState).stream (s.pos + 1)
        - 1 / 2) * profile.noise * 255)
      data (⌊s.stream s.pos * ((data.length : ℚ) / 4)⌋ * 4) hdata
    have h2 := addNoise_range
      ((({ s with pos := s.pos + 1, log := s.log ++ [Draw.canvas] } : RngState).stream (s.pos + 1)
        - 1 / 2) * profile.noise * 255)
      _ (⌊s.stream s.pos * ((data.length : ℚ) / 4)⌋ * 4 + 1) h1.2
    have h3 := addNoise_range
      ((({ s with pos := s.pos + 1, log := s.log ++ [Draw.canvas] } : RngState).stream (s.pos + 1)
        - 1 / 2) * profile.noise * 255)
      _ (⌊s.stream s.pos * ((data.length : ℚ) / 4)⌋ * 4 + 2) h2.2
    obtain ⟨r, s', hrun, hlen, hr⟩ := ih _ _ h3.2
    exact ⟨r, s', hrun, by rw [hlen, h3.1, h2.1, h1.1], hr⟩

theorem byteNoise_range (array : List ℤ) :
    ∀ s : RngState, ∃ r s', AudioInterceptor.byteNoise array s = .ok (r, s') ∧
      r.length = array.length ∧ ∀ b ∈ r, 0 ≤ b ∧ b ≤ 255 := by
  induction array with
  | nil => exact fun s => ⟨[], s, rfl, rfl, fun b hb => by cases hb⟩
  | cons byte rest ih =>
    intro s
    unfold AudioInterceptor.byteNoise
    rw [bind_ok (rng_run _ _)]
    obtain ⟨r, s', hrun, hlen, hr⟩ := ih { s with pos := s.pos + 1, log := s.log ++ [Draw.audio] }
    rw [bind_ok hrun]
    refine ⟨_, s', rfl, by simp [hlen], fun b hb => ?_⟩
    rcases List.mem_cons.mp hb with h | h
    · rw [h]
      exact ⟨le_max_left _ _, max_le (by decide) (min_le_left _ _)⟩
    · exact hr b h

/-- C16: the noise steps keep every byte in `[0, 255]`. From any state of the generator (any
numbers drawn) and for any amplitude `profile.noise`, `applyImageDataNoise` on bytes in
`[0, 255]` returns as many bytes, all in `[0, 255]`; the patched `getByteFrequencyData` returns
bytes in `[0, 255]` whatever the original wrote; and `clamp` maps every number into
`[0, 255]`. -/
theorem noise_bytes_in_range (profile : Main.CanvasProfile) (s : RngState) :
    (∀ data : List ℤ, (∀ b ∈ data, 0 ≤ b ∧ b ≤ 255) →
      ∃ r s', CanvasInterceptor.applyImageDataNoise profile data s = .ok (r, s') ∧
        r.length = data.length ∧ ∀ b ∈ r, 0 ≤ b ∧ b ≤ 255) ∧
    (∀ (κ : Type) (target : κ → List ℤ → List ℤ) (thisArg : κ) (array : List ℤ),
      ∃ r s', AudioInterceptor.getByteFrequencyData target thisArg array s = .ok (r, s') ∧
        r.length = (target thisArg array).length ∧ ∀ b ∈ r, 0 ≤ b ∧ b ≤ 255) ∧
    (∀ value : ℚ, 0 ≤ CanvasInterceptor.clamp value ∧ CanvasInterceptor.clamp value ≤ 255) := by
  refine ⟨fun data hdata => ?_, fun κ target thisArg array => ?_, clamp_range⟩
  · unfold CanvasInterceptor.applyImageDataNoise
    rw [bind_ok (rng_run _ _)]
    exact noiseLoop_range profile _ data _ hdata
  · exact byteNoise_range _ s

/-- Witness of C16: eight bytes and the generator of the seed of sixty-four `a`. -/
theorem noise_bytes_in_range_witness :
    ∃ r s', CanvasInterceptor.applyImageDataNoise demoCanvasProfile [0, 128, 255, 7, 0, 0, 0, 255]
        (CanvasInterceptor.newRng demoHost seedA) = .ok (r, s') ∧
      r.length = [0, 128, 255, 7, 0, 0, 0, 255].length ∧ ∀ b ∈ r, 0 ≤ b ∧ b ≤ 255 :=
  (noise_bytes_in_range demoCanvasProfile (CanvasInterceptor.newRng demoHost seedA)).1
    [0, 128, 255, 7, 0, 0, 0, 255] (by decide)

/-! ## The noise pixel of `applyCanvasNoise` -/

theorem applyCanvasNoise_run (profile : Main.CanvasProfile) (canvas : CanvasInterceptor.Canvas)
    (hc : canvas.context2d = true) (s : RngState) :
    CanvasInterceptor.applyCanvasNoise profile canvas s
      = .ok (some (CanvasInterceptor.fillAt profile canvas s.stream s.pos),
          { s with pos := s.pos + 3,
                   log := s.log ++ [Draw.canvas] ++ [Draw.canvas] ++ [Draw.canvas] }) := by
  unfold CanvasInterceptor.applyCanvasNoise
  rw [hc]
  rfl

theorem successiveCalls_run (profile : Main.CanvasProfile) (canvas : CanvasInterceptor.Canvas)
    (hc : canvas.context2d = true) (count : ℕ) :
    ∀ s : RngState, ∃ s', CanvasInterceptor.successiveCalls profile canvas count s
      = .ok ((List.range count).map (fun k =>
          some (CanvasInterceptor.fillAt profile canvas s.stream (s.pos + 3 * k))), s') := by
  induction count with
  | zero => exact fun s => ⟨s, rfl⟩
  | succ count ih =>
    intro s
    unfold CanvasInterceptor.successiveCalls
    rw [bind_ok (applyCanvasNoise_run profile canvas hc s)]
    obtain ⟨s', hrun⟩ := ih
      ⟨s.stream, s.pos + 3, s.log ++ [Draw.canvas] ++ [Draw.canvas] ++ [Draw.canvas]⟩
    rw [bind_ok hrun]
    refine ⟨s', ?_⟩
    rw [List.range_succ_eq_map, List.map_cons, List.map_map]
    show Except.ok _ = Except.ok _
    congr 3
    refine List.map_congr_left (fun k _ => ?_)
    show some (CanvasInterceptor.fillAt profile canvas s.stream (s.pos + 3 + 3 * k))
      = some (CanvasInterceptor.fillAt profile canvas s.stream (s.pos + 3 * (k + 1)))
    rw [show s.pos + 3 + 3 * k = s.pos + 3 * (k + 1) by ring]

/-- C17 (counterexample): two successive calls on the canvas of 300 by 150, from the generator
the constructor makes for the seed of sixty-four `a`: both draw at the pixel `(300, 148)`, the
first with `rgb(112, 224, 80)`, the second with `rgb(192, 48, 160)`. -/
theorem canvas_noise_counterexample :
    (CanvasInterceptor.successiveCalls demoCanvasProfile demoCanvas 2
        (CanvasInterceptor.newRng demoHost seedA)).toOption.map
      (fun r => r.1.map (Option.map (fun f => (f.fillStyle, f.x, f.y))))
      = some [some ((112, 224, 80), 300, 148), some ((192, 48, 160), 300, 148)] := by
  decide!

/-- C17 (amended): on a canvas with a 2D context, every call of `applyCanvasNoise` draws at the
pixel `(width - 1 + offsetX, height - 1 + offsetY)`, and takes the three numbers of its RGB
triple from the next three draws of the generator seeded with `seed + '_canvas'`: of `count`
successive calls after construction, call `k` (from zero) uses the draws `3k`, `3k + 1` and
`3k + 2`. So the noise of a call is determined by the seed, the size of the canvas and the
number of draws made before it. -/
theorem canvas_noise_by_draws (h : Host) (seed : String) (profile : Main.CanvasProfile)
    (canvas : CanvasInterceptor.Canvas) (hc : canvas.context2d = true) (count : ℕ) :
    (CanvasInterceptor.successiveCalls profile canvas count
        (CanvasInterceptor.newRng h seed)).toOption.map Prod.fst
      = some ((List.range count).map (fun k =>
          some (CanvasInterceptor.fillAt profile canvas (h.seedrandom (seed ++ "_canvas"))
            (3 * k)))) ∧
    (∀ s : RngState, (CanvasInterceptor.applyCanvasNoise profile canvas s).toOption.map Prod.fst
      = some (some (CanvasInterceptor.fillAt profile canvas s.stream s.pos))) ∧
    (∀ (σ : ℕ → ℚ) (n : ℕ),
      (CanvasInterceptor.fillAt profile canvas σ n).x = canvas.width - 1 + profile.offsetX ∧
      (CanvasInterceptor.fillAt profile canvas σ n).y = canvas.height - 1 + profile.offsetY ∧
      (CanvasInterceptor.fillAt profile canvas σ n).fillStyle
        = (⌊σ n * 256⌋, ⌊σ (n + 1) * 256⌋, ⌊σ (n + 2) * 256⌋)) := by
  refine ⟨?_, fun s => ?_, fun σ n => ⟨rfl, rfl, rfl⟩⟩
  · obtain ⟨s', hrun⟩ := successiveCalls_run profile canvas hc count
      (CanvasInterceptor.newRng h seed)
    rw [hrun]
    show some _ = some _
    congr 1
    refine List.map_congr_left (fun k _ => ?_)
    show some (CanvasInterceptor.fillAt profile canvas (h.seedrandom (seed ++ "_canvas"))
      (0 + 3 * k)) = _
    rw [Nat.zero_add]
  · rw [applyCanvasNoise_run profile canvas hc s]
    rfl

/-- Witness of C17: two calls on the canvas of 300 by 150. -/
theorem canvas_noise_by_draws_witness :
    (CanvasInterceptor.successiveCalls demoCanvasProfile demoCanvas 2
        (CanvasInterceptor.newRng demoHost seedA)).toOption.map Prod.fst
      = some ((List.range 2).map (fun k =>
          some (CanvasInterceptor.fillAt demoCanvasProfile demoCanvas
            (demoHost.seedrandom (seedA ++ "_canvas")) (3 * k)))) :=
  (canvas_noise_by_draws demoHost seedA demoCanvasProfile demoCanvas (by decide) 2).1

/-! ## The timezone reported -/

/-- C18: for every profile, the patched `getTimezoneOffset` returns `profile.timezone.offset`
for every date, and `resolvedOptions()` of a formatter made by the patched constructor (with or
without arguments) reports `profile.timezone.name`. The table of the generator gives
`Europe/Paris` the offset `-60`, and a profile `generate` returns carries the offset of the
table for its zone: with the zone `Europe/Paris` the two patched methods return `-60` and
`Europe/Paris`. -/
theorem timezone_reported_from_profile (profile : Main.TimezoneProfile) :
    (∀ (δ : Type) (target : δ → ℤ) (date : δ),
      TimezoneInterceptor.getTimezoneOffset profile target date = profile.offset) ∧
    (∀ (β φ γ : Type) (empty : β) (original : String → TimezoneInterceptor.Options β → φ)
      (originalResolved : φ → TimezoneInterceptor.Resolved γ) (locale : Option String)
      (options : Option (TimezoneInterceptor.Options β)),
      (TimezoneInterceptor.resolvedOptions profile originalResolved
        (TimezoneInterceptor.construct profile empty original locale options)).timeZone
        = profile.name) ∧
    Main.getTimezoneOffset "Europe/Paris" = -60 ∧
    (∀ (h : Host) (w : World) (K : ProfilesData) (S : String) (p : Main.Profile),
      Main.invoke h w K S = .ok p → p.timezone.name = "Europe/Paris" →
      (∀ (δ : Type) (target : δ → ℤ) (date : δ),
        TimezoneInterceptor.getTimezoneOffset p.timezone target date = -60) ∧
      (∀ (β φ γ : Type) (empty : β) (original : String → TimezoneInterceptor.Options β → φ)
        (originalResolved : φ → TimezoneInterceptor.Resolved γ),
        (TimezoneInterceptor.resolvedOptions p.timezone originalResolved
          (TimezoneInterceptor.construct p.timezone empty original none none)).timeZone
          = "Europe/Paris")) := by
  have hres : ∀ (q : Main.TimezoneProfile) (γ φ : Type)
      (originalResolved : φ → TimezoneInterceptor.Resolved γ) (f : φ),
      (TimezoneInterceptor.resolvedOptions q originalResolved f).timeZone = q.name := by
    intro q γ φ originalResolved f
    unfold TimezoneInterceptor.resolvedOptions
    dsimp only
    split <;> rfl
  refine ⟨fun _ _ _ => rfl, fun β φ γ empty original originalResolved locale options =>
    hres profile γ φ _ _, by decide, fun h w K S p hp hname => ⟨fun δ target date => ?_,
      fun β φ γ empty original originalResolved => ?_⟩⟩
  · show p.timezone.offset = -60
    rw [(main_shape_of_invoke hp).2.1, hname]
    decide
  · rw [hres p.timezone γ φ _ _, hname]

/-- Witness of C18: the profile zone `Europe/Paris` with a formatter that would report the zone
`UTC`. -/
theorem timezone_reported_from_profile_witness :
    TimezoneInterceptor.getTimezoneOffset demoTimezone (fun _ : Unit => (0 : ℤ)) () = -60 ∧
    (TimezoneInterceptor.resolvedOptions demoTimezone demoResolvedOptions
      (TimezoneInterceptor.construct demoTimezone () demoDateTimeFormat none none)).timeZone
      = "Europe/Paris" :=
  ⟨(timezone_reported_from_profile demoTimezone).1 Unit _ (),
   (timezone_reported_from_profile demoTimezone).2.1 Unit _ Unit () demoDateTimeFormat
     demoResolvedOptions none none⟩

/-- C19 (counterexample): with the profile zone `Europe/Paris` and locale `fr-FR`, a formatter
constructed with the locale `en-US` and the option `timeZone: 'Asia/Tokyo'` is built by the
original constructor with these two values, and its patched `resolvedOptions()` reports
`Europe/Paris` and `fr-FR`. -/
theorem intl_explicit_zone_counterexample :
    TimezoneInterceptor.construct demoTimezone () demoDateTimeFormat (some "en-US")
        (some { timeZone := some "Asia/Tokyo", rest := () }) = ("en-US", "Asia/Tokyo") ∧
    (TimezoneInterceptor.resolvedOptions demoTimezone demoResolvedOptions
      (TimezoneInterceptor.construct demoTimezone () demoDateTimeFormat (some "en-US")
        (some { timeZone := some "Asia/Tokyo", rest := () }))).timeZone = "Europe/Paris" ∧
    (TimezoneInterceptor.resolvedOptions demoTimezone demoResolvedOptions
      (TimezoneInterceptor.construct demoTimezone () demoDateTimeFormat (some "en-US")
        (some { timeZone := some "Asia/Tokyo", rest := () }))).locale = "fr-FR" := by
  decide

/-- C19 (amended): the patched constructor hands an explicit locale and an explicit `timeZone`
option to the original constructor unchanged and puts the locale and the zone of the profile
in the place of a missing one; the patched `resolvedOptions()` reports the zone of the profile
for every formatter, and reports the locale of the profile exactly when the locale the
original resolved is empty or `en-US`, the resolved locale otherwise. -/
theorem intl_reports_profile_zone {β φ γ : Type} (profile : Main.TimezoneProfile) (empty : β)
    (original : String → TimezoneInterceptor.Options β → φ)
    (originalResolved : φ → TimezoneInterceptor.Resolved γ) :
    (∀ (L T : String) (rest : β), L ≠ "" → T ≠ "" →
      TimezoneInterceptor.construct profile empty original (some L)
        (some { timeZone := some T, rest := rest })
        = original L { timeZone := some T, rest := rest }) ∧
    (∀ (L : String) (rest : β), L ≠ "" →
      TimezoneInterceptor.construct profile empty original (some L)
        (some { timeZone := none, rest := rest })
        = original L { timeZone := some profile.name, rest := rest } ∧
      TimezoneInterceptor.construct profile empty original (some L) none
        = original L { timeZone := some profile.name, rest := empty }) ∧
    (∀ (T : String) (rest : β), T ≠ "" →
      TimezoneInterceptor.construct profile empty original none
        (some { timeZone := some T, rest := rest })
        = original profile.locale { timeZone := some T, rest := rest }) ∧
    TimezoneInterceptor.construct profile empty original none none
      = original profile.locale { timeZone := some profile.name, rest := empty } ∧
    (∀ f : φ,
      (TimezoneInterceptor.resolvedOptions profile originalResolved f).timeZone
        = profile.name ∧
      (TimezoneInterceptor.resolvedOptions profile originalResolved f).locale
        = (if (originalResolved f).locale = "" ∨ (originalResolved f).locale = "en-US"
            then profile.locale else (originalResolved f).locale) ∧
      (TimezoneInterceptor.resolvedOptions profile originalResolved f).rest
        = (originalResolved f).rest) := by
  have hf : ∀ s : String, s ≠ "" → TimezoneInterceptor.falsy (some s) = false := by
    intro s hs
    simp [TimezoneInterceptor.falsy, hs]
  refine ⟨fun L T rest hL hT => ?_, fun L rest hL => ⟨?_, ?_⟩, fun T rest hT => ?_, rfl,
    fun f => ?_⟩
  · simp [TimezoneInterceptor.construct, hf L hL, hf T hT]
  · simp [TimezoneInterceptor.construct, TimezoneInterceptor.falsy, hL]
  · simp [TimezoneInterceptor.construct, TimezoneInterceptor.falsy, hL]
  · simp [TimezoneInterceptor.construct, TimezoneInterceptor.falsy, hT]
  · unfold TimezoneInterceptor.resolvedOptions
    dsimp only
    split <;> exact ⟨rfl, rfl, rfl⟩

/-- Witness of C19: the locale `de-DE` and the zone `Asia/Tokyo` with the profile zone
`Europe/Paris`. -/
theorem intl_reports_profile_zone_witness :
    TimezoneInterceptor.construct demoTimezone () demoDateTimeFormat (some "de-DE")
        (some { timeZone := some "Asia/Tokyo", rest := () })
      = demoDateTimeFormat "de-DE" { timeZone := some "Asia/Tokyo", rest := () } ∧
    (TimezoneInterceptor.resolvedOptions demoTimezone demoResolvedOptions
      ("de-DE", "Asia/Tokyo")).timeZone = "Europe/Paris" :=
  ⟨(intl_reports_profile_zone demoTimezone () demoDateTimeFormat demoResolvedOptions).1
     "de-DE" "Asia/Tokyo" () (by decide) (by decide),
   ((intl_reports_profile_zone demoTimezone () demoDateTimeFormat demoResolvedOptions).2.2.2.2
     ("de-DE", "Asia/Tokyo")).1⟩

/-! ## The text of the offset -/

theorem padStart2_digits : ∀ k < 100,
    TimezoneInterceptor.padStart2 (toString k)
      = String.mk [Nat.digitChar (k / 10), Nat.digitChar (k % 10)] := by
  decide!

theorem digitChar_value : ∀ d < 10,
    (Nat.digitChar d).isDigit = true ∧ ((Nat.digitChar d).toNat : ℤ) = 48 + (d : ℤ) := by
  decide

/-- C20: for every profile offset (an integer number of minutes) with `|offset| < 6000`,
`getGMTOffset` returns the five characters `sHHMM`: `s` is `-` exactly when `offset > 0` and `+`
otherwise, `HH` are the two decimal digits of `floor(|offset| / 60)` and `MM` those of
`|offset| mod 60`; reading the text back (`-(60*HH + MM)` for `+`, `60*HH + MM` for `-`) gives
the offset. The offsets `-60` and `300` give `+0100` and `-0500`. -/
theorem gmt_offset_sign_convention (profile : Main.TimezoneProfile)
    (hrange : |profile.offset| < 6000) :
    TimezoneInterceptor.getGMTOffset profile
      = String.mk [if profile.offset > 0 then '-' else '+',
          Nat.digitChar (profile.offset.natAbs / 60 / 10),
          Nat.digitChar (profile.offset.natAbs / 60 % 10),
          Nat.digitChar (profile.offset.natAbs % 60 / 10),
          Nat.digitChar (profile.offset.natAbs % 60 % 10)] ∧
    (TimezoneInterceptor.getGMTOffset profile).length = 5 ∧
    readGMTOffset (TimezoneInterceptor.getGMTOffset profile) = some profile.offset ∧
    TimezoneInterceptor.getGMTOffset { profile with offset := -60 } = "+0100" ∧
    TimezoneInterceptor.getGMTOffset { profile with offset := 300 } = "-0500" := by
  have habs : profile.offset.natAbs < 6000 := by
    have := Int.natCast_natAbs profile.offset
    omega
  have hH : profile.offset.natAbs / 60 < 100 := by omega
  have hM : profile.offset.natAbs % 60 < 100 := by omega
  have key : TimezoneInterceptor.getGMTOffset profile
      = String.mk [if profile.offset > 0 then '-' else '+',
          Nat.digitChar (profile.offset.natAbs / 60 / 10),
          Nat.digitChar (profile.offset.natAbs / 60 % 10),
          Nat.digitChar (profile.offset.natAbs % 60 / 10),
          Nat.digitChar (profile.offset.natAbs % 60 % 10)] := by
    unfold TimezoneInterceptor.getGMTOffset
    dsimp only
    rw [padStart2_digits _ hH, padStart2_digits _ hM]
    by_cases hpos : profile.offset > 0
    · rw [if_neg (not_le.mpr hpos), if_pos hpos]
      rfl
    · rw [if_pos (not_lt.mp hpos), if_neg hpos]
      rfl
  refine ⟨key, ?_, ?_, ?_, ?_⟩
  · rw [key]
    rfl
  · rw [key]
    obtain ⟨a1, a2⟩ := digitChar_value (profile.offset.natAbs / 60 / 10) (by omega)
    obtain ⟨b1, b2⟩ := digitChar_value (profile.offset.natAbs / 60 % 10) (by omega)
    obtain ⟨c1, c2⟩ := digitChar_value (profile.offset.natAbs % 60 / 10) (by omega)
    obtain ⟨d1, d2⟩ := digitChar_value (profile.offset.natAbs % 60 % 10) (by omega)
    have hnat := Int.natCast_natAbs profile.offset
    have e1 := Nat.div_add_mod (profile.offset.natAbs / 60) 10
    have e2 := Nat.div_add_mod (profile.offset.natAbs % 60) 10
    have e3 := Nat.div_add_mod profile.offset.natAbs 60
    by_cases hpos : profile.offset > 0
    · rw [if_pos hpos]
      unfold readGMTOffset
      simp only [String.toList, a1, b1, c1, d1, Bool.and_self, if_true]
      rw [if_neg (by decide : ¬ ('-' : Char) = '+')]
      congr 1
      rw [abs_of_pos hpos] at hnat
      generalize profile.offset.natAbs / 60 / 10 = p at *
      generalize profile.offset.natAbs / 60 % 10 = q at *
      generalize profile.offset.natAbs % 60 / 10 = r at *
      generalize profile.offset.natAbs % 60 % 10 = t at *
      generalize profile.offset.natAbs / 60 = H at *
      generalize profile.offset.natAbs % 60 = M at *
      generalize profile.offset.natAbs = N at *
      clear hrange key
      omega
    · rw [if_neg hpos]
      unfold readGMTOffset
      simp only [String.toList, a1, b1, c1, d1, Bool.and_self, if_true]
      congr 1
      rw [abs_of_nonpos (not_lt.mp hpos)] at hnat
      generalize profile.offset.natAbs / 60 / 10 = p at *
      generalize profile.offset.natAbs / 60 % 10 = q at *
      generalize profile.offset.natAbs % 60 / 10 = r at *
      generalize profile.offset.natAbs % 60 % 10 = t at *
      generalize profile.offset.natAbs / 60 = H at *
      generalize profile.offset.natAbs % 60 = M at *
      generalize profile.offset.natAbs = N at *
      clear hrange key
      omega
  · unfold TimezoneInterceptor.getGMTOffset
    dsimp only
    decide!
  · unfold TimezoneInterceptor.getGMTOffset
    dsimp only
    decide!

/-- Witness of C20: the offset `-60` of `Europe/Paris`. -/
theorem gmt_offset_sign_convention_witness :
    TimezoneInterceptor.getGMTOffset demoTimezone = "+0100" ∧
    readGMTOffset (TimezoneInterceptor.getGMTOffset demoTimezone) = some (-60) :=
  have key := gmt_offset_sign_convention demoTimezone (by decide)
  ⟨key.2.2.2.1, key.2.2.1⟩

/-! ## Weighted selection and weights of zero -/

theorem runningSum_pos {α : Type} (w : α → ℚ) (last : Option α) :
    ∀ (items : List α) (r : ℚ), (∀ a ∈ items, 0 ≤ w a) → 0 < r → r ≤ (items.map w).sum →
      ∃ item ∈ items,
        (match firstReach (items.map w) r with
          | some k => items.get? k
          | none => last) = some item ∧ 0 < w item := by
  intro items
  induction items with
  | nil =>
    intro r _ hr hsum
    simp only [List.map_nil, List.sum_nil] at hsum
    exact absurd hr (not_lt.mpr hsum)
  | cons a rest ih =>
    intro r hw hr hsum
    simp only [List.map_cons, List.sum_cons] at hsum
    rw [List.map_cons, firstReach_cons]
    by_cases hle : r ≤ w a
    · rw [if_pos hle]
      exact ⟨a, List.mem_cons_self _ _, rfl, by linarith⟩
    · rw [if_neg hle]
      obtain ⟨item, hmem, hsel, hpos⟩ := ih (r - w a)
        (fun b hb => hw b (List.mem_cons_of_mem _ hb)) (by linarith) (by linarith)
      refine ⟨item, List.mem_cons_of_mem _ hmem, ?_, hpos⟩
      rw [← hsel]
      cases firstReach (rest.map w) (r - w a) <;> simp

/-- C30 (counterexample): first, the items `z` of weight 0 and `b` of weight 1 (non-negative
weights, total 1) and the draw `u = 0`: `r = 0`, and the first item `z` is returned. Second,
the weights are the doubles nearest to `0.15`, `0.25`, `0.01`, and `0`, and the draw is
`1 - 2^-53`, strictly between 0 and 1: the rounded remainders stay positive through the whole
loop, and the last item, of weight 0, is returned. -/
theorem zero_weight_counterexample :
    (selectWeighted Draw.archetype (fun a : String × ℚ => some a.2) [("z", 0), ("b", 1)]
        (constantRng 0)).map Prod.fst = .ok (some ("z", 0)) ∧
    (∀ item ∈ fallThroughItems, IsDouble item.2 ∧ 0 ≤ item.2) ∧
    0 < (fallThroughItems.map (fun a : String × ℚ => a.2)).sum ∧
    IsDouble fallThroughDraw ∧ 0 < fallThroughDraw ∧ fallThroughDraw < 1 ∧
    (selectWeighted Draw.archetype (fun a : String × ℚ => some a.2) fallThroughItems
        (constantRng fallThroughDraw)).map Prod.fst = .ok (some ("d", 0)) := by
  refine ⟨by decide!, by decide!, by decide!, by decide!, by decide!, by decide!, by decide!⟩

/-- C30 (amended): for every list of items with non-negative weights and positive total weight
and every draw `u` with `0 < u < 1`, when no operation rounds (the draw, the weights, their
running sums, `r = u * totalWeight` and the remainders are doubles), the item `selectWeighted`
returns is an item of the list with strictly positive weight; for the draw `u = 0`, when no
operation rounds, it returns the first item of the list. -/
theorem selectWeighted_positive_weight {α : Type} (d : Draw) (w : α → ℚ) (items : List α)
    (s : RngState) (hw : ∀ a ∈ items, 0 ≤ w a) (htotal : 0 < (items.map w).sum)
    (h0 : 0 < s.stream s.pos) (h1 : s.stream s.pos < 1)
    (hexact : ExactSelection (items.map w) (s.stream s.pos)) :
    (∃ item ∈ items,
      (selectWeighted d (fun a => some (w a)) items s).map Prod.fst = .ok (some item)
        ∧ 0 < w item) ∧
    (∀ s0 : RngState, s0.stream s0.pos = 0 → ExactSelection (items.map w) 0 →
      (selectWeighted d (fun a => some (w a)) items s0).map Prod.fst = .ok items.head?) := by
  constructor
  · obtain ⟨item, hmem, hsel, hpos⟩ := runningSum_pos w items.getLast? items
      (s.stream s.pos * (items.map w).sum) hw (mul_pos h0 htotal)
      (by nlinarith)
    have hrun : selectByRunningSum w items (s.stream s.pos * (items.map w).sum) = some item :=
      hsel
    refine ⟨item, hmem, ?_, hpos⟩
    rw [selectWeighted_run, selectWeightedAt_exact w items _ hexact, hrun]
    rfl
  · intro s0 hs0 hexact0
    rw [selectWeighted_run, hs0, selectWeightedAt_exact w items 0 hexact0]
    unfold selectByRunningSum
    cases items with
    | nil => rfl
    | cons a rest =>
      have ha : 0 * ((a :: rest).map w).sum ≤ w a := by
        have := hw a (List.mem_cons_self _ _)
        simpa using this
      rw [List.map_cons, firstReach_cons, if_pos (by simpa using ha)]
      rfl

/-- Witness of C30: the weights 0, 1, 1 and the draw `1/2`; nothing is rounded. -/
theorem selectWeighted_positive_weight_witness :
    ∃ item ∈ [(("z", 0) : String × ℚ), ("b", 1), ("c", 1)],
      (selectWeighted Draw.archetype (fun a : String × ℚ => some a.2)
        [("z", 0), ("b", 1), ("c", 1)] (constantRng (1 / 2))).map Prod.fst = .ok (some item)
        ∧ 0 < item.2 :=
  (selectWeighted_positive_weight Draw.archetype (fun a : String × ℚ => a.2)
    [("z", 0), ("b", 1), ("c", 1)] (constantRng (1 / 2))
    (by decide!) (by decide!) (by decide!) (by decide!) (by decide!)).1

/-! ## The canvas fields of a generated profile -/

theorem unit_of_stream {α : Type} {m : Gen α}
    (hm : ∀ s a s', m s = .ok (a, s') → s'.stream = s.stream) :
    Triple UnitStream m (fun _ s => True ∧ UnitStream s) := by
  intro s hs a s' hrun
  refine ⟨trivial, fun n => ?_⟩
  rw [hm s a s' hrun]
  exact hs n

theorem unit_rng (d : Draw) :
    Triple UnitStream (rng d) (fun u s => (0 ≤ u ∧ u < 1) ∧ UnitStream s) := by
  intro s hs a s' hrun
  rw [rng_run] at hrun
  cases hrun
  exact ⟨hs s.pos, hs⟩

theorem unit_selectWeighted {α : Type} (d : Draw) (weight : α → JSNum) (items : List α) :
    Triple UnitStream (selectWeighted d weight items) (fun _ s => True ∧ UnitStream s) :=
  unit_of_stream (fun s a s' hrun => by rw [selectWeighted_run] at hrun; cases hrun; rfl)

theorem unit_selectFromArray {α : Type} (d : Draw) (array : List α) :
    Triple UnitStream (selectFromArray d array) (fun _ s => True ∧ UnitStream s) :=
  unit_of_stream (fun s a s' hrun => by rw [selectFromArray_run] at hrun; cases hrun; rfl)

theorem unit_deref {α : Type} (what : String) (v : Option α) :
    Triple UnitStream (deref what v) (fun _ s => True ∧ UnitStream s) := by
  intro s hs a s' hrun
  exact ⟨trivial, (triple_deref UnitStream what v s hs a s' hrun).2⟩

theorem unit_sortRandom (h : Host) (d : Draw) (array : List String) :
    Triple UnitStream (sortRandom h d array) (fun _ s => True ∧ UnitStream s) :=
  unit_of_stream (fun s a s' hrun => by unfold sortRandom at hrun; cases hrun; rfl)

theorem unit_skip {α β : Type} {m : Gen α} {f : α → Gen β} {Q : β → RngState → Prop}
    (hm : Triple UnitStream m (fun _ s => True ∧ UnitStream s))
    (hf : ∀ a, Triple UnitStream (f a) Q) : Triple UnitStream (m >>= f) Q :=
  triple_bind (fun _ => True) UnitStream hm (fun a _ => hf a)

theorem unit_fontLoop (n : ℕ) :
    ∀ (availableFonts : List String) (selectedFonts : List (Option String)),
      Triple UnitStream (fontLoop n availableFonts selectedFonts)
        (fun _ s => True ∧ UnitStream s) := by
  induction n with
  | zero => exact fun _ _ => triple_pure (fun _ hs => ⟨trivial, hs⟩)
  | succ k ih =>
    intro availableFonts selectedFonts
    unfold fontLoop
    refine triple_ite (fun _ => ?_) (fun _ => triple_pure (fun _ hs => ⟨trivial, hs⟩))
    exact unit_skip (fun s hs a s' hrun => ⟨trivial, (unit_rng _ s hs a s' hrun).2⟩)
      (fun _ => ih _ _)

theorem main_generate_canvas (h : Host) (w : World) (K : ProfilesData) (S : String) :
    Triple UnitStream (Main.generate h w K S) (fun p _ =>
      5 / 100000 ≤ p.canvas.noise ∧ p.canvas.noise < 15 / 100000 ∧
      (p.canvas.offsetX = -1 ∨ p.canvas.offsetX = 0 ∨ p.canvas.offsetX = 1) ∧
      (p.canvas.offsetY = -1 ∨ p.canvas.offsetY = 0 ∨ p.canvas.offsetY = 1)) := by
  have hrng : ∀ d, Triple UnitStream (rng d) (fun _ s => True ∧ UnitStream s) :=
    fun d s hs a s' hrun => ⟨trivial, (unit_rng d s hs a s' hrun).2⟩
  unfold Main.generate
  refine unit_skip (unit_selectWeighted _ _ _) (fun _ => ?_)
  refine unit_skip (unit_deref _ _) (fun _ => ?_)
  refine unit_skip (unit_selectWeighted _ _ _) (fun _ => ?_)
  refine unit_skip (unit_deref _ _) (fun _ => ?_)
  refine unit_skip (unit_selectFromArray _ _) (fun _ => ?_)
  refine unit_skip (unit_selectFromArray _ _) (fun _ => ?_)
  refine unit_skip (unit_deref _ _) (fun _ => ?_)
  refine unit_skip (unit_selectFromArray _ _) (fun _ => ?_)
  refine unit_skip (unit_selectWeighted _ _ _) (fun _ => ?_)
  refine unit_skip (unit_selectWeighted _ _ _) (fun _ => ?_)
  refine unit_skip (unit_deref _ _) (fun _ => ?_)
  refine unit_skip (unit_selectWeighted _ _ _) (fun _ => ?_)
  refine unit_skip (unit_deref _ _) (fun _ => ?_)
  refine unit_skip (unit_selectWeighted _ _ _) (fun _ => ?_)
  refine unit_skip (unit_selectWeighted _ _ _) (fun _ => ?_)
  refine unit_skip (unit_deref _ _) (fun _ => ?_)
  dsimp only
  refine unit_skip ?_ (fun _ => ?_)
  · refine triple_ite (fun _ => ?_) (fun _ => triple_pure (fun _ hs => ⟨trivial, hs⟩))
    exact unit_skip (unit_selectFromArray _ _)
      (fun _ => triple_pure (fun _ hs => ⟨trivial, hs⟩))
  refine unit_skip ?_ (fun _ => ?_)
  · refine triple_ite (fun _ => ?_) (fun _ => triple_pure (fun _ hs => ⟨trivial, hs⟩))
    exact unit_skip (hrng _) (fun _ => triple_pure (fun _ hs => ⟨trivial, hs⟩))
  dsimp only
  refine unit_skip (hrng _) (fun _ => ?_)
  refine unit_skip (unit_fontLoop _ _ _) (fun _ => ?_)
  refine unit_skip (unit_deref _ _) (fun _ => ?_)
  refine unit_skip (unit_deref _ _) (fun _ => ?_)
  refine unit_skip (unit_sortRandom _ _ _) (fun _ => ?_)
  refine triple_bind _ _ (unit_rng _) (fun u hu => ?_)
  refine triple_bind _ _ (unit_rng _) (fun v hv => ?_)
  refine triple_bind _ _ (unit_rng _) (fun t ht => ?_)
  refine triple_skip (fun _ => ?_)
  refine triple_skip (fun _ => ?_)
  refine triple_pure (fun _ _ => ?_)
  have hfloor : ∀ x : ℚ, 0 ≤ x → x < 1 →
      (⌊x * 3⌋ - 1 = -1 ∨ ⌊x * 3⌋ - 1 = 0 ∨ ⌊x * 3⌋ - 1 = 1) := by
    intro x hx0 hx1
    have h0 : 0 ≤ ⌊x * 3⌋ := Int.floor_nonneg.mpr (by linarith)
    have h3 : ⌊x * 3⌋ < 3 := Int.floor_lt.mpr (by push_cast; linarith)
    omega
  refine ⟨?_, ?_, hfloor v hv.1 hv.2, hfloor t ht.1 ht.2⟩
  · show (5 : ℚ) / 100000 ≤ u * (1 / 10000) + 5 / 100000
    linarith [hu.1]
  · show u * (1 / 10000) + 5 / 100000 < (15 : ℚ) / 100000
    linarith [hu.2]

theorem main_canvas_of_invoke {h : Host} {w : World} {K : ProfilesData} {S : String}
    {p : Main.Profile} (hu : h.UnitRange S) (hp : Main.invoke h w K S = .ok p) :
    5 / 100000 ≤ p.canvas.noise ∧ p.canvas.noise < 15 / 100000 ∧
    (p.canvas.offsetX = -1 ∨ p.canvas.offsetX = 0 ∨ p.canvas.offsetX = 1) ∧
    (p.canvas.offsetY = -1 ∨ p.canvas.offsetY = 0 ∨ p.canvas.offsetY = 1) := by
  obtain ⟨s', hrun⟩ := invoke_ok_main hp
  exact main_generate_canvas h w K S (newRng h S) hu p s' hrun

/-! ## The noise on image data is below half a unit -/

theorem perturbation_small (noise u : ℚ) (hlo : 5 / 100000 ≤ noise) (hhi : noise < 15 / 100000)
    (h0 : 0 ≤ u) (h1 : u < 1) : |(u - 1 / 2) * noise * 255| < 1 / 2 := by
  rw [abs_lt]
  constructor <;> nlinarith

theorem clamp_near (b : ℤ) (p : ℚ) (hb0 : 0 ≤ b) (hb1 : b ≤ 255) (hp : |p| < 1 / 2) :
    CanvasInterceptor.clamp ((b : ℚ) + p) = b := by
  obtain ⟨hp1, hp2⟩ := abs_lt.mp hp
  have hfloor : ⌊(b : ℚ) + p + 1 / 2⌋ = b := by
    rw [Int.floor_eq_iff]
    constructor <;> linarith
  unfold CanvasInterceptor.clamp
  rw [hfloor, min_eq_right hb1, max_eq_right hb0]

theorem set_get_self {α : Type} : ∀ (l : List α) (n : ℕ) (a : α),
    l.get? n = some a → l.set n a = l := by
  intro l
  induction l with
  | nil => intro n a h; cases n <;> cases h
  | cons x xs ih =>
    intro n a h
    cases n with
    | zero =>
      simp only [List.get?_cons_zero, Option.some.injEq] at h
      rw [h]
      rfl
    | succ k =>
      simp only [List.get?_cons_succ] at h
      simp only [List.set_cons_succ]
      rw [ih k a h]

theorem addNoise_id (noise : ℚ) (hnoise : |noise| < 1 / 2) (data : List ℤ) (index : ℤ)
    (hdata : ∀ b ∈ data, 0 ≤ b ∧ b ≤ 255) :
    CanvasInterceptor.addNoise noise data index = data := by
  unfold CanvasInterceptor.addNoise
  split
  · split
    · rename_i byte hget
      have hmem : byte ∈ data := List.get?_mem hget
      rw [clamp_near byte noise (hdata byte hmem).1 (hdata byte hmem).2 hnoise]
      exact set_get_self data _ byte hget
    · rfl
  · rfl

theorem noiseLoop_id (profile : Main.CanvasProfile) (hlo : 5 / 100000 ≤ profile.noise)
    (hhi : profile.noise < 15 / 100000) (data : List ℤ)
    (hdata : ∀ b ∈ data, 0 ≤ b ∧ b ≤ 255) (count : ℕ) :
    ∀ s : RngState, UnitStream s →
      ∃ s', CanvasInterceptor.noiseLoop profile count data s = .ok (data, s') := by
  induction count with
  | zero => exact fun s _ => ⟨s, rfl⟩
  | succ count ih =>
    intro s hs
    unfold CanvasInterceptor.noiseLoop
    rw [bind_ok (rng_run _ _), bind_ok (rng_run _ _)]
    dsimp only
    have hsmall := perturbation_small profile.noise (s.stream (s.pos + 1)) hlo hhi
      (hs (s.pos + 1)).1 (hs (s.pos + 1)).2
    rw [addNoise_id _ hsmall data _ hdata, addNoise_id _ hsmall data _ hdata,
      addNoise_id _ hsmall data _ hdata]
    exact ih _ hs

/-- C28: for a noise amplitude in `[0.00005, 0.00015)`, every draw `u` in `[0, 1)` and every
integer `b` in `[0, 255]`, the perturbation `(u - 0.5) * noise * 255` is below `0.5` in absolute
value and `clamp(b + perturbation) = b`; so `applyImageDataNoise`, from a generator whose
numbers lie in `[0, 1)`, returns the bytes of the image data as they were. The amplitude
`canvas.noise` of every profile `generate` returns lies in that interval. -/
theorem image_noise_keeps_bytes (profile : Main.CanvasProfile)
    (hlo : 5 / 100000 ≤ profile.noise) (hhi : profile.noise < 15 / 100000) :
    (∀ u : ℚ, 0 ≤ u → u < 1 → |(u - 1 / 2) * profile.noise * 255| < 1 / 2) ∧
    (∀ (u : ℚ) (b : ℤ), 0 ≤ u → u < 1 → 0 ≤ b → b ≤ 255 →
      CanvasInterceptor.clamp ((b : ℚ) + (u - 1 / 2) * profile.noise * 255) = b) ∧
    (∀ (s : RngState) (data : List ℤ), UnitStream s → (∀ b ∈ data, 0 ≤ b ∧ b ≤ 255) →
      ∃ s', CanvasInterceptor.applyImageDataNoise profile data s = .ok (data, s')) ∧
    (∀ (h : Host) (w : World) (K : ProfilesData) (S : String) (p : Main.Profile),
      h.UnitRange S → Main.invoke h w K S = .ok p →
      5 / 100000 ≤ p.canvas.noise ∧ p.canvas.noise < 15 / 100000) := by
  refine ⟨fun u h0 h1 => perturbation_small _ u hlo hhi h0 h1,
    fun u b h0 h1 hb0 hb1 => clamp_near b _ hb0 hb1 (perturbation_small _ u hlo hhi h0 h1),
    fun s data hs hdata => ?_,
    fun h w K S p hu hp => ⟨(main_canvas_of_invoke hu hp).1, (main_canvas_of_invoke hu hp).2.1⟩⟩
  unfold CanvasInterceptor.applyImageDataNoise
  rw [bind_ok (rng_run _ _)]
  exact noiseLoop_id profile hlo hhi data hdata _ _ hs

/-- Witness of C28: the amplitude `0.0001` and eight bytes, with the generator the canvas
interceptor makes for the seed of sixty-four `a`. -/
theorem image_noise_keeps_bytes_witness :
    ∃ s', CanvasInterceptor.applyImageDataNoise demoCanvasProfile
        [0, 128, 255, 7, 0, 0, 0, 255] (CanvasInterceptor.newRng demoHost seedA)
      = .ok ([0, 128, 255, 7, 0, 0, 0, 255], s') :=
  (image_noise_keeps_bytes demoCanvasProfile (by decide!) (by decide!)).2.2.1
    (CanvasInterceptor.newRng demoHost seedA) [0, 128, 255, 7, 0, 0, 0, 255]
    (demoHost_unitRange _) (by decide)

/-! ## The place of the noise pixel -/

/-- C29 at the failing input: the generator returns `canvas.offsetY = 1` for the seed `bc`, and
with an offset of `1` the rectangle `applyCanvasNoise` fills starts at `x = width` (or
`y = height`), outside the canvas, whatever its size; on the canvas of 300 by 150 with the
offsets `(1, -1)` it is at `(300, 148)`. -/
theorem noise_pixel_outside_canvas :
    (Main.invoke demoHost (demoWorld 0) demoData "bc").toOption.map
        (fun p => (p.canvas.offsetX, p.canvas.offsetY)) = some (-1, 1) ∧
    (∀ (canvas : CanvasInterceptor.Canvas) (noise : ℚ) (offsetY : ℤ) (σ : ℕ → ℚ) (n : ℕ),
      insideCanvas (CanvasInterceptor.fillAt
        { noise := noise, offsetX := 1, offsetY := offsetY } canvas σ n) canvas = false) ∧
    (∀ (canvas : CanvasInterceptor.Canvas) (noise : ℚ) (offsetX : ℤ) (σ : ℕ → ℚ) (n : ℕ),
      insideCanvas (CanvasInterceptor.fillAt
        { noise := noise, offsetX := offsetX, offsetY := 1 } canvas σ n) canvas = false) ∧
    (CanvasInterceptor.applyCanvasNoise demoCanvasProfile demoCanvas
        (CanvasInterceptor.newRng demoHost seedA)).toOption.map
      (fun r => r.1.map (fun fill => (fill.x, fill.y, insideCanvas fill demoCanvas)))
      = some (some (300, 148, false)) := by
  refine ⟨by decide!, fun canvas noise offsetY σ n => ?_, fun canvas noise offsetX σ n => ?_,
    by decide!⟩
  · simp only [insideCanvas, CanvasInterceptor.fillAt, decide_eq_false_iff_not]
    omega
  · simp only [insideCanvas, CanvasInterceptor.fillAt, decide_eq_false_iff_not]
    omega

/-! ## The interceptors in `initialize` -/

theorem applyModule_fst {μ : Type} (moduleName : String) (moduleClass : Main.ModuleClass μ)
    (constructorArgs : Option Main.Profile) (calls : List Main.Call) :
    (Main.applyModule moduleName moduleClass constructorArgs calls).1
      = moduleClass.succeeds constructorArgs := by
  unfold Main.applyModule Main.ModuleClass.succeeds
  cases moduleClass.construct constructorArgs with
  | error e => rfl
  | ok module =>
    dsimp only
    cases moduleClass.apply module with
    | error e => rfl
    | ok r => cases r <;> rfl

theorem applyModule_snd {μ : Type} (moduleName : String) (moduleClass : Main.ModuleClass μ)
    (constructorArgs : Option Main.Profile) (calls : List Main.Call) :
    (Main.applyModule moduleName moduleClass constructorArgs calls).2
      = calls ++ Main.slotCalls (moduleName, moduleName, some moduleClass, constructorArgs) := by
  unfold Main.applyModule Main.slotCalls
  dsimp only
  cases moduleClass.construct constructorArgs with
  | error e => rfl
  | ok module =>
    dsimp only
    cases moduleClass.apply module with
    | error e => simp
    | ok r => cases r <;> simp

theorem installModule_eq {μ : Type} (key moduleName : String)
    (moduleClass : Option (Main.ModuleClass μ)) (constructorArgs : Option Main.Profile)
    (acc : List (String × μ) × List Main.Call) :
    Main.installModule key moduleName moduleClass constructorArgs acc
      = (acc.1 ++ Main.slotModule (key, moduleName, moduleClass, constructorArgs),
         acc.2 ++ Main.slotCalls (key, moduleName, moduleClass, constructorArgs)) := by
  cases moduleClass with
  | none => simp [Main.installModule, Main.slotModule, Main.slotCalls]
  | some c =>
    have h1 := applyModule_fst moduleName c constructorArgs acc.2
    have h2 := applyModule_snd moduleName c constructorArgs acc.2
    unfold Main.installModule
    dsimp only
    cases hr : Main.applyModule moduleName c constructorArgs acc.2 with
    | mk m calls =>
      rw [hr] at h1 h2
      dsimp only at h1 h2
      have hcalls : Main.slotCalls (key, moduleName, some c, constructorArgs)
          = Main.slotCalls (moduleName, moduleName, some c, constructorArgs) := rfl
      cases m with
      | none =>
        dsimp only
        rw [h2, hcalls]
        simp [Main.slotModule, ← h1]
      | some module =>
        dsimp only
        rw [h2, hcalls]
        simp [Main.slotModule, ← h1]

theorem initializeMain_ok {μ : Type} (h : Host) (w : World) (window : Main.Window μ)
    (initData : Main.InitData) (profile : Main.Profile)
    (hinit : window.initData.orElse (fun _ => window.initDataAfterWait) = some initData)
    (hgen : Main.invoke h w initData.profilesData initData.sessionSeed = .ok profile) :
    (Main.initializeMain h w window).state.modules
      = (Main.moduleSlots window profile).flatMap Main.slotModule ∧
    (Main.initializeMain h w window).calls
      = (Main.moduleSlots window profile).flatMap Main.slotCalls ∧
    (Main.initializeMain h w window).state.initialized = true := by
  unfold Main.initializeMain
  rw [hinit]
  dsimp only
  rw [hgen]
  dsimp only
  simp only [installModule_eq, Main.moduleSlots, List.flatMap_cons, List.flatMap_nil, List.nil_append,
    List.append_nil, List.append_assoc, and_self]

/-- C24: when the initial data are there and the generator returns a profile, `initialize`
visits the seven classes in the order MetaProxy, Navigator, Screen, Canvas, WebGL, Audio,
Timezone, and whatever happens to the others, it constructs every class that is present and
calls `apply()` on every module whose constructor returned. `applyModule` returns `null`
exactly for a class whose constructor or `apply()` throws or whose `apply()` returns `false`;
at the end `ChameleonState.modules` holds, under their keys and in that order, exactly the
modules of the present classes that did not fail, and `ChameleonState.initialized` is `true`. -/
theorem modules_applied_independently {μ : Type} (h : Host) (w : World)
    (window : Main.Window μ) (initData : Main.InitData) (profile : Main.Profile)
    (hinit : window.initData.orElse (fun _ => window.initDataAfterWait) = some initData)
    (hgen : Main.invoke h w initData.profilesData initData.sessionSeed = .ok profile) :
    (Main.initializeMain h w window).state.modules
      = (Main.moduleSlots window profile).flatMap Main.slotModule ∧
    (Main.initializeMain h w window).calls
      = (Main.moduleSlots window profile).flatMap Main.slotCalls ∧
    (Main.initializeMain h w window).state.initialized = true ∧
    (∀ slot ∈ Main.moduleSlots window profile, ∀ moduleClass, slot.2.2.1 = some moduleClass →
      Main.Call.construct slot.2.1 ∈ (Main.initializeMain h w window).calls ∧
      (∀ module, moduleClass.construct slot.2.2.2 = .ok module →
        Main.Call.apply slot.2.1 ∈ (Main.initializeMain h w window).calls) ∧
      (∀ module, moduleClass.succeeds slot.2.2.2 = some module →
        (slot.1, module) ∈ (Main.initializeMain h w window).state.modules)) ∧
    (∀ key module, (key, module) ∈ (Main.initializeMain h w window).state.modules →
      ∃ slot ∈ Main.moduleSlots window profile, ∃ moduleClass,
        slot.1 = key ∧ slot.2.2.1 = some moduleClass ∧
        moduleClass.succeeds slot.2.2.2 = some module) ∧
    (∀ (moduleName : String) (moduleClass : Main.ModuleClass μ)
      (constructorArgs : Option Main.Profile) (calls : List Main.Call),
      (Main.applyModule moduleName moduleClass constructorArgs calls).1
        = moduleClass.succeeds constructorArgs ∧
      (moduleClass.succeeds constructorArgs = none ↔
        (∃ e, moduleClass.construct constructorArgs = .error e) ∨
        (∃ module, moduleClass.construct constructorArgs = .ok module ∧
          ((∃ e, moduleClass.apply module = .error e) ∨
            moduleClass.apply module = .ok Main.ApplyResult.isFalse)))) := by
  obtain ⟨hmod, hcalls, hinitd⟩ := initializeMain_ok h w window initData profile hinit hgen
  refine ⟨hmod, hcalls, hinitd, fun slot hslot c hc => ⟨?_, fun module hm => ?_,
    fun module hm => ?_⟩, fun key module hmem => ?_, fun name c args calls =>
    ⟨applyModule_fst name c args calls, ?_⟩⟩
  · rw [hcalls, List.mem_flatMap]
    refine ⟨slot, hslot, ?_⟩
    unfold Main.slotCalls
    rw [hc]
    dsimp only
    cases c.construct slot.2.2.2 <;> simp
  · rw [hcalls, List.mem_flatMap]
    refine ⟨slot, hslot, ?_⟩
    unfold Main.slotCalls
    rw [hc]
    dsimp only
    rw [hm]
    simp
  · rw [hmod, List.mem_flatMap]
    refine ⟨slot, hslot, ?_⟩
    unfold Main.slotModule
    rw [hc]
    dsimp only
    rw [hm]
    simp
  · rw [hmod, List.mem_flatMap] at hmem
    obtain ⟨slot, hslot, hin⟩ := hmem
    refine ⟨slot, hslot, ?_⟩
    unfold Main.slotModule at hin
    cases hc : slot.2.2.1 with
    | none => rw [hc] at hin; cases hin
    | some c =>
      rw [hc] at hin
      dsimp only at hin
      cases hs : c.succeeds slot.2.2.2 with
      | none => rw [hs] at hin; cases hin
      | some m =>
        rw [hs] at hin
        simp only [List.mem_singleton, Prod.mk.injEq] at hin
        exact ⟨c, hin.1.symm, rfl, by rw [hin.2]; exact hs⟩
  · unfold Main.ModuleClass.succeeds
    cases hc : c.construct args with
    | error e => simp
    | ok module =>
      dsimp only
      cases ha : c.apply module with
      | error e => simp [ha]
      | ok r => cases r <;> simp [ha]

/-- Witness of C24: the meta-proxy returns `false`, the audio class throws, the WebGL class is
absent; the four other modules are applied and stored. -/
theorem modules_applied_independently_witness :
    (Main.initializeMain demoHost (demoWorld 0) (demoWindow demoData seedA)).state.modules
      = [("navigator", "Navigator"), ("screen", "Screen"), ("canvas", "Canvas"),
         ("timezone", "Timezone")] ∧
    (Main.initializeMain demoHost (demoWorld 0) (demoWindow demoData seedA)).calls
      = [Main.Call.construct "MetaProxy", Main.Call.apply "MetaProxy",
         Main.Call.construct "Navigator", Main.Call.apply "Navigator",
         Main.Call.construct "Screen", Main.Call.apply "Screen",
         Main.Call.construct "Canvas", Main.Call.apply "Canvas",
         Main.Call.construct "Audio", Main.Call.apply "Audio",
         Main.Call.construct "Timezone", Main.Call.apply "Timezone"] ∧
    (Main.initializeMain demoHost (demoWorld 0) (demoWindow demoData seedA)).state.initialized
      = true := by
  obtain ⟨p, hp⟩ : ∃ p, Main.invoke demoHost (demoWorld 0) demoData seedA = .ok p :=
    ok_of_isSome (by decide!)
  have key := modules_applied_independently demoHost (demoWorld 0) (demoWindow demoData seedA)
    { profilesData := demoData, sessionSeed := seedA } p rfl hp
  refine ⟨?_, ?_, key.2.2.1⟩
  · rw [key.1]
    rfl
  · rw [key.2.1]
    rfl

/-- C25: when the generator throws, `initialize` makes no call into an interceptor class (no
constructor, no `apply()`), `ChameleonState.modules` stays empty and
`ChameleonState.initialized` stays `false`; the event dispatched is `chameleonError`. The same
holds when the initial data are missing. -/
theorem generation_failure_applies_nothing {μ : Type} (h : Host) (w : World)
    (window : Main.Window μ) (initData : Main.InitData) (error : JSError)
    (hinit : window.initData.orElse (fun _ => window.initDataAfterWait) = some initData)
    (hgen : Main.invoke h w initData.profilesData initData.sessionSeed = .error error) :
    (Main.initializeMain h w window).calls = [] ∧
    (Main.initializeMain h w window).state.modules = [] ∧
    (Main.initializeMain h w window).state.initialized = false ∧
    (Main.initializeMain h w window).event
      = Main.Notice.chameleonError (Main.Failure.thrown error) ∧
    (∀ window0 : Main.Window μ, window0.initData = none → window0.initDataAfterWait = none →
      (Main.initializeMain h w window0).calls = [] ∧
      (Main.initializeMain h w window0).state.modules = [] ∧
      (Main.initializeMain h w window0).state.initialized = false) := by
  refine ⟨?_, ?_, ?_, ?_, fun window0 h1 h2 => ?_⟩
  · unfold Main.initializeMain
    rw [hinit]
    dsimp only
    rw [hgen]
  · unfold Main.initializeMain
    rw [hinit]
    dsimp only
    rw [hgen]
  · unfold Main.initializeMain
    rw [hinit]
    dsimp only
    rw [hgen]
  · unfold Main.initializeMain
    rw [hinit]
    dsimp only
    rw [hgen]
  · unfold Main.initializeMain
    rw [h1, h2]
    exact ⟨rfl, rfl, rfl⟩

/-- Witness of C25: the knowledge base whose only archetype has no GPU entry. -/
theorem generation_failure_applies_nothing_witness :
    (Main.initializeMain demoHost (demoWorld 0) (demoWindow noGpuData seedA)).calls = [] ∧
    (Main.initializeMain demoHost (demoWorld 0) (demoWindow noGpuData seedA)).state.modules
      = [] ∧
    (Main.initializeMain demoHost (demoWorld 0) (demoWindow noGpuData seedA)).state.initialized
      = false := by
  have herr : ∃ e, Main.invoke demoHost (demoWorld 0) noGpuData seedA = .error e := by
    cases hr : Main.invoke demoHost (demoWorld 0) noGpuData seedA with
    | error e => exact ⟨e, rfl⟩
    | ok p =>
      have hnone : (Main.invoke demoHost (demoWorld 0) noGpuData seedA).toOption.isSome
          = false := by decide!
      rw [hr] at hnone
      cases hnone
  obtain ⟨e, he⟩ := herr
  have key := generation_failure_applies_nothing demoHost (demoWorld 0)
    (demoWindow noGpuData seedA) { profilesData := noGpuData, sessionSeed := seedA } e rfl he
  exact ⟨key.1, key.2.1, key.2.2.1⟩

/-! ## The delay of the jitter -/

/-- C26 at the failing input: for the category names `constructor` and `toString`, members
every object inherits, `this.config[category]` is a function without the fields `mean`,
`stdDev`, `min` and `max`, and `generateDelay` returns `NaN` for every sample; it is not in the
window of `default`. For the category `canvas` every delay lies in `[1, 10]`, and for a name
that is no property of the table (`keyboard`) in the window `[1, 5]` of `default`. -/
theorem jitter_delay_inherited_category :
    (∀ z0 : ℚ, JitterManager.generateDelay z0 "constructor" = none) ∧
    (∀ z0 : ℚ, JitterManager.generateDelay z0 "toString" = none) ∧
    (∀ z0 : ℚ, ∃ d, JitterManager.generateDelay z0 "canvas" = some d ∧ 1 ≤ d ∧ d ≤ 10) ∧
    (∀ z0 : ℚ, ∃ d, JitterManager.generateDelay z0 "keyboard" = some d ∧ 1 ≤ d ∧ d ≤ 5) := by
  have h1 : JitterManager.configOf "constructor"
      = some { mean := none, stdDev := none, min := none, max := none } := by decide!
  have h2 : JitterManager.configOf "toString"
      = some { mean := none, stdDev := none, min := none, max := none } := by decide!
  have h3 : JitterManager.configOf "canvas"
      = some { mean := some 4, stdDev := some (3 / 2), min := some 1, max := some 10 } := by
    decide!
  have h4 : JitterManager.configOf "keyboard" = none := by decide!
  have h5 : JitterManager.configOf "default"
      = some { mean := some 2, stdDev := some (2 / 5), min := some 1, max := some 5 } := by
    decide!
  refine ⟨fun z0 => ?_, fun z0 => ?_, fun z0 => ?_, fun z0 => ?_⟩
  · unfold JitterManager.generateDelay
    rw [h1]
    rfl
  · unfold JitterManager.generateDelay
    rw [h2]
    rfl
  · unfold JitterManager.generateDelay
    rw [h3]
    exact ⟨_, rfl, le_max_left _ _, max_le (by norm_num) (min_le_left _ _)⟩
  · unfold JitterManager.generateDelay
    rw [h4, h5]
    exact ⟨_, rfl, le_max_left _ _, max_le (by norm_num) (min_le_left _ _)⟩

/-! ## The text of a getter -/

/-- C27 at the failing input: the getter of `userAgent` is registered, and `toString()` of the
getter in the descriptor the patched `Object.getOwnPropertyDescriptor(obj, 'userAgent')`
returns gives `function get toString() { [native code] }`: inside the `get` trap the name
`prop` is the parameter of the trap, the key `toString` being read, not the property
queried. The text is the same for every property queried. -/
theorem getter_text_names_toString :
    ((MetaProxyInterceptor.getOwnPropertyDescriptor
        (MetaProxyInterceptor.chameleonRegisterIntercepted [] (demoFunction 1 "get"))
        demoDescriptorOf () "userAgent").bind (fun d => d.get)).map
      (MetaProxyInterceptor.Getter.callToString
        (MetaProxyInterceptor.chameleonRegisterIntercepted [] (demoFunction 1 "get"))
        demoToString)
      = some (.ok "function get toString() \x7b [native code] \x7d") ∧
    (∀ prop : String,
      ((MetaProxyInterceptor.getOwnPropertyDescriptor [1] demoDescriptorOf () prop).bind
        (fun d => d.get)).map (MetaProxyInterceptor.Getter.callToString [1] demoToString)
        = some (.ok "function get toString() \x7b [native code] \x7d")) ∧
    "function get toString() \x7b [native code] \x7d"
      ≠ "function get userAgent() \x7b [native code] \x7d" := by
  refine ⟨by decide, fun prop => rfl, by decide⟩

/-! ## The text of a function -/

theorem dropWhile_append_eq (p : Char → Bool) (s : List Char) (hs : s.dropWhile p = s) :
    ∀ l : List Char, ((l ++ s).dropWhile p = s ↔ ∀ c ∈ l, p c = true) := by
  intro l
  induction l with
  | nil => simp [hs]
  | cons a l ih =>
    by_cases ha : p a = true
    · simp only [List.cons_append, List.dropWhile_cons, ha, if_true, List.mem_cons,
        forall_eq_or_imp, true_and]
      exact ih
    · simp only [List.cons_append, List.dropWhile_cons, ha, List.mem_cons,
        forall_eq_or_imp, Bool.false_eq_true, if_false, false_and, iff_false]
      intro heq
      have hlen := congrArg List.length heq
      simp only [List.length_cons, List.length_append] at hlen
      omega

theorem matchesNativeForm_name (name : String) :
    matchesNativeForm ("function " ++ name ++ "() \x7b [native code] \x7d") = true
      ↔ ∀ c ∈ name.toList, (c.isAlphanum || c == '_' || c == '$') = true := by
  have hlist : ("function " ++ name ++ "() \x7b [native code] \x7d").toList
      = "function ".toList ++ (name.toList ++ "() \x7b [native code] \x7d".toList) := by
    show (("function " ++ name) ++ "() \x7b [native code] \x7d").data = _
    rw [String.data_append, String.data_append, List.append_assoc]
    rfl
  have htake : ("function ".toList ++ (name.toList ++ "() \x7b [native code] \x7d".toList)).take 9
      = "function ".toList := List.take_left' rfl
  have hdrop : ("function ".toList ++ (name.toList ++ "() \x7b [native code] \x7d".toList)).drop 9
      = name.toList ++ "() \x7b [native code] \x7d".toList := List.drop_left' rfl
  unfold matchesNativeForm
  rw [hlist, htake, hdrop]
  simp only [beq_self_eq_true, Bool.true_and, beq_iff_eq]
  exact dropWhile_append_eq _ _ (by decide) _

theorem registry_contains_registered (registry : MetaProxyInterceptor.Registry)
    (fn : MetaProxyInterceptor.Value) (hfn : fn.isFunction = true) :
    (MetaProxyInterceptor.chameleonRegisterIntercepted registry fn).contains fn.ref = true := by
  unfold MetaProxyInterceptor.chameleonRegisterIntercepted
  rw [hfn, if_pos rfl]
  by_cases hc : registry.contains fn.ref = true
  · rw [if_pos hc]
    exact hc
  · rw [if_neg hc]
    simp

/-- C21 (counterexample): a registered function named `get userAgent`, as a native accessor
is: the patched `toString` returns `function get userAgent() { [native code] }`, which the
pattern does not match (the name holds a blank). -/
theorem native_form_counterexample :
    MetaProxyInterceptor.functionToString
        (MetaProxyInterceptor.chameleonRegisterIntercepted [] (demoFunction 1 "get userAgent"))
        demoToString (demoFunction 1 "get userAgent")
      = .ok "function get userAgent() \x7b [native code] \x7d" ∧
    matchesNativeForm "function get userAgent() \x7b [native code] \x7d" = false := by
  decide

/-- C21 (amended): for every function `f` in the registry (where
`chameleonRegisterIntercepted(f)` puts every function), the patched
`Function.prototype.toString` applied to `f` returns `function <f.name>() { [native code]
}` when `f` has a non-empty name and `function () { [native code] }` otherwise; this
text matches `/^function [\w$]*\(\) { \[native code\] }$/` exactly when every character of
the name is a letter, a digit, `_` or `$`. -/
theorem registered_function_prints_native (registry : MetaProxyInterceptor.Registry)
    (target : MetaProxyInterceptor.Value → Except JSError String)
    (f : MetaProxyInterceptor.Value) (hreg : registry.contains f.ref = true) :
    MetaProxyInterceptor.functionToString registry target f
      = .ok (if f.name.getD "" ≠ "" then
          "function " ++ f.name.getD "" ++ "() \x7b [native code] \x7d"
        else "function () \x7b [native code] \x7d") ∧
    (∀ text, MetaProxyInterceptor.functionToString registry target f = .ok text →
      (matchesNativeForm text = true
        ↔ ∀ c ∈ (f.name.getD "").toList, (c.isAlphanum || c == '_' || c == '$') = true)) ∧
    (∀ (registry0 : MetaProxyInterceptor.Registry) (g : MetaProxyInterceptor.Value),
      g.isFunction = true →
      (MetaProxyInterceptor.chameleonRegisterIntercepted registry0 g).contains g.ref = true) := by
  have hrun : MetaProxyInterceptor.functionToString registry target f
      = .ok (if f.name.getD "" ≠ "" then
          "function " ++ f.name.getD "" ++ "() \x7b [native code] \x7d"
        else "function () \x7b [native code] \x7d") := by
    unfold MetaProxyInterceptor.functionToString
    rw [if_pos hreg]
    dsimp only
    split <;> rfl
  refine ⟨hrun, fun text htext => ?_, registry_contains_registered⟩
  rw [hrun] at htext
  cases htext
  by_cases hname : f.name.getD "" ≠ ""
  · rw [if_pos hname]
    exact matchesNativeForm_name _
  · rw [if_neg hname, not_not.mp hname]
    constructor
    · intro _ c hc
      cases hc
    · intro _
      decide

/-- Witness of C21: the proxy on `getParameter`, registered. -/
theorem registered_function_prints_native_witness :
    MetaProxyInterceptor.functionToString
        (MetaProxyInterceptor.chameleonRegisterIntercepted [] (demoFunction 1 "getParameter"))
        demoToString (demoFunction 1 "getParameter")
      = .ok "function getParameter() \x7b [native code] \x7d" :=
  (registered_function_prints_native
    (MetaProxyInterceptor.chameleonRegisterIntercepted [] (demoFunction 1 "getParameter"))
    demoToString (demoFunction 1 "getParameter") (by decide)).1

/-- C22 (counterexample): a function that is not in the registry and is named
`bound getContext`: the patched `toString` returns `function getContext() { [native code]
}`, the original another text. -/
theorem bound_function_counterexample :
    MetaProxyInterceptor.functionToString [] demoToString (demoFunction 7 "bound getContext")
      = .ok "function getContext() \x7b [native code] \x7d" ∧
    demoToString (demoFunction 7 "bound getContext")
      = .ok "function () \x7b [native code] \x7d" ∧
    List.contains ([] : MetaProxyInterceptor.Registry) (demoFunction 7 "bound getContext").ref
      = false := by
  decide

/-- C22 (amended): for every value that is not in the registry, the patched
`Function.prototype.toString` does what the original does (returns its text, or throws as it
does), unless the value is truthy, `Object.prototype.toString` calls it `[object Function]`
and its name matches `/^bound (.+)$/`; in that case it returns `function <rest>() { [native
code] }` for the rest of the name after `bound `. -/
theorem unregistered_function_prints_original (registry : MetaProxyInterceptor.Registry)
    (target : MetaProxyInterceptor.Value → Except JSError String)
    (thisArg : MetaProxyInterceptor.Value) (hreg : registry.contains thisArg.ref = false) :
    ((thisArg.truthy = false ∨ thisArg.tag ≠ some "[object Function]"
        ∨ thisArg.name.bind MetaProxyInterceptor.boundMatch = none) →
      MetaProxyInterceptor.functionToString registry target thisArg = target thisArg) ∧
    (∀ captured, thisArg.truthy = true → thisArg.tag = some "[object Function]" →
      thisArg.name.bind MetaProxyInterceptor.boundMatch = some captured →
      MetaProxyInterceptor.functionToString registry target thisArg
        = .ok ("function " ++ captured ++ "() \x7b [native code] \x7d")) ∧
    (∀ name captured, MetaProxyInterceptor.boundMatch name = some captured →
      name = "bound " ++ captured ∧ captured ≠ "") := by
  refine ⟨fun hcase => ?_, fun captured h1 h2 h3 => ?_, fun name captured hm => ?_⟩
  · unfold MetaProxyInterceptor.functionToString
    rw [hreg]
    simp only [Bool.false_eq_true, if_false]
    rcases hcase with h | h | h
    · simp [h]
    · have : (thisArg.tag == some "[object Function]") = false := by
        simpa using h
      simp [this]
    · rw [h]
      simp
  · unfold MetaProxyInterceptor.functionToString
    rw [hreg]
    simp [h1, h2, h3]
  · unfold MetaProxyInterceptor.boundMatch at hm
    dsimp only at hm
    split at hm
    · rename_i hcond
      simp only [Bool.and_eq_true, beq_iff_eq, Bool.not_eq_true', List.isEmpty_eq_false] at hcond
      cases hm
      obtain ⟨⟨htake, hne⟩, _⟩ := hcond
      constructor
      · apply String.ext
        show name.toList = ("bound " ++ String.mk (name.toList.drop 6)).data
        rw [String.data_append]
        show name.toList = "bound ".toList ++ name.toList.drop 6
        rw [← htake, List.take_append_drop]
      · intro hempty
        apply hne
        have := congrArg String.toList hempty
        exact this
    · cases hm

/-- Witness of C22: a function named `draw` that is not in the registry. -/
theorem unregistered_function_prints_original_witness :
    MetaProxyInterceptor.functionToString [1] demoToString (demoFunction 7 "draw")
      = demoToString (demoFunction 7 "draw") :=
  (unregistered_function_prints_original [1] demoToString (demoFunction 7 "draw")
    (by decide)).1 (Or.inr (Or.inr (by decide)))

/-! ## The lines of a stack trace -/

theorem splitLines_single : ∀ l : List Char, '\n' ∉ l →
    MetaProxyInterceptor.splitLines l = [l] := by
  intro l
  induction l with
  | nil => intro _; rfl
  | cons c l ih =>
    intro hl
    have hc : c ≠ '\n' := fun h => hl (by rw [h]; exact List.mem_cons_self _ _)
    have hl' : '\n' ∉ l := fun h => hl (List.mem_cons_of_mem _ h)
    unfold MetaProxyInterceptor.splitLines
    rw [if_neg hc, ih hl']

theorem splitLines_append : ∀ (l rest : List Char), '\n' ∉ l →
    MetaProxyInterceptor.splitLines (l ++ '\n' :: rest)
      = l :: MetaProxyInterceptor.splitLines rest := by
  intro l rest
  induction l with
  | nil =>
    intro _
    show MetaProxyInterceptor.splitLines ('\n' :: rest) = _
    simp only [MetaProxyInterceptor.splitLines, if_true]
  | cons c l ih =>
    intro hl
    have hc : c ≠ '\n' := fun h => hl (by rw [h]; exact List.mem_cons_self _ _)
    have hl' : '\n' ∉ l := fun h => hl (List.mem_cons_of_mem _ h)
    show MetaProxyInterceptor.splitLines (c :: (l ++ '\n' :: rest)) = _
    simp only [MetaProxyInterceptor.splitLines, hc, if_false, ih hl']

theorem splitLines_joinLines : ∀ lines : List (List Char), lines ≠ [] →
    (∀ l ∈ lines, '\n' ∉ l) →
    MetaProxyInterceptor.splitLines (MetaProxyInterceptor.joinLines lines) = lines := by
  intro lines
  induction lines with
  | nil => intro h; exact absurd rfl h
  | cons l rest ih =>
    intro _ hall
    cases rest with
    | nil => exact splitLines_single l (hall l (List.mem_cons_self _ _))
    | cons l' rest' =>
      show MetaProxyInterceptor.splitLines
        (l ++ '\n' :: MetaProxyInterceptor.joinLines (l' :: rest')) = _
      rw [splitLines_append l _ (hall l (List.mem_cons_self _ _)),
        ih (List.cons_ne_nil _ _) (fun x hx => hall x (List.mem_cons_of_mem _ hx))]

theorem splitLines_no_newline : ∀ (cs : List Char),
    ∀ l ∈ MetaProxyInterceptor.splitLines cs, '\n' ∉ l := by
  intro cs
  induction cs with
  | nil =>
    intro l hl
    simp only [MetaProxyInterceptor.splitLines, List.mem_singleton] at hl
    rw [hl]
    exact List.not_mem_nil _
  | cons c cs ih =>
    intro l hl
    unfold MetaProxyInterceptor.splitLines at hl
    by_cases hc : c = '\n'
    · rw [if_pos hc] at hl
      rcases List.mem_cons.mp hl with h | h
      · rw [h]
        exact List.not_mem_nil _
      · exact ih l h
    · rw [if_neg hc] at hl
      cases hs : MetaProxyInterceptor.splitLines cs with
      | nil =>
        rw [hs] at hl
        simp only [List.mem_singleton] at hl
        rw [hl]
        simp [Ne.symm hc]
      | cons line lines =>
        rw [hs] at hl ih
        rcases List.mem_cons.mp hl with h | h
        · rw [h]
          intro hmem
          rcases List.mem_cons.mp hmem with h1 | h1
          · exact hc h1.symm
          · exact ih line (List.mem_cons_self _ _) h1
        · exact ih l (List.mem_cons_of_mem _ h)

theorem jsSplit_jsJoin (lines : List String) (hne : lines ≠ [])
    (hall : ∀ l ∈ lines, '\n' ∉ l.toList) :
    MetaProxyInterceptor.jsSplitLines (MetaProxyInterceptor.jsJoinLines lines) = lines := by
  unfold MetaProxyInterceptor.jsSplitLines MetaProxyInterceptor.jsJoinLines
  show (MetaProxyInterceptor.splitLines
    (MetaProxyInterceptor.joinLines (lines.map String.toList))).map String.mk = lines
  rw [splitLines_joinLines]
  · rw [List.map_map]
    conv_rhs => rw [← List.map_id lines]
    exact List.map_congr_left (fun _ _ => rfl)
  · intro h
    exact hne (List.map_eq_nil_iff.mp h)
  · intro l hl
    obtain ⟨x, hx, rfl⟩ := List.mem_map.mp hl
    exact hall x hx

/-- C23: a stack that is no string, and the empty string, are returned unchanged. For every
stack string, `cleanStackTrace` returns the lines of the input (the pieces between line
feeds), in their order, without the lines whose lower-case form contains `chameleon`,
`interceptor` or `chrome-extension://`, joined by line feeds: when lines are left, the lines of
the result are exactly these, and when none is left the result is the empty string. A line of
the input is kept exactly when its lower-case form contains none of the three. -/
theorem stack_trace_lines_filtered {ν : Type} (h : Host) (stack : String) :
    (∀ value : ν, MetaProxyInterceptor.cleanStackTrace h (.other value) = .other value) ∧
    MetaProxyInterceptor.cleanStackTrace h (.str "" : MetaProxyInterceptor.StackValue ν)
      = .str "" ∧
    (stack ≠ "" →
      MetaProxyInterceptor.cleanStackTrace h (.str stack : MetaProxyInterceptor.StackValue ν)
        = .str (MetaProxyInterceptor.jsJoinLines
            ((MetaProxyInterceptor.jsSplitLines stack).filter
              (MetaProxyInterceptor.keepsLine h)))) ∧
    ((MetaProxyInterceptor.jsSplitLines stack).filter (MetaProxyInterceptor.keepsLine h) ≠ [] →
      MetaProxyInterceptor.jsSplitLines (MetaProxyInterceptor.jsJoinLines
          ((MetaProxyInterceptor.jsSplitLines stack).filter (MetaProxyInterceptor.keepsLine h)))
        = (MetaProxyInterceptor.jsSplitLines stack).filter (MetaProxyInterceptor.keepsLine h)) ∧
    ((MetaProxyInterceptor.jsSplitLines stack).filter (MetaProxyInterceptor.keepsLine h) = [] →
      MetaProxyInterceptor.jsJoinLines
          ((MetaProxyInterceptor.jsSplitLines stack).filter (MetaProxyInterceptor.keepsLine h))
        = "") ∧
    ((MetaProxyInterceptor.jsSplitLines stack).filter (MetaProxyInterceptor.keepsLine h)).Sublist
      (MetaProxyInterceptor.jsSplitLines stack) ∧
    (∀ line,
      line ∈ (MetaProxyInterceptor.jsSplitLines stack).filter (MetaProxyInterceptor.keepsLine h)
        ↔ line ∈ MetaProxyInterceptor.jsSplitLines stack ∧
          jsIncludes (h.toLowerCase line) "chameleon" = false ∧
          jsIncludes (h.toLowerCase line) "interceptor" = false ∧
          jsIncludes (h.toLowerCase line) "chrome-extension://" = false) := by
  refine ⟨fun _ => rfl, rfl, fun hne => ?_, fun hkept => ?_, fun hnone => ?_,
    List.filter_sublist _, fun line => ?_⟩
  · simp only [MetaProxyInterceptor.cleanStackTrace, hne, if_false]
  · refine jsSplit_jsJoin _ hkept (fun l hl => ?_)
    have hmem := (List.mem_filter.mp hl).1
    unfold MetaProxyInterceptor.jsSplitLines at hmem
    obtain ⟨x, hx, rfl⟩ := List.mem_map.mp hmem
    exact splitLines_no_newline _ x hx
  · rw [hnone]
    rfl
  · rw [List.mem_filter]
    unfold MetaProxyInterceptor.keepsLine
    simp only [Bool.and_eq_true, Bool.not_eq_true', and_assoc]

/-- Witness of C23: a stack of four lines, of which the third names the canvas interceptor. -/
theorem stack_trace_lines_filtered_witness :
    MetaProxyInterceptor.cleanStackTrace demoHost
        (.str ("Error: x\n    at foo (app.js:1)\n    at CanvasInterceptor.apply "
          ++ "(chrome-extension://abc/canvas.js:3)\n    at bar (app.js:9)") :
          MetaProxyInterceptor.StackValue Unit)
      = .str (MetaProxyInterceptor.jsJoinLines
          ((MetaProxyInterceptor.jsSplitLines
            ("Error: x\n    at foo (app.js:1)\n    at CanvasInterceptor.apply "
              ++ "(chrome-extension://abc/canvas.js:3)\n    at bar (app.js:9)")).filter
            (MetaProxyInterceptor.keepsLine demoHost))) ∧
    MetaProxyInterceptor.jsJoinLines
        ((MetaProxyInterceptor.jsSplitLines
          ("Error: x\n    at foo (app.js:1)\n    at CanvasInterceptor.apply "
            ++ "(chrome-extension://abc/canvas.js:3)\n    at bar (app.js:9)")).filter
          (MetaProxyInterceptor.keepsLine demoHost))
      = "Error: x\n    at foo (app.js:1)\n    at bar (app.js:9)" :=
  ⟨(stack_trace_lines_filtered demoHost
      ("Error: x\n    at foo (app.js:1)\n    at CanvasInterceptor.apply "
        ++ "(chrome-extension://abc/canvas.js:3)\n    at bar (app.js:9)")).2.2.1 (by decide),
   by decide!⟩

end Chameleon
